import Mathlib

/-!
# LEDStripTest: cluster lifecycle and frame composition

A shallow embedding of `LEDCluster` (LEDCluster.h / LEDCluster.cpp) and of
`LEDClusterController` (LEDClusterController.h / LEDClusterController.cpp).

Conventions of the embedding

* `uint8_t`, `uint16_t`, `uint32_t` values are natural numbers; an operation
  whose C++ result is reduced modulo `2^w` carries the reduction explicitly.
* `int32_t` values are integers; the results of `position++`, `position--` and
  `position+length` are brought back into the 32-bit range by `toInt32`.
* The integer promotions are those of a target whose `int` has 32 bits; the
  expressions of the modelled code whose value depends on that choice are
  `numPixels()-1` for a strip of zero pixels and the bounds `len-peak`,
  `len+peak` handed to `random` when they leave the 16-bit range.
* A cluster pointer held by the controller is modelled by the value of the
  cluster it points to; `NULL` is `none`.
* The pixel driver, the millisecond clock, the random generator and the HSV
  conversion are collaborators outside the repository; they are parameters.
-/

set_option autoImplicit false

/-! ## Machine integers -/

/-- Value of an integer expression after conversion to `uint8_t`. -/
def toUInt8 (x : Int) : Nat := (x % 256).toNat

/-- Value of an integer expression after conversion to `uint16_t`. -/
def toUInt16 (x : Int) : Nat := (x % 65536).toNat

/-- Value of an integer expression after conversion to `uint32_t`. -/
def toUInt32 (x : Int) : Nat := (x % 4294967296).toNat

/-- Value of an integer expression brought into the range of `int32_t`
(two-complement wrap-around). -/
def toInt32 (x : Int) : Int := (x + 2147483648) % 4294967296 - 2147483648

/-- Difference `a - b` of two `uint32_t` values, computed modulo `2^32`. -/
def subUInt32 (a b : Nat) : Nat := (a + 4294967296 - b % 4294967296) % 4294967296

/-! ## Colours and pixel cells (LEDCluster.h) -/

def COLOR_RED : Nat := 0xFF0000
def COLOR_GREEN : Nat := 0x00FF00
def COLOR_YELLOW : Nat := 0xFFFF00
def COLOR_BLUE : Nat := 0x0000FF
def COLOR_CYAN : Nat := 0x00FFFF
def COLOR_MAGENTA : Nat := 0xFF00FF
def COLOR_BLACK : Nat := 0x000000
def COLOR_WHITE : Nat := 0xffffff

/-- One cell of `union PixelColor`: three bytes of storage, named after the
members of the `rgbColor` view.  The `hsvColor` view shares the storage: the
16-bit `hue` lies over `red` (low byte) and `green` (high byte) and
`saturation` lies over `blue`. -/
structure PixelColor where
  red : Nat
  green : Nat
  blue : Nat
deriving DecidableEq, Repr

/-- Member `hsvColor.hue` of the union. -/
def PixelColor.hue (p : PixelColor) : Nat := p.red + 256 * p.green

/-- Member `hsvColor.saturation` of the union. -/
def PixelColor.saturation (p : PixelColor) : Nat := p.blue

/-- The enumeration `Direction`. -/
inductive Direction where
  | NoD
  | LtR
  | RtL
  | BaF
deriving DecidableEq, Repr

/-- The data members of `class LEDCluster`. -/
structure LEDCluster where
  length : Nat
  pixels : List PixelColor
  direction : Direction
  wrapAround : Bool
  backAndForth : Bool
  updateInterval : Nat
  startTime : Nat
  startInterval : Nat
  startPosition : Int
  saturationInterval : Nat
  peakLength : Nat
  position : Int
  done : Bool
  lastUpdate : Nat
deriving DecidableEq, Repr

/-- Collaborators that are not part of the repository, and the cluster
methods that `LEDClusterController::show` calls but that neither
LEDCluster.h nor LEDCluster.cpp declares.

* `millis k` is the value returned by the `k`-th call of `millis()`;
* `random k lo hi` is the value returned by the `k`-th call of `random(lo, hi)`;
* `colorHSV` and `gamma32` are the driver's colour conversions;
* `isPixelSource` and `getSourceHue` are the two undeclared cluster getters. -/
structure Env where
  millis : Nat → Nat
  random : Nat → Int → Int → Int
  colorHSV : Nat → Nat → Nat → Nat
  gamma32 : Nat → Nat
  isPixelSource : LEDCluster → Bool
  getSourceHue : LEDCluster → Nat

/-- How many clock readings and random draws have been taken so far. -/
structure World where
  ticks : Nat
  draws : Nat
deriving DecidableEq, Repr

/-- One call of `millis()`: an `unsigned long` reading. -/
def World.millis (env : Env) (w : World) : Nat × World :=
  (env.millis w.ticks % 4294967296, { w with ticks := w.ticks + 1 })

/-- One call of `random(lo, hi)`. -/
def World.random (env : Env) (w : World) (lo hi : Int) : Int × World :=
  (env.random w.draws lo hi, { w with draws := w.draws + 1 })

namespace LEDCluster

/-- Constructor `LEDCluster::LEDCluster(numLEDs)`.  The cells of the freshly
allocated buffer are not written by the constructor; they are taken as zero. -/
def construct (numLEDs : Nat) : LEDCluster :=
  { length := numLEDs
    pixels := List.replicate numLEDs ⟨0, 0, 0⟩
    direction := Direction.NoD
    wrapAround := false
    backAndForth := false
    updateInterval := 0
    startTime := 0
    startInterval := 0
    startPosition := 0
    saturationInterval := 0
    peakLength := 0
    position := 0
    done := false
    lastUpdate := 0 }

/-- `setRGBPixel(no, color)`; `(color >> 16) & 0xff` is `color / 65536 % 256`. -/
def setRGBPixel (c : LEDCluster) (no : Nat) (color : Nat) : LEDCluster :=
  if no < c.length then
    { c with pixels := c.pixels.set no ⟨color / 65536 % 256, color / 256 % 256, color % 256⟩ }
  else c

/-- `getRGBPixel(no)`; the three bytes are disjoint, so the bitwise or of the
shifted bytes is their sum. -/
def getRGBPixel (c : LEDCluster) (no : Nat) : Nat :=
  if no < c.length then
    let p := c.pixels.getD no ⟨0, 0, 0⟩
    p.red * 65536 + p.green * 256 + p.blue
  else 0

/-- `setHSVPixel(no, hue, saturation)` with `hue` a `uint16_t` and
`saturation` a `uint8_t`. -/
def setHSVPixel (c : LEDCluster) (no : Nat) (hue : Nat) (saturation : Nat) : LEDCluster :=
  if no < c.length then
    { c with pixels := c.pixels.set no ⟨hue % 256, hue / 256 % 256, saturation % 256⟩ }
  else c

/-- `getHSVPixel(no)`. -/
def getHSVPixel (env : Env) (c : LEDCluster) (no : Nat) : Nat :=
  if no < c.length then
    let p := c.pixels.getD no ⟨0, 0, 0⟩
    env.gamma32 (env.colorHSV p.hue p.saturation 255)
  else 0

/-- Modelled from the spec: `getHue(no)` is called by the controller but is not
declared in LEDCluster.h; it answers the stored hue of the cell, and zero
outside the buffer like the declared getters. -/
def getHue (c : LEDCluster) (no : Nat) : Nat :=
  if no < c.length then (c.pixels.getD no ⟨0, 0, 0⟩).hue else 0

/-- Modelled from the spec: `getSaturation(no)` is called by the controller but
is not declared in LEDCluster.h; it answers the stored saturation of the cell,
and zero outside the buffer like the declared getters. -/
def getSaturation (c : LEDCluster) (no : Nat) : Nat :=
  if no < c.length then (c.pixels.getD no ⟨0, 0, 0⟩).saturation else 0

def setDirection (c : LEDCluster) (dir : Direction) : LEDCluster :=
  { c with direction := dir }

def enableWrapAround (c : LEDCluster) : LEDCluster :=
  { c with wrapAround := true, backAndForth := false }

def enableBackAndForth (c : LEDCluster) : LEDCluster :=
  { c with backAndForth := true, wrapAround := false }

def setUpdateInterval (c : LEDCluster) (interval : Nat) : LEDCluster :=
  { c with updateInterval := interval }

def setStartInterval (c : LEDCluster) (interval : Nat) : LEDCluster :=
  { c with startInterval := interval }

def setStartPosition (c : LEDCluster) (pos : Int) : LEDCluster :=
  { c with startPosition := pos }

def setStartTime (c : LEDCluster) (time : Nat) : LEDCluster :=
  { c with startTime := time }

def setPosition (c : LEDCluster) (pos : Int) : LEDCluster :=
  { c with position := pos }

def markDone (c : LEDCluster) : LEDCluster :=
  { c with done := true }

/-- `shouldMove()`, where `currentTime` is the reading its call of `millis()`
returned. -/
def shouldMove (c : LEDCluster) (currentTime : Nat) : Bool × LEDCluster :=
  if subUInt32 currentTime c.lastUpdate > c.updateInterval then
    (true, { c with lastUpdate := currentTime })
  else (false, c)

/-- `hasPixel(pixelNo)` for a `uint16_t` argument.  Both comparisons are made
in `int32_t`. -/
def hasPixel (c : LEDCluster) (pixelNo : Nat) : Bool :=
  if ((pixelNo : Int) < c.position) || ((pixelNo : Int) ≥ toInt32 (c.position + c.length)) then
    false
  else true

def isPulsar (c : LEDCluster) : Bool :=
  if c.saturationInterval > 0 then true else false

def isPeakMeter (c : LEDCluster) : Bool :=
  if c.peakLength > 0 then true else false

/-- `getPixelColorAtIndex(pixelNo)`; the local index is converted to the
`uint16_t` parameter of `getRGBPixel`. -/
def getPixelColorAtIndex (c : LEDCluster) (pixelNo : Nat) : Nat :=
  if !c.hasPixel pixelNo then 0
  else
    let index : Int := toInt32 ((pixelNo : Int) - c.position)
    c.getRGBPixel (toUInt16 index)

/-- `getPulsarAtIndex(pixelNo)`: the colour answered and the cluster after the
saturation of the local cell has been advanced. -/
def getPulsarAtIndex (env : Env) (c : LEDCluster) (pixelNo : Nat) : Nat × LEDCluster :=
  if !c.hasPixel pixelNo then (0, c)
  else
    let index : Int := toInt32 ((pixelNo : Int) - c.position)
    let p := c.pixels.getD index.toNat ⟨0, 0, 0⟩
    let q : PixelColor := { p with blue := (p.saturation + c.saturationInterval) % 256 }
    (env.gamma32 (env.colorHSV q.hue q.saturation 255),
      { c with pixels := c.pixels.set index.toNat q })

end LEDCluster

/-! ## The controller (LEDClusterController.h / LEDClusterController.cpp) -/

/-- The data members of `class LEDClusterController`, with the part of the
inherited pixel driver that the controller uses: `numLEDs` is the value of
`numPixels()` and `strip` is the driver's colour buffer. -/
structure LEDClusterController where
  numLEDs : Nat
  strip : List Nat
  maxClusters : Nat
  clusters : List (Option LEDCluster)
  numClusters : Nat
  running : Bool
deriving DecidableEq, Repr

namespace LEDClusterController

/-- Modelled from the spec: `numPixels()` of the pixel driver, the strip length. -/
def numPixels (ctl : LEDClusterController) : Nat := ctl.numLEDs

/-- Modelled from the spec: `setPixelColor(index, color)` of the pixel driver;
an index outside the strip is ignored. -/
def setPixelColor (strip : List Nat) (n : Nat) (color : Nat) : List Nat :=
  if n < strip.length then strip.set n color else strip

/-- Modelled from the spec: `clear()` of the pixel driver. -/
def clear (ctl : LEDClusterController) : LEDClusterController :=
  { ctl with strip := List.replicate ctl.strip.length 0 }

/-- Constructor.  The array of `maxClusters` pointers is allocated without
being written (taken as `NULL` throughout) and `running` is not assigned by
the constructor, so its first value is a parameter. -/
def construct (numLEDs : Nat) (maxClusters : Nat) (running : Bool) : LEDClusterController :=
  { numLEDs := numLEDs
    strip := List.replicate numLEDs 0
    maxClusters := maxClusters
    clusters := List.replicate maxClusters none
    numClusters := 0
    running := running }

/-- `begin()`: the first three pixels are set to red, green, blue. -/
def begin (ctl : LEDClusterController) : LEDClusterController :=
  { ctl with
    strip := setPixelColor (setPixelColor (setPixelColor ctl.strip 0 COLOR_RED) 1 COLOR_GREEN)
      2 COLOR_BLUE
    running := true }

/-- `end()`. -/
def end_ (ctl : LEDClusterController) : LEDClusterController :=
  { ctl.clear with running := false }

/-- `addCluster(cluster, position)`: the value returned, the controller
afterwards, and the cluster object afterwards. -/
def addCluster (ctl : LEDClusterController) (cluster : LEDCluster) (position : Int) :
    Bool × LEDClusterController × LEDCluster :=
  if ctl.numClusters ≥ ctl.maxClusters then (false, ctl, cluster)
  else if position < (ctl.numPixels : Int) then
    let cluster1 := (cluster.setStartPosition position).setPosition position
    (true,
      { ctl with
        clusters := ctl.clusters.set ctl.numClusters (some cluster1)
        numClusters := ctl.numClusters + 1 },
      cluster1)
  else (false, ctl, cluster)

/-- Colour of cell `i` of a bar of `width` cells: the rule of thirds shared by
the peak-meter loops. -/
def peakColor (width i : Nat) : Nat :=
  if i < width / 2 then COLOR_GREEN
  else if i < width / 2 + width / 3 then COLOR_YELLOW
  else COLOR_RED

/-- The peak-meter effect of `show()` (lines 131-147), entered after
`shouldMove()` answered true. -/
def peakMeterEffect (env : Env) (w : World) (c : LEDCluster) : LEDCluster × World :=
  let peak : Nat := c.peakLength
  let len : Nat := toUInt16 ((c.length : Int) - (peak : Int))
  let r := w.random env ((len : Int) - (peak : Int)) ((len : Int) + (peak : Int))
  let width : Nat := toUInt16 r.1
  let c1 := (List.range width).foldl (fun acc i => acc.setRGBPixel i (peakColor width i)) c
  let c2 := (List.range' width (c1.length - width)).foldl
    (fun acc i => acc.setRGBPixel i COLOR_BLACK) c1
  (c2, r.2)

/-- One cell of the two copy loops of the pixel-source effect: cell `src` is
copied to cell `dst` with its saturation lowered by `saturationDelta`. -/
def rippleCell (saturationDelta : Nat) (acc : LEDCluster) (src dst : Nat) : LEDCluster :=
  let hue := toUInt16 (acc.getHue src)
  let saturation := toUInt16 (acc.getSaturation src)
  if saturation ≥ saturationDelta then
    acc.setHSVPixel dst hue (toUInt8 ((saturation : Int) - (saturationDelta : Int)))
  else acc.setRGBPixel dst COLOR_BLACK

/-- The pixel-source effect of `show()` (lines 150-176).  For a cluster of
length below two the C++ code divides by zero; here `255 / 0` is `0`. -/
def pixelSourceEffect (env : Env) (c : LEDCluster) : LEDCluster :=
  let center : Nat := c.length / 2
  let saturationDelta : Nat := toUInt8 ((255 / center : Nat) : Int)
  let c1 := (List.range' 1 (center - 1)).foldl
    (fun acc i => rippleCell saturationDelta acc i (i - 1)) c
  let c2 := c1.setHSVPixel center (env.getSourceHue c1 % 65536) 255
  let start : Nat := toUInt16 ((c2.length : Int) - 2)
  (List.range' (center + 1) (start - center)).reverse.foldl
    (fun acc i => rippleCell saturationDelta acc i (toUInt16 ((i : Int) + 1))) c2

/-- The effect step of `show()` (lines 130-177):
`if (isPeakMeter() && shouldMove()) ... else if (isPixelSource()) ...`. -/
def effectStep (env : Env) (w : World) (c : LEDCluster) : LEDCluster × World :=
  if c.isPeakMeter then
    let t := w.millis env
    let m := c.shouldMove t.1
    if m.1 then peakMeterEffect env t.2 m.2
    else if env.isPixelSource m.2 then (pixelSourceEffect env m.2, t.2)
    else (m.2, t.2)
  else if env.isPixelSource c then (pixelSourceEffect env c, w)
  else (c, w)

/-- Body of the composite loop of `show()` (lines 183-198) for one strip index. -/
def compositePixel (env : Env) (acc : LEDCluster × List Nat) (pixelNo : Nat) :
    LEDCluster × List Nat :=
  if acc.1.hasPixel pixelNo then
    if acc.1.isPulsar then
      let r := acc.1.getPulsarAtIndex env pixelNo
      (r.2, setPixelColor acc.2 pixelNo r.1)
    else (acc.1, setPixelColor acc.2 pixelNo (acc.1.getPixelColorAtIndex pixelNo))
  else acc

/-- The composite loop of `show()` (lines 182-199). -/
def composite (env : Env) (numPixels : Nat) (c : LEDCluster) (strip : List Nat) :
    LEDCluster × List Nat :=
  (List.range numPixels).foldl (compositePixel env) (c, strip)

/-- Value of the local `position` of `show()` after the switch on the
direction (lines 202-213). -/
def advancedPosition (c : LEDCluster) : Int :=
  match c.direction with
  | Direction.NoD => c.position
  | Direction.LtR => toInt32 (c.position + 1)
  | Direction.RtL => toInt32 (c.position - 1)
  | Direction.BaF => c.position

/-- The position advance of `show()` (lines 202-245), entered after
`shouldMove()` answered true. -/
def advance (env : Env) (numPixels : Nat) (w : World) (c : LEDCluster) : LEDCluster × World :=
  let position : Int := advancedPosition c
  let length : Int := (c.length : Int)
  if position ≤ 0 - length then
    if c.wrapAround then (c.setPosition ((numPixels : Int) - 1), w)
    else if c.backAndForth then (c.setDirection Direction.LtR, w)
    else if c.startInterval > 0 then
      let t := w.millis env
      ((c.setStartTime ((c.startInterval + t.1) % 4294967296)).setPosition c.startPosition, t.2)
    else (c.markDone, w)
  else if position ≥ (numPixels : Int) then
    if c.wrapAround then (c.setPosition (1 - length), w)
    else if c.backAndForth then (c.setDirection Direction.RtL, w)
    else if c.startInterval > 0 then
      let t := w.millis env
      ((c.setStartTime ((c.startInterval + t.1) % 4294967296)).setPosition c.startPosition, t.2)
    else (c.markDone, w)
  else (c.setPosition position, w)

/-- The throttled position advance of `show()` (lines 201-246). -/
def moveStep (env : Env) (numPixels : Nat) (w : World) (c : LEDCluster) : LEDCluster × World :=
  let t := w.millis env
  let m := c.shouldMove t.1
  if m.1 then advance env numPixels t.2 m.2 else (m.2, t.2)

/-- Effect, composite and advance of one cluster that is not dormant
(lines 127-246). -/
def animateCluster (env : Env) (numPixels : Nat) (w : World) (c : LEDCluster)
    (strip : List Nat) : LEDCluster × List Nat × World :=
  let e := effectStep env w c
  let p := composite env numPixels e.1 strip
  let a := moveStep env numPixels e.2 p.1
  (a.1, p.2, a.2)

/-- Body of the cluster loop of `show()` for one cluster (lines 122-246); the
clock is read by the dormancy check only when `startInterval` is positive. -/
def processCluster (env : Env) (numPixels : Nat) (w : World) (c : LEDCluster)
    (strip : List Nat) : LEDCluster × List Nat × World :=
  if c.startInterval > 0 then
    let t := w.millis env
    if c.startTime > t.1 then (c, strip, t.2)
    else animateCluster env numPixels t.2 c strip
  else animateCluster env numPixels w c strip

/-- One iteration of the cluster loop of `show()`.  The slot is read, the
cluster is processed in place and the slot holds the processed cluster.  A
`NULL` slot cannot occur below `numClusters` (see `Owned`); it is passed over. -/
def clusterStep (env : Env) (acc : LEDClusterController × World) (clusterNo : Nat) :
    LEDClusterController × World :=
  match acc.1.clusters.getD clusterNo none with
  | none => acc
  | some c =>
    let r := processCluster env acc.1.numPixels acc.2 c acc.1.strip
    ({ acc.1 with clusters := acc.1.clusters.set clusterNo (some r.1), strip := r.2.1 }, r.2.2)

/-- The cluster loop of `show()` (lines 121-247). -/
def clusterLoop (env : Env) (w : World) (ctl : LEDClusterController) :
    LEDClusterController × World :=
  (List.range ctl.numClusters).foldl (clusterStep env) (ctl, w)

/-- The inner loop of the reap pass (lines 267-269):
`clusters[idx-1] = clusters[idx]` for `idx` from `clusterNo+1` below `numClusters`. -/
def shiftDown (clusters : List (Option LEDCluster)) (clusterNo numClusters : Nat) :
    List (Option LEDCluster) :=
  (List.range' (clusterNo + 1) (numClusters - (clusterNo + 1))).foldl
    (fun cl idx => cl.set (idx - 1) (cl.getD idx none)) clusters

/-- Removal of the cluster in slot `clusterNo` (lines 266-271): the cluster is
deleted, the later ones are shifted down, `numClusters` is decremented and the
slot that became free is set to `NULL`. -/
def removeAt (ctl : LEDClusterController) (clusterNo : Nat) : LEDClusterController :=
  let shifted := shiftDown ctl.clusters clusterNo ctl.numClusters
  let numClusters := ctl.numClusters - 1
  { ctl with clusters := shifted.set numClusters none, numClusters := numClusters }

/-- Whether the pointer in a slot designates a cluster flagged done. -/
def slotDone (slot : Option LEDCluster) : Bool :=
  match slot with
  | none => false
  | some c => c.done

/-- The reap loop of `show()` (lines 263-273) from index `clusterNo` on.  The
loop runs while `clusterNo < numClusters`; `fuel` bounds the number of
iterations (see `reapLoop_fuel`). -/
def reapLoop : Nat → Nat → LEDClusterController → LEDClusterController
  | 0, _, ctl => ctl
  | fuel + 1, clusterNo, ctl =>
    if clusterNo < ctl.numClusters then
      if slotDone (ctl.clusters.getD clusterNo none) then
        reapLoop fuel (clusterNo + 1) (removeAt ctl clusterNo)
      else reapLoop fuel (clusterNo + 1) ctl
    else ctl

/-- The reap pass of `show()`: the loop started at index zero.  Every
iteration increments `clusterNo`, so `numClusters` iterations are enough. -/
def reap (ctl : LEDClusterController) : LEDClusterController :=
  reapLoop ctl.numClusters 0 ctl

/-- `show()`. -/
def show_ (env : Env) (w : World) (ctl : LEDClusterController) :
    LEDClusterController × World :=
  if !ctl.running then (ctl, w)
  else
    let r := clusterLoop env w ctl.clear
    (reap r.1, r.2)

/-- The active set: the slots `clusters[0 .. numClusters)`. -/
def active (ctl : LEDClusterController) : List (Option LEDCluster) :=
  ctl.clusters.take ctl.numClusters

/-- The controller owns a cluster in every slot below `numClusters`, and
`numClusters` does not exceed the number of allocated slots. -/
def Owned (ctl : LEDClusterController) : Prop :=
  ctl.numClusters ≤ ctl.clusters.length ∧ ∀ slot ∈ ctl.active, slot ≠ none

end LEDClusterController

/-! ## Sequences of calls and sample data -/

namespace LEDClusterController

/-- The controller at the moment the reap pass of `show()` begins: the strip
has been cleared and every active cluster has been processed. -/
def preReap (env : Env) (w : World) (ctl : LEDClusterController) : LEDClusterController :=
  (clusterLoop env w ctl.clear).1

/-- `n` successive calls of `show()`. -/
def showFrames (env : Env) : Nat → LEDClusterController × World → LEDClusterController × World
  | 0, s => s
  | n + 1, s => showFrames env n (show_ env s.2 s.1)

/-- A call of the host program on the controller. -/
inductive Call where
  | addCluster (cluster : LEDCluster) (position : Int)
  | begin
  | end_
  | show_

/-- Effect of one call on the controller and on the collaborators. -/
def call (env : Env) (s : LEDClusterController × World) :
    Call → LEDClusterController × World
  | Call.addCluster cluster position => ((s.1.addCluster cluster position).2.1, s.2)
  | Call.begin => (s.1.begin, s.2)
  | Call.end_ => (s.1.end_, s.2)
  | Call.show_ => s.1.show_ env s.2

/-- Effect of a sequence of calls. -/
def run (env : Env) (s : LEDClusterController × World) (calls : List Call) :
    LEDClusterController × World :=
  calls.foldl (call env) s

end LEDClusterController

/-- Cluster `b` differs from cluster `a` at most in the pixel buffer and in
`lastUpdate`: what the effect step, the composite step and `shouldMove()` may
change. -/
def LEDCluster.Painted (a b : LEDCluster) : Prop :=
  b = { a with pixels := b.pixels, lastUpdate := b.lastUpdate }

/-- An operation on a cluster: one of the mutating members of `LEDCluster`,
or the processing of the cluster by one frame of `show()` on a strip of
`numPixels` pixels. -/
inductive LEDCluster.Op where
  | setRGBPixel (no color : Nat)
  | setHSVPixel (no hue saturation : Nat)
  | setDirection (dir : Direction)
  | enableWrapAround
  | enableBackAndForth
  | setUpdateInterval (interval : Nat)
  | setStartTime (time : Nat)
  | setStartInterval (interval : Nat)
  | setStartPosition (pos : Int)
  | setPosition (pos : Int)
  | markDone
  | shouldMove (currentTime : Nat)
  | getPulsarAtIndex (pixelNo : Nat)
  | frame (numPixels : Nat) (w : World) (strip : List Nat)

/-- The cluster after an operation. -/
def LEDCluster.apply (env : Env) (c : LEDCluster) : LEDCluster.Op → LEDCluster
  | LEDCluster.Op.setRGBPixel no color => c.setRGBPixel no color
  | LEDCluster.Op.setHSVPixel no hue saturation => c.setHSVPixel no hue saturation
  | LEDCluster.Op.setDirection dir => c.setDirection dir
  | LEDCluster.Op.enableWrapAround => c.enableWrapAround
  | LEDCluster.Op.enableBackAndForth => c.enableBackAndForth
  | LEDCluster.Op.setUpdateInterval interval => c.setUpdateInterval interval
  | LEDCluster.Op.setStartTime time => c.setStartTime time
  | LEDCluster.Op.setStartInterval interval => c.setStartInterval interval
  | LEDCluster.Op.setStartPosition pos => c.setStartPosition pos
  | LEDCluster.Op.setPosition pos => c.setPosition pos
  | LEDCluster.Op.markDone => c.markDone
  | LEDCluster.Op.shouldMove currentTime => (c.shouldMove currentTime).2
  | LEDCluster.Op.getPulsarAtIndex pixelNo => (c.getPulsarAtIndex env pixelNo).2
  | LEDCluster.Op.frame numPixels w strip =>
    (LEDClusterController.processCluster env numPixels w c strip).1

/-- No active cluster with the back-and-forth policy is flagged done. -/
def LEDClusterController.BackAndForthAlive (ctl : LEDClusterController) : Prop :=
  ∀ c : LEDCluster, some c ∈ ctl.active → c.backAndForth = true → c.done = false

/-- The cluster after it has been processed by a sequence of frames on a
strip of `numPixels` pixels; each frame comes with the state of the
collaborators and of the strip at the moment the cluster is reached. -/
def LEDClusterController.processFrames (env : Env) (numPixels : Nat) (c : LEDCluster)
    (frames : List (World × List Nat)) : LEDCluster :=
  frames.foldl (fun acc f => (LEDClusterController.processCluster env numPixels f.1 acc f.2).1) c

/-- Step that the switch of `show()` adds to the position for a direction. -/
def Direction.step : Direction → Int
  | Direction.NoD => 0
  | Direction.LtR => 1
  | Direction.RtL => -1
  | Direction.BaF => 0

namespace Sample

/-- Collaborators of the concrete checks: the clock reads 1000 ms at every
call, the random generator answers its lower bound, no cluster is a pixel
source. -/
def env : Env :=
  { millis := fun _ => 1000
    random := fun _ lo _ => lo
    colorHSV := fun hue saturation _ => hue * 256 + saturation
    gamma32 := fun x => x
    isPixelSource := fun _ => false
    getSourceHue := fun _ => 0 }

def world : World := ⟨0, 0⟩

/-- A one-pixel cluster of the given colour that moves left to right. -/
def runner (color : Nat) : LEDCluster :=
  ((LEDCluster.construct 1).setRGBPixel 0 color).setDirection Direction.LtR

/-- A one-pixel cluster of the given colour that does not move. -/
def still (color : Nat) : LEDCluster :=
  (LEDCluster.construct 1).setRGBPixel 0 color

/-- A running controller of ten pixels and four slots. -/
def empty : LEDClusterController :=
  (LEDClusterController.construct 10 4 false).begin

/-- Two runners registered on the last pixel: both leave the strip in the
next frame. -/
def twoRunners : LEDClusterController :=
  ((empty.addCluster (runner COLOR_RED) 9).2.1.addCluster (runner COLOR_GREEN) 9).2.1

/-- A cluster without pixels, with the wrap-around policy, one step left of a
strip without pixels and moving left to right. -/
def emptyWrapper : LEDCluster :=
  (((LEDCluster.construct 0).enableWrapAround).setDirection Direction.LtR).setPosition (-1)

/-- A five-pixel cluster with the wrap-around policy that moves left to right
and occupies the last pixel of a strip of twenty. -/
def wrapper : LEDCluster :=
  (((LEDCluster.construct 5).enableWrapAround).setDirection Direction.LtR).setPosition 19

/-- A one-pixel cluster with the back-and-forth policy that moves left to
right, on pixel 0. -/
def bouncer : LEDCluster :=
  ((LEDCluster.construct 1).enableBackAndForth).setDirection Direction.LtR

/-- A cluster without pixels, with the back-and-forth policy, one step left of
a strip without pixels and moving left to right. -/
def emptyBouncer : LEDCluster :=
  (((LEDCluster.construct 0).enableBackAndForth).setDirection Direction.LtR).setPosition (-1)

/-- A three-pixel cluster with the back-and-forth policy that moves left to
right and occupies the last pixel of a strip of ten. -/
def bouncer3 : LEDCluster :=
  (((LEDCluster.construct 3).enableBackAndForth).setDirection Direction.LtR).setPosition 9

/-- A one-pixel runner on the last pixel of a strip of ten that restarts at
its start position 2 every 500 ms. -/
def restarter : LEDCluster :=
  ((((Sample.runner COLOR_RED).setStartInterval 500).setStartPosition 2).setPosition 9)

/-- A still cluster, a runner on the last pixel, and another still cluster. -/
def stillRunnerStill : LEDClusterController :=
  (((empty.addCluster (still COLOR_RED) 0).2.1.addCluster (runner COLOR_GREEN) 9).2.1.addCluster
    (still COLOR_BLUE) 5).2.1

end Sample

namespace LEDClusterController

instance (ctl : LEDClusterController) : Decidable ctl.Owned := by
  unfold Owned
  infer_instance

end LEDClusterController

/-! ## Factories of `LEDCluster` and cell views -/

/-- The 24-bit value `0xRRGGBB` of the `rgbColor` view of a cell. -/
def PixelColor.rgb (p : PixelColor) : Nat := p.red * 65536 + p.green * 256 + p.blue

namespace LEDCluster

/-- Cell `i` of the pixel buffer. -/
def cell (c : LEDCluster) (i : Nat) : PixelColor := c.pixels.getD i ⟨0, 0, 0⟩

/-- `initRGBPixel(color)`; `allocated` tells whether the buffer could be
allocated (`isInitialized()`), otherwise the factory answers `NULL`. -/
def initRGBPixel (allocated : Bool) (color : Nat) : Option LEDCluster :=
  if allocated then some ((construct 1).setRGBPixel 0 color) else none

/-- `initRGBBar(color, length)`. -/
def initRGBBar (allocated : Bool) (color : Nat) (length : Nat) : Option LEDCluster :=
  if allocated then
    some ((List.range length).foldl (fun acc i => acc.setRGBPixel i color) (construct length))
  else none

/-- `initRGBRainbow(width)`; `spread` is a `uint16_t` and the hue handed to
`ColorHSV` is a `uint16_t`.  For `width = 0` the C++ code divides by zero;
here `65536 / 0` is `0`. -/
def initRGBRainbow (env : Env) (allocated : Bool) (width : Nat) : Option LEDCluster :=
  if allocated then
    let spread : Nat := toUInt16 ((65536 / width : Nat) : Int)
    some ((List.range width).foldl
      (fun acc i =>
        acc.setRGBPixel i
          (env.gamma32 (env.colorHSV (toUInt16 ((spread * i : Nat) : Int)) 255 255)))
      (construct width))
  else none

/-- `initRGBPattern(color, pattern)`; `pattern & (1 << bit)` is non-zero when
`pattern / 2^bit` is odd. -/
def initRGBPattern (allocated : Bool) (color : Nat) (pattern : Nat) : Option LEDCluster :=
  if allocated then
    some ((List.range 8).foldl
      (fun acc bit =>
        if pattern / 2 ^ bit % 2 ≠ 0 then acc.setRGBPixel bit color
        else acc.setRGBPixel bit COLOR_BLACK)
      (construct 8))
  else none

/-- `initPeakMeter(width, peakLength)` for `width + peakLength ≤ 65535`, where
the 16-bit counter of the second loop reaches its bound `width+peakLength`.
The length handed to the constructor is a `uint16_t`. -/
def initPeakMeter (allocated : Bool) (width : Nat) (peakLength : Nat) : Option LEDCluster :=
  if peakLength ≥ width then none
  else if allocated then
    let c0 : LEDCluster :=
      { construct (toUInt16 ((width + peakLength : Nat) : Int)) with peakLength := peakLength }
    let c1 := (List.range width).foldl
      (fun acc i =>
        if i < width / 2 then acc.setRGBPixel i COLOR_GREEN
        else if i < width / 2 + width / 3 then acc.setRGBPixel i COLOR_YELLOW
        else acc.setRGBPixel i COLOR_RED)
      c0
    some ((List.range' width peakLength).foldl (fun acc i => acc.setRGBPixel i COLOR_BLACK) c1)
  else none

/-- `initPulsarPixel(hue, saturationInterval)`. -/
def initPulsarPixel (allocated : Bool) (hue : Nat) (saturationInterval : Nat) :
    Option LEDCluster :=
  if allocated then
    some { (construct 1).setHSVPixel 0 hue saturationInterval with
      saturationInterval := saturationInterval }
  else none

/-- `initPulsarBar(hue, saturationInterval, length)`. -/
def initPulsarBar (allocated : Bool) (hue : Nat) (saturationInterval : Nat) (length : Nat) :
    Option LEDCluster :=
  if allocated then
    some { (List.range length).foldl (fun acc i => acc.setHSVPixel i hue saturationInterval)
        (construct length) with
      saturationInterval := saturationInterval }
  else none

/-- `initPulsarRainbow(saturationInterval, width)`; `spread` is a `uint16_t`
and the hue handed to `setHSVPixel` is a `uint16_t`.  For `width = 0` the C++
code divides by zero; here `65536 / 0` is `0`. -/
def initPulsarRainbow (allocated : Bool) (saturationInterval : Nat) (width : Nat) :
    Option LEDCluster :=
  if allocated then
    let spread : Nat := toUInt16 ((65536 / width : Nat) : Int)
    some { (List.range width).foldl
        (fun acc i => acc.setHSVPixel i (toUInt16 ((spread * i : Nat) : Int)) saturationInterval)
        (construct width) with
      saturationInterval := saturationInterval }
  else none

/-- The cluster after `n` successive calls of `getPulsarAtIndex(pixelNo)`. -/
def pulse (env : Env) (pixelNo : Nat) : Nat → LEDCluster → LEDCluster
  | 0, c => c
  | n + 1, c => pulse env pixelNo n (c.getPulsarAtIndex env pixelNo).2

end LEDCluster

namespace LEDCluster

/-- What `setRGBPixel` and `setHSVPixel` have in common: cell `no` is
overwritten when `no` is inside the buffer, otherwise nothing happens. -/
def setCell (c : LEDCluster) (no : Nat) (p : PixelColor) : LEDCluster :=
  if no < c.length then { c with pixels := c.pixels.set no p } else c

/-- The three bytes that `setRGBPixel` stores for a colour. -/
def rgbCell (color : Nat) : PixelColor :=
  ⟨color / 65536 % 256, color / 256 % 256, color % 256⟩

/-- The three bytes that `setHSVPixel` stores for a hue and a saturation. -/
def hsvCell (hue saturation : Nat) : PixelColor :=
  ⟨hue % 256, hue / 256 % 256, saturation % 256⟩

end LEDCluster

/-- Cell `k` of a cluster after its saturation has been advanced by
`saturationInterval` (modulo 256), as `getPulsarAtIndex` stores it. -/
def LEDCluster.pulsedCell (c : LEDCluster) (k : Nat) : PixelColor :=
  { c.cell k with blue := ((c.cell k).saturation + c.saturationInterval) % 256 }

namespace Sample

/-- A pulsar bar of three cells (hue 1000, saturation and saturation interval
10) at position 4. -/
def pulsar : LEDCluster :=
  ((LEDCluster.initPulsarBar true 1000 10 3).getD (LEDCluster.construct 0)).setPosition 4

/-- A red bar of three cells at position 4. -/
def bar : LEDCluster :=
  ((LEDCluster.initRGBBar true COLOR_RED 3).getD (LEDCluster.construct 0)).setPosition 4

end Sample

namespace LEDClusterController

/-- State of the cluster loop of `show()` when cluster `k` is reached: the
strip has been cleared and the clusters `0 .. k-1` have been processed. -/
def loopState (env : Env) (w : World) (ctl : LEDClusterController) (k : Nat) :
    LEDClusterController × World :=
  (List.range k).foldl (clusterStep env) (ctl.clear, w)

/-- The dormancy test of `show()` (line 123) for a cluster, the clock being
read in the state `w` of the collaborators. -/
def dormant (env : Env) (w : World) (c : LEDCluster) : Bool :=
  decide (c.startInterval > 0) && decide (c.startTime > (w.millis env).1)

/-- The collaborators after the dormancy test: the clock has been read when
`startInterval` is positive. -/
def afterDormancyTest (env : Env) (w : World) (c : LEDCluster) : World :=
  if c.startInterval > 0 then (w.millis env).2 else w

/-- The colour that the composite loop of `show()` fetches from a cluster for
a strip index: through the pulsar accessor for a pulsar, through the plain
accessor otherwise. -/
def fetch (env : Env) (c : LEDCluster) (i : Nat) : Nat :=
  if c.isPulsar then (c.getPulsarAtIndex env i).1 else c.getPixelColorAtIndex i

/-- The cluster of slot `k` as it enters the composite loop in a frame of
`show()`: nothing when the slot is empty or the cluster is dormant, otherwise
the cluster after its effect step. -/
def composited (env : Env) (w : World) (ctl : LEDClusterController) (k : Nat) :
    Option LEDCluster :=
  match ctl.clusters.getD k none with
  | none => none
  | some c =>
    if dormant env (loopState env w ctl k).2 c then none
    else some (effectStep env (afterDormancyTest env (loopState env w ctl k).2 c) c).1

end LEDClusterController

namespace Sample

/-- A red bar of three cells registered at position 4 and a green one-pixel
cluster registered after it at position 5, on the running controller of ten
pixels. -/
def overlap : LEDClusterController :=
  ((empty.addCluster bar 4).2.1.addCluster (still COLOR_GREEN) 5).2.1

/-- A peak meter of width 4 and peak length 2 that is to move left to right. -/
def meter : LEDCluster :=
  ((LEDCluster.initPeakMeter true 4 2).getD (LEDCluster.construct 0)).setDirection Direction.LtR

/-- A one-pixel cluster that sleeps until 5000 ms (start interval 500 ms). -/
def sleeper : LEDCluster :=
  ((still COLOR_RED).setStartInterval 500).setStartTime 5000

/-- The sleeper registered at position 0 on the running controller. -/
def sleeping : LEDClusterController :=
  (empty.addCluster sleeper 0).2.1

end Sample

namespace Sample

end Sample

namespace LEDClusterController

/-- The cell that one iteration of the copy loops of the pixel-source effect
stores for the source cell `p` (lines 156-161 and 170-175): hue and saturation
are read into `uint16_t` locals, and the cell written is the hue with the
saturation lowered by `saturationDelta`, or black. -/
def rippled (saturationDelta : Nat) (p : PixelColor) : PixelColor :=
  if toUInt16 ((p.saturation : Nat) : Int) ≥ saturationDelta then
    LEDCluster.hsvCell (toUInt16 ((p.hue : Nat) : Int))
      (toUInt8 ((toUInt16 ((p.saturation : Nat) : Int) : Int) - (saturationDelta : Int)))
  else LEDCluster.rgbCell COLOR_BLACK

end LEDClusterController

namespace Sample

/-- Collaborators for which every cluster is a pixel source with source hue
7777. -/
def sourceEnv : Env :=
  { env with
    isPixelSource := fun _ => true
    getSourceHue := fun _ => 7777 }

/-- A cluster of six cells: cell `i` has hue `100 * (i + 1)` and saturation
`50 * i`. -/
def source : LEDCluster :=
  (List.range 6).foldl (fun acc i => acc.setHSVPixel i (100 * (i + 1)) (50 * i))
    (LEDCluster.construct 6)

end Sample

/-- A cluster of at least one cell (`length` a `uint16_t`) whose position and
start position both leave at least one of its cells on a strip of `n`
pixels. -/
def LEDCluster.OnStrip (c : LEDCluster) (n : Nat) : Prop :=
  1 ≤ c.length ∧ c.length < 65536 ∧
  -(c.length : Int) < c.position ∧ c.position < (n : Int) ∧
  -(c.length : Int) < c.startPosition ∧ c.startPosition < (n : Int)

/-- Every active cluster is on the strip of `n` pixels of the controller. -/
def LEDClusterController.AllOnStrip (ctl : LEDClusterController) (n : Nat) : Prop :=
  ctl.numLEDs = n ∧ ctl.numClusters ≤ ctl.clusters.length ∧
  ∀ c : LEDCluster, some c ∈ ctl.active → c.OnStrip n

namespace Sample

/-- The restarting runner on the last pixel and a bouncer of three cells on
the running controller of ten pixels. -/
def travellers : LEDClusterController :=
  ((empty.addCluster restarter 9).2.1.addCluster bouncer3 9).2.1

end Sample

/-- No active cluster with a start interval is flagged done. -/
def LEDClusterController.RestartersAlive (ctl : LEDClusterController) : Prop :=
  ∀ c : LEDCluster, some c ∈ ctl.active → 0 < c.startInterval → c.done = false

/-! ## Theorems -/

/-! ### The reap pass -/

namespace LEDClusterController

theorem shiftFold_getElem? (m k : Nat) (cl : List (Option LEDCluster)) (j : Nat)
    (hlen : k + 1 + m ≤ cl.length) :
    ((List.range' (k + 1) m).foldl (fun cl idx => cl.set (idx - 1) (cl.getD idx none)) cl)[j]? =
      if k ≤ j ∧ j + 1 < k + 1 + m then cl[j + 1]? else cl[j]? := by
  induction m generalizing k cl with
  | zero =>
    rw [if_neg (by omega)]
    rfl
  | succ m ih =>
    have hsl : k + 1 < cl.length := by omega
    rw [List.range'_succ, List.foldl_cons, ih (k + 1) _ (by rw [List.length_set]; omega),
      Nat.add_sub_cancel, List.getD_eq_getElem?_getD, List.getElem?_eq_getElem hsl,
      Option.getD_some, List.getElem?_set, List.getElem?_set]
    by_cases h1 : k + 1 ≤ j ∧ j + 1 < k + 1 + 1 + m
    · rw [if_pos h1, if_neg (by omega), if_pos (by omega)]
    · rw [if_neg h1]
      by_cases h4 : k = j
      · subst h4
        rw [if_pos rfl, if_pos (by omega), if_pos (by omega), List.getElem?_eq_getElem hsl]
      · rw [if_neg h4]
        by_cases h5 : k ≤ j ∧ j + 1 < k + 1 + (m + 1)
        · exfalso; omega
        · rw [if_neg h5]

theorem shiftDown_getElem? (cl : List (Option LEDCluster)) (k n j : Nat)
    (hk : k < n) (hn : n ≤ cl.length) :
    (shiftDown cl k n)[j]? = if k ≤ j ∧ j + 1 < n then cl[j + 1]? else cl[j]? := by
  unfold shiftDown
  rw [shiftFold_getElem? _ _ _ _ (by omega)]
  by_cases h : k ≤ j ∧ j + 1 < n
  · rw [if_pos h, if_pos (by omega)]
  · rw [if_neg h, if_neg (by omega)]

theorem shiftFold_length (l : List Nat) (cl : List (Option LEDCluster)) :
    (l.foldl (fun cl idx => cl.set (idx - 1) (cl.getD idx none)) cl).length = cl.length := by
  induction l generalizing cl with
  | nil => rfl
  | cons a l ih => rw [List.foldl_cons, ih]; simp

theorem shiftDown_length (cl : List (Option LEDCluster)) (k n : Nat) :
    (shiftDown cl k n).length = cl.length := by
  unfold shiftDown
  exact shiftFold_length _ _

theorem removeAt_numClusters (ctl : LEDClusterController) (k : Nat) :
    (removeAt ctl k).numClusters = ctl.numClusters - 1 := rfl

theorem removeAt_length (ctl : LEDClusterController) (k : Nat) :
    (removeAt ctl k).clusters.length = ctl.clusters.length := by
  simp [removeAt, shiftDown_length]

theorem removeAt_getElem? (ctl : LEDClusterController) (k j : Nat)
    (hk : k < ctl.numClusters) (hn : ctl.numClusters ≤ ctl.clusters.length) :
    (removeAt ctl k).clusters[j]? =
      if j + 1 = ctl.numClusters then some none
      else if k ≤ j ∧ j + 1 < ctl.numClusters then ctl.clusters[j + 1]?
      else ctl.clusters[j]? := by
  show ((shiftDown ctl.clusters k ctl.numClusters).set (ctl.numClusters - 1) none)[j]? = _
  rw [List.getElem?_set, shiftDown_length]
  by_cases h : ctl.numClusters - 1 = j
  · rw [if_pos h, if_pos (by omega), if_pos (by omega)]
  · rw [if_neg h, if_neg (by omega)]
    exact shiftDown_getElem? _ _ _ _ hk hn

theorem removeAt_active (ctl : LEDClusterController) (k : Nat)
    (hk : k < ctl.numClusters) (hn : ctl.numClusters ≤ ctl.clusters.length) :
    (removeAt ctl k).active = ctl.active.eraseIdx k := by
  apply List.ext_getElem?
  intro j
  unfold active
  rw [List.getElem?_take, removeAt_getElem? ctl k j hk hn, removeAt_numClusters,
    List.getElem?_eraseIdx, List.getElem?_take, List.getElem?_take]
  by_cases h1 : j < ctl.numClusters - 1
  · rw [if_pos h1, if_neg (by omega)]
    by_cases h5 : k ≤ j
    · rw [if_pos (by omega), if_neg (by omega), if_pos (by omega)]
    · rw [if_neg (by omega), if_pos (by omega), if_pos (by omega)]
  · rw [if_neg h1]
    by_cases h5 : j < k
    · rw [if_pos h5, if_neg (by omega)]
    · rw [if_neg h5, if_neg (by omega)]

theorem filter_eraseIdx_done (l : List (Option LEDCluster)) (k : Nat)
    (h : slotDone (l.getD k none) = true) :
    (l.eraseIdx k).filter (fun slot => !slotDone slot) =
      l.filter (fun slot => !slotDone slot) := by
  induction l generalizing k with
  | nil => rfl
  | cons a l ih =>
    cases k with
    | zero =>
      have ha : slotDone a = true := by simpa using h
      simp [List.filter_cons, ha]
    | succ k =>
      have hk : slotDone (l.getD k none) = true := by simpa using h
      simp only [List.eraseIdx_cons_succ, List.filter_cons, ih k hk]

theorem active_getD (ctl : LEDClusterController) (k : Nat) (hk : k < ctl.numClusters) :
    ctl.active.getD k none = ctl.clusters.getD k none := by
  unfold active
  rw [List.getD_eq_getElem?_getD, List.getD_eq_getElem?_getD, List.getElem?_take, if_pos hk]

/-- What the reap loop does to the controller, for any amount of fuel and any
starting index. -/
theorem reapLoop_spec (fuel k : Nat) (ctl : LEDClusterController)
    (hn : ctl.numClusters ≤ ctl.clusters.length) :
    (reapLoop fuel k ctl).numClusters ≤ ctl.numClusters ∧
    (reapLoop fuel k ctl).clusters.length = ctl.clusters.length ∧
    (reapLoop fuel k ctl).active.Sublist ctl.active ∧
    (ctl.active.filter (fun slot => !slotDone slot)).Sublist (reapLoop fuel k ctl).active ∧
    (∀ i, ctl.numClusters ≤ i → (reapLoop fuel k ctl).clusters[i]? = ctl.clusters[i]?) ∧
    (∀ i, (reapLoop fuel k ctl).numClusters ≤ i → i < ctl.numClusters →
      (reapLoop fuel k ctl).clusters[i]? = some none) := by
  induction fuel generalizing k ctl with
  | zero =>
    refine ⟨le_refl _, rfl, List.Sublist.refl _, List.filter_sublist _, fun _ _ => rfl, ?_⟩
    intro i h1 h2
    exact absurd h1 (by simp only [reapLoop]; omega)
  | succ fuel ih =>
    by_cases hk : k < ctl.numClusters
    · by_cases hd : slotDone (ctl.clusters.getD k none) = true
      · have hstep : reapLoop (fuel + 1) k ctl = reapLoop fuel (k + 1) (removeAt ctl k) := by
          simp only [reapLoop, if_pos hk, if_pos hd]
        have hn1 : (removeAt ctl k).numClusters ≤ (removeAt ctl k).clusters.length := by
          rw [removeAt_numClusters, removeAt_length]; omega
        obtain ⟨i1, i2, i3, i4, i5, i6⟩ := ih (k + 1) (removeAt ctl k) hn1
        rw [hstep]
        rw [removeAt_numClusters] at i1 i5 i6
        rw [removeAt_length] at i2
        rw [removeAt_active ctl k hk hn] at i3 i4
        refine ⟨by omega, i2, i3.trans (List.eraseIdx_sublist _ _), ?_, ?_, ?_⟩
        · rw [filter_eraseIdx_done _ _ (by rw [active_getD ctl k hk]; exact hd)] at i4
          exact i4
        · intro i hi
          rw [i5 i (by omega), removeAt_getElem? ctl k i hk hn, if_neg (by omega),
            if_neg (by omega)]
        · intro i h1 h2
          by_cases h3 : i < ctl.numClusters - 1
          · exact i6 i h1 h3
          · rw [i5 i (by omega), removeAt_getElem? ctl k i hk hn, if_pos (by omega)]
      · have hstep : reapLoop (fuel + 1) k ctl = reapLoop fuel (k + 1) ctl := by
          simp only [reapLoop, if_pos hk, if_neg hd]
        rw [hstep]
        exact ih (k + 1) ctl hn
    · have hstep : reapLoop (fuel + 1) k ctl = ctl := by
        simp only [reapLoop, if_neg hk]
      rw [hstep]
      refine ⟨le_refl _, rfl, List.Sublist.refl _, List.filter_sublist _, fun _ _ => rfl, ?_⟩
      intro i h1 h2
      omega

/-- The fuel handed to the reap loop by `reap` is enough: with
`numClusters - clusterNo` iterations available the loop has met its exit
test, so any larger amount of fuel gives the same controller. -/
theorem reapLoop_fuel (fuel extra k : Nat) (ctl : LEDClusterController)
    (h : ctl.numClusters ≤ k + fuel) :
    reapLoop (fuel + extra) k ctl = reapLoop fuel k ctl := by
  induction fuel generalizing k ctl with
  | zero =>
    cases extra with
    | zero => rfl
    | succ e =>
      have hk : ¬ (k < ctl.numClusters) := by omega
      simp only [Nat.zero_add, reapLoop, if_neg hk]
  | succ fuel ih =>
    have e : fuel + 1 + extra = (fuel + extra) + 1 := by omega
    rw [e]
    by_cases hk : k < ctl.numClusters
    · by_cases hd : slotDone (ctl.clusters.getD k none) = true
      · simp only [reapLoop, if_pos hk, if_pos hd]
        exact ih (k + 1) (removeAt ctl k) (by rw [removeAt_numClusters]; omega)
      · simp only [reapLoop, if_pos hk, if_neg hd]
        exact ih (k + 1) ctl (by omega)
    · simp only [reapLoop, if_neg hk]

theorem reapLoop_frame (fuel k : Nat) (ctl : LEDClusterController) :
    (reapLoop fuel k ctl).maxClusters = ctl.maxClusters ∧
    (reapLoop fuel k ctl).numLEDs = ctl.numLEDs ∧
    (reapLoop fuel k ctl).strip = ctl.strip ∧
    (reapLoop fuel k ctl).running = ctl.running := by
  induction fuel generalizing k ctl with
  | zero => exact ⟨rfl, rfl, rfl, rfl⟩
  | succ fuel ih =>
    by_cases hk : k < ctl.numClusters
    · by_cases hd : slotDone (ctl.clusters.getD k none) = true
      · simp only [reapLoop, if_pos hk, if_pos hd]
        exact ih (k + 1) (removeAt ctl k)
      · simp only [reapLoop, if_pos hk, if_neg hd]
        exact ih (k + 1) ctl
    · have hstep : reapLoop (fuel + 1) k ctl = ctl := by
        simp only [reapLoop, if_neg hk]
      rw [hstep]
      exact ⟨rfl, rfl, rfl, rfl⟩

end LEDClusterController

/-! ### The cluster loop -/

namespace LEDClusterController

theorem getD_some_getElem? (cl : List (Option LEDCluster)) (i : Nat) (c : LEDCluster)
    (h : cl.getD i none = some c) : cl[i]? = some (some c) := by
  rw [List.getD_eq_getElem?_getD] at h
  cases hc : cl[i]? with
  | none => rw [hc] at h; simp at h
  | some x => rw [hc] at h; simp at h; rw [h]

theorem clusterStep_none (env : Env) (acc : LEDClusterController × World) (m : Nat)
    (h : acc.1.clusters.getD m none = none) : clusterStep env acc m = acc := by
  unfold clusterStep
  rw [h]

theorem clusterStep_some (env : Env) (acc : LEDClusterController × World) (m : Nat)
    (c : LEDCluster) (h : acc.1.clusters.getD m none = some c) :
    clusterStep env acc m =
      ({ acc.1 with
          clusters := acc.1.clusters.set m
            (some (processCluster env acc.1.numPixels acc.2 c acc.1.strip).1)
          strip := (processCluster env acc.1.numPixels acc.2 c acc.1.strip).2.1 },
        (processCluster env acc.1.numPixels acc.2 c acc.1.strip).2.2) := by
  unfold clusterStep
  rw [h]

/-- What the first `m` iterations of the cluster loop do to the controller:
the bookkeeping members are untouched, the slots from `m` on are untouched,
and a slot below `m` is either untouched or holds the cluster it held at the
start after that cluster has been processed. -/
theorem clusterFold_spec (env : Env) (ctl : LEDClusterController) (w : World) (m : Nat) :
    ((List.range m).foldl (clusterStep env) (ctl, w)).1.numClusters = ctl.numClusters ∧
    ((List.range m).foldl (clusterStep env) (ctl, w)).1.maxClusters = ctl.maxClusters ∧
    ((List.range m).foldl (clusterStep env) (ctl, w)).1.numLEDs = ctl.numLEDs ∧
    ((List.range m).foldl (clusterStep env) (ctl, w)).1.running = ctl.running ∧
    ((List.range m).foldl (clusterStep env) (ctl, w)).1.clusters.length = ctl.clusters.length ∧
    (∀ i, m ≤ i →
      ((List.range m).foldl (clusterStep env) (ctl, w)).1.clusters[i]? = ctl.clusters[i]?) ∧
    (∀ i, i < m →
      ((List.range m).foldl (clusterStep env) (ctl, w)).1.clusters[i]? = ctl.clusters[i]? ∨
      ∃ c w1 strip, ctl.clusters[i]? = some (some c) ∧
        ((List.range m).foldl (clusterStep env) (ctl, w)).1.clusters[i]? =
          some (some (processCluster env ctl.numLEDs w1 c strip).1)) := by
  induction m with
  | zero =>
    refine ⟨rfl, rfl, rfl, rfl, rfl, fun _ _ => rfl, ?_⟩
    intro i hi
    omega
  | succ m ih =>
    rw [List.range_succ, List.foldl_append, List.foldl_cons, List.foldl_nil]
    obtain ⟨h1, h2, h3, h4, h5, h6, h7⟩ := ih
    generalize (List.range m).foldl (clusterStep env) (ctl, w) = s at h1 h2 h3 h4 h5 h6 h7
    cases hc : s.1.clusters.getD m none with
    | none =>
      rw [clusterStep_none env s m hc]
      refine ⟨h1, h2, h3, h4, h5, fun i hi => h6 i (by omega), ?_⟩
      intro i hi
      by_cases him : i < m
      · exact h7 i him
      · exact Or.inl (h6 i (by omega))
    | some c =>
      rw [clusterStep_some env s m c hc]
      refine ⟨h1, h2, h3, h4, ?_, ?_, ?_⟩
      · show (s.1.clusters.set m _).length = _
        rw [List.length_set, h5]
      · intro i hi
        show (s.1.clusters.set m _)[i]? = _
        rw [List.getElem?_set, if_neg (by omega)]
        exact h6 i (by omega)
      · intro i hi
        dsimp only
        by_cases him : i < m
        · rw [List.getElem?_set, if_neg (by omega)]
          exact h7 i him
        · have hmi : m = i := by omega
          subst hmi
          have hs := getD_some_getElem? _ _ _ hc
          have hlen : m < s.1.clusters.length := by
            by_contra hcon
            rw [List.getElem?_eq_none (by omega)] at hs
            exact absurd hs (by simp)
          right
          refine ⟨c, s.2, s.1.strip, ?_, ?_⟩
          · rw [← h6 m (le_refl _)]
            exact hs
          · rw [List.getElem?_set, if_pos rfl, if_pos hlen, ← h3]
            rfl

theorem clusterLoop_spec (env : Env) (ctl : LEDClusterController) (w : World) :
    (clusterLoop env w ctl).1.numClusters = ctl.numClusters ∧
    (clusterLoop env w ctl).1.maxClusters = ctl.maxClusters ∧
    (clusterLoop env w ctl).1.numLEDs = ctl.numLEDs ∧
    (clusterLoop env w ctl).1.running = ctl.running ∧
    (clusterLoop env w ctl).1.clusters.length = ctl.clusters.length ∧
    (∀ i : Nat, (clusterLoop env w ctl).1.clusters[i]? = ctl.clusters[i]? ∨
      ∃ c w1 strip, ctl.clusters[i]? = some (some c) ∧
        (clusterLoop env w ctl).1.clusters[i]? =
          some (some (processCluster env ctl.numLEDs w1 c strip).1)) := by
  obtain ⟨h1, h2, h3, h4, h5, h6, h7⟩ := clusterFold_spec env ctl w ctl.numClusters
  refine ⟨h1, h2, h3, h4, h5, ?_⟩
  intro i
  by_cases hi : i < ctl.numClusters
  · exact h7 i hi
  · exact Or.inl (h6 i (by omega))

theorem mem_active_iff (ctl : LEDClusterController) (slot : Option LEDCluster) :
    slot ∈ ctl.active ↔ ∃ i, i < ctl.numClusters ∧ ctl.clusters[i]? = some slot := by
  unfold active
  rw [List.mem_iff_getElem?]
  constructor
  · rintro ⟨i, hi⟩
    rw [List.getElem?_take] at hi
    by_cases h : i < ctl.numClusters
    · rw [if_pos h] at hi
      exact ⟨i, h, hi⟩
    · rw [if_neg h] at hi
      exact absurd hi (by simp)
  · rintro ⟨i, h, hi⟩
    exact ⟨i, by rw [List.getElem?_take, if_pos h]; exact hi⟩

theorem active_length (ctl : LEDClusterController)
    (h : ctl.numClusters ≤ ctl.clusters.length) : ctl.active.length = ctl.numClusters := by
  unfold active
  rw [List.length_take]
  omega

theorem clear_active (ctl : LEDClusterController) : ctl.clear.active = ctl.active := rfl

theorem clusterLoop_owned (env : Env) (ctl : LEDClusterController) (w : World)
    (hown : ctl.Owned) : (clusterLoop env w ctl).1.Owned := by
  obtain ⟨h1, _, _, _, h5, h6⟩ := clusterLoop_spec env ctl w
  refine ⟨by rw [h1, h5]; exact hown.1, ?_⟩
  intro slot hslot
  rw [mem_active_iff] at hslot
  obtain ⟨i, hi, hs⟩ := hslot
  rw [h1] at hi
  rcases h6 i with h | ⟨c, w1, strip, _, h⟩
  · rw [h] at hs
    exact hown.2 slot ((mem_active_iff ctl slot).2 ⟨i, hi, hs⟩)
  · rw [h] at hs
    intro hnone
    rw [hnone] at hs
    simp at hs

theorem reap_owned (ctl : LEDClusterController) (h : ctl.Owned) : (reap ctl).Owned := by
  obtain ⟨r1, r2, r3, _, _, _⟩ := reapLoop_spec ctl.numClusters 0 ctl h.1
  refine ⟨?_, ?_⟩
  · show (reap ctl).numClusters ≤ (reap ctl).clusters.length
    have := h.1
    unfold reap
    omega
  · intro slot hslot
    exact h.2 slot (r3.subset hslot)

theorem preReap_owned (env : Env) (ctl : LEDClusterController) (w : World)
    (h : ctl.Owned) : (preReap env w ctl).Owned :=
  clusterLoop_owned env ctl.clear w h

theorem show_running (env : Env) (w : World) (ctl : LEDClusterController)
    (h : ctl.running = true) : (show_ env w ctl).1 = reap (preReap env w ctl) := by
  unfold show_ preReap
  rw [h]
  rfl

end LEDClusterController

/-! ### What one frame may change in a cluster -/

namespace LEDCluster

theorem Painted.refl (a : LEDCluster) : Painted a a := rfl

theorem Painted.trans {a b c : LEDCluster} (h1 : Painted a b) (h2 : Painted b c) :
    Painted a c := by
  unfold Painted at *
  rw [h2, h1]

theorem Painted.foldl {α : Type} (f : LEDCluster → α → LEDCluster)
    (hf : ∀ acc x, Painted acc (f acc x)) (l : List α) (a : LEDCluster) :
    Painted a (l.foldl f a) := by
  induction l generalizing a with
  | nil => exact Painted.refl a
  | cons x l ih => exact (hf a x).trans (ih (f a x))

theorem setRGBPixel_painted (c : LEDCluster) (no color : Nat) :
    Painted c (c.setRGBPixel no color) := by
  unfold setRGBPixel
  split
  · rfl
  · exact Painted.refl c

theorem setHSVPixel_painted (c : LEDCluster) (no hue saturation : Nat) :
    Painted c (c.setHSVPixel no hue saturation) := by
  unfold setHSVPixel
  split
  · rfl
  · exact Painted.refl c

theorem shouldMove_painted (c : LEDCluster) (t : Nat) : Painted c (c.shouldMove t).2 := by
  unfold shouldMove
  split
  · rfl
  · exact Painted.refl c

theorem getPulsarAtIndex_painted (env : Env) (c : LEDCluster) (pixelNo : Nat) :
    Painted c (c.getPulsarAtIndex env pixelNo).2 := by
  unfold getPulsarAtIndex
  split
  · exact Painted.refl c
  · rfl

end LEDCluster

namespace LEDClusterController

open LEDCluster

theorem rippleCell_painted (d : Nat) (c : LEDCluster) (src dst : Nat) :
    Painted c (rippleCell d c src dst) := by
  unfold rippleCell
  dsimp only
  split
  · exact setHSVPixel_painted _ _ _ _
  · exact setRGBPixel_painted _ _ _

theorem peakMeterEffect_painted (env : Env) (w : World) (c : LEDCluster) :
    Painted c (peakMeterEffect env w c).1 := by
  unfold peakMeterEffect
  dsimp only
  exact (Painted.foldl _ (fun acc i => setRGBPixel_painted acc i _) _ c).trans
    (Painted.foldl _ (fun acc i => setRGBPixel_painted acc i _) _ _)

theorem pixelSourceEffect_painted (env : Env) (c : LEDCluster) :
    Painted c (pixelSourceEffect env c) := by
  unfold pixelSourceEffect
  dsimp only
  exact ((Painted.foldl _ (fun acc i => rippleCell_painted _ acc i _) _ c).trans
    (setHSVPixel_painted _ _ _ _)).trans
    (Painted.foldl _ (fun acc i => rippleCell_painted _ acc i _) _ _)

theorem effectStep_painted (env : Env) (w : World) (c : LEDCluster) :
    Painted c (effectStep env w c).1 := by
  unfold effectStep
  dsimp only
  split
  · split
    · exact (shouldMove_painted c _).trans (peakMeterEffect_painted env _ _)
    · split
      · exact (shouldMove_painted c _).trans (pixelSourceEffect_painted env _)
      · exact shouldMove_painted c _
  · split
    · exact pixelSourceEffect_painted env c
    · exact Painted.refl c

theorem compositePixel_painted (env : Env) (acc : LEDCluster × List Nat) (pixelNo : Nat) :
    Painted acc.1 (compositePixel env acc pixelNo).1 := by
  unfold compositePixel
  split
  · split
    · exact getPulsarAtIndex_painted env acc.1 pixelNo
    · exact Painted.refl _
  · exact Painted.refl _

theorem compositeFold_painted (env : Env) (l : List Nat) (acc : LEDCluster × List Nat) :
    Painted acc.1 (l.foldl (compositePixel env) acc).1 := by
  induction l generalizing acc with
  | nil => exact Painted.refl _
  | cons x l ih => exact (compositePixel_painted env acc x).trans (ih _)

theorem composite_painted (env : Env) (n : Nat) (c : LEDCluster) (strip : List Nat) :
    Painted c (composite env n c strip).1 :=
  compositeFold_painted env _ (c, strip)

/-- Shape of the processing of one cluster by a frame: the cluster is first
repainted (pixel buffer and `lastUpdate` only), and the repainted cluster is
then either kept or handed to the position advance. -/
theorem processCluster_shape (env : Env) (n : Nat) (w : World) (c : LEDCluster)
    (strip : List Nat) :
    ∃ c1 : LEDCluster, Painted c c1 ∧
      ((processCluster env n w c strip).1 = c1 ∨
        ∃ w1 : World, (processCluster env n w c strip).1 = (advance env n w1 c1).1) := by
  have key : ∀ w0 : World, ∃ c1 : LEDCluster, Painted c c1 ∧
      ((animateCluster env n w0 c strip).1 = c1 ∨
        ∃ w1 : World, (animateCluster env n w0 c strip).1 = (advance env n w1 c1).1) := by
    intro w0
    have hp := (effectStep_painted env w0 c).trans
      (composite_painted env n (effectStep env w0 c).1 strip)
    unfold animateCluster moveStep
    dsimp only
    split
    · exact ⟨_, hp.trans (shouldMove_painted _ _), Or.inr ⟨_, rfl⟩⟩
    · exact ⟨_, hp.trans (shouldMove_painted _ _), Or.inl rfl⟩
  unfold processCluster
  dsimp only
  split
  · split
    · exact ⟨c, Painted.refl c, Or.inl rfl⟩
    · exact key _
  · exact key _

end LEDClusterController

/-! ### The position advance -/

namespace LEDClusterController

open LEDCluster

theorem advancedPosition_eq (c : LEDCluster)
    (hfit : -2147483648 ≤ c.position + c.direction.step ∧
      c.position + c.direction.step ≤ 2147483647) :
    advancedPosition c = c.position + c.direction.step := by
  unfold advancedPosition Direction.step toInt32 at *
  cases hd : c.direction <;> rw [hd] at hfit <;> simp only [] at hfit ⊢ <;> omega

/-- For values of the declared types, the advanced position computed by the
code lies outside the strip range exactly when `position + step` does, also
when the 32-bit increment wraps. -/
theorem outside_iff (c : LEDCluster) (n : Nat)
    (hpos : -2147483648 ≤ c.position ∧ c.position ≤ 2147483647)
    (hlen : c.length < 65536) (hstrip : n < 65536) :
    (advancedPosition c ≤ -(c.length : Int) ∨ (n : Int) ≤ advancedPosition c) ↔
      (c.position + c.direction.step ≤ -(c.length : Int) ∨
        (n : Int) ≤ c.position + c.direction.step) := by
  unfold advancedPosition Direction.step toInt32
  cases hd : c.direction <;> simp only [] <;> omega

theorem advance_wrap_low (env : Env) (n : Nat) (w : World) (c : LEDCluster)
    (hwrap : c.wrapAround = true) (hlow : advancedPosition c ≤ -(c.length : Int)) :
    advance env n w c = ({ c with position := (n : Int) - 1 }, w) := by
  unfold advance
  dsimp only
  rw [if_pos (by omega), if_pos hwrap]
  rfl

theorem advance_wrap_high (env : Env) (n : Nat) (w : World) (c : LEDCluster)
    (hwrap : c.wrapAround = true) (hlow : -(c.length : Int) < advancedPosition c)
    (hhigh : (n : Int) ≤ advancedPosition c) :
    advance env n w c = ({ c with position := 1 - (c.length : Int) }, w) := by
  unfold advance
  dsimp only
  rw [if_neg (by omega), if_pos (by omega), if_pos hwrap]
  rfl

theorem advance_flip_low (env : Env) (n : Nat) (w : World) (c : LEDCluster)
    (hwrap : c.wrapAround = false) (hbaf : c.backAndForth = true)
    (hlow : advancedPosition c ≤ -(c.length : Int)) :
    advance env n w c = ({ c with direction := Direction.LtR }, w) := by
  unfold advance
  dsimp only
  rw [if_pos (by omega), if_neg (by rw [hwrap]; simp), if_pos hbaf]
  rfl

theorem advance_flip_high (env : Env) (n : Nat) (w : World) (c : LEDCluster)
    (hwrap : c.wrapAround = false) (hbaf : c.backAndForth = true)
    (hlow : -(c.length : Int) < advancedPosition c) (hhigh : (n : Int) ≤ advancedPosition c) :
    advance env n w c = ({ c with direction := Direction.RtL }, w) := by
  unfold advance
  dsimp only
  rw [if_neg (by omega), if_pos (by omega), if_neg (by rw [hwrap]; simp), if_pos hbaf]
  rfl

theorem advance_restart (env : Env) (n : Nat) (w : World) (c : LEDCluster)
    (hwrap : c.wrapAround = false) (hbaf : c.backAndForth = false)
    (hsi : 0 < c.startInterval)
    (hout : advancedPosition c ≤ -(c.length : Int) ∨ (n : Int) ≤ advancedPosition c) :
    advance env n w c =
      ({ c with
          startTime := (c.startInterval + (w.millis env).1) % 4294967296
          position := c.startPosition },
        (w.millis env).2) := by
  unfold advance
  dsimp only
  by_cases hlow : advancedPosition c ≤ 0 - (c.length : Int)
  · rw [if_pos hlow, if_neg (by rw [hwrap]; simp), if_neg (by rw [hbaf]; simp), if_pos hsi]
    rfl
  · rw [if_neg hlow, if_pos (by omega), if_neg (by rw [hwrap]; simp),
      if_neg (by rw [hbaf]; simp), if_pos hsi]
    rfl

theorem advance_markDone (env : Env) (n : Nat) (w : World) (c : LEDCluster)
    (hwrap : c.wrapAround = false) (hbaf : c.backAndForth = false)
    (hsi : c.startInterval = 0)
    (hout : advancedPosition c ≤ -(c.length : Int) ∨ (n : Int) ≤ advancedPosition c) :
    advance env n w c = ({ c with done := true }, w) := by
  unfold advance
  dsimp only
  by_cases hlow : advancedPosition c ≤ 0 - (c.length : Int)
  · rw [if_pos hlow, if_neg (by rw [hwrap]; simp), if_neg (by rw [hbaf]; simp),
      if_neg (by omega)]
    rfl
  · rw [if_neg hlow, if_pos (by omega), if_neg (by rw [hwrap]; simp),
      if_neg (by rw [hbaf]; simp), if_neg (by omega)]
    rfl

theorem advance_inside (env : Env) (n : Nat) (w : World) (c : LEDCluster)
    (hlow : -(c.length : Int) < advancedPosition c) (hhigh : advancedPosition c < (n : Int)) :
    advance env n w c = ({ c with position := advancedPosition c }, w) := by
  unfold advance
  dsimp only
  rw [if_neg (by omega), if_neg (by omega)]
  rfl

/-- Every branch of the position advance leaves the configuration of the
cluster alone, never clears `done`, and sets `done` only for a cluster
without boundary policy. -/
theorem advance_frame (env : Env) (n : Nat) (w : World) (c : LEDCluster) :
    (advance env n w c).1.length = c.length ∧
    (advance env n w c).1.wrapAround = c.wrapAround ∧
    (advance env n w c).1.backAndForth = c.backAndForth ∧
    (advance env n w c).1.startInterval = c.startInterval ∧
    (advance env n w c).1.startPosition = c.startPosition ∧
    (advance env n w c).1.pixels = c.pixels ∧
    (c.done = true → (advance env n w c).1.done = true) ∧
    ((c.wrapAround = true ∨ c.backAndForth = true ∨ 0 < c.startInterval) →
      (advance env n w c).1.done = c.done) := by
  by_cases hlow : advancedPosition c ≤ -(c.length : Int)
  · by_cases hwrap : c.wrapAround = true
    · rw [advance_wrap_low env n w c hwrap hlow]
      exact ⟨rfl, rfl, rfl, rfl, rfl, rfl, fun h => h, fun _ => rfl⟩
    · have hwrap : c.wrapAround = false := by simpa using hwrap
      by_cases hbaf : c.backAndForth = true
      · rw [advance_flip_low env n w c hwrap hbaf hlow]
        exact ⟨rfl, rfl, rfl, rfl, rfl, rfl, fun h => h, fun _ => rfl⟩
      · have hbaf : c.backAndForth = false := by simpa using hbaf
        by_cases hsi : 0 < c.startInterval
        · rw [advance_restart env n w c hwrap hbaf hsi (Or.inl hlow)]
          exact ⟨rfl, rfl, rfl, rfl, rfl, rfl, fun h => h, fun _ => rfl⟩
        · rw [advance_markDone env n w c hwrap hbaf (by omega) (Or.inl hlow)]
          refine ⟨rfl, rfl, rfl, rfl, rfl, rfl, fun _ => rfl, ?_⟩
          intro h
          rcases h with h | h | h
          · rw [hwrap] at h; exact absurd h (by simp)
          · rw [hbaf] at h; exact absurd h (by simp)
          · exact absurd h hsi
  · by_cases hhigh : (n : Int) ≤ advancedPosition c
    · by_cases hwrap : c.wrapAround = true
      · rw [advance_wrap_high env n w c hwrap (by omega) hhigh]
        exact ⟨rfl, rfl, rfl, rfl, rfl, rfl, fun h => h, fun _ => rfl⟩
      · have hwrap : c.wrapAround = false := by simpa using hwrap
        by_cases hbaf : c.backAndForth = true
        · rw [advance_flip_high env n w c hwrap hbaf (by omega) hhigh]
          exact ⟨rfl, rfl, rfl, rfl, rfl, rfl, fun h => h, fun _ => rfl⟩
        · have hbaf : c.backAndForth = false := by simpa using hbaf
          by_cases hsi : 0 < c.startInterval
          · rw [advance_restart env n w c hwrap hbaf hsi (Or.inr hhigh)]
            exact ⟨rfl, rfl, rfl, rfl, rfl, rfl, fun h => h, fun _ => rfl⟩
          · rw [advance_markDone env n w c hwrap hbaf (by omega) (Or.inr hhigh)]
            refine ⟨rfl, rfl, rfl, rfl, rfl, rfl, fun _ => rfl, ?_⟩
            intro h
            rcases h with h | h | h
            · rw [hwrap] at h; exact absurd h (by simp)
            · rw [hbaf] at h; exact absurd h (by simp)
            · exact absurd h hsi
    · rw [advance_inside env n w c (by omega) (by omega)]
      exact ⟨rfl, rfl, rfl, rfl, rfl, rfl, fun h => h, fun _ => rfl⟩

theorem painted_fields {a b : LEDCluster} (h : Painted a b) :
    b.length = a.length ∧ b.direction = a.direction ∧ b.wrapAround = a.wrapAround ∧
    b.backAndForth = a.backAndForth ∧ b.updateInterval = a.updateInterval ∧
    b.startTime = a.startTime ∧ b.startInterval = a.startInterval ∧
    b.startPosition = a.startPosition ∧ b.saturationInterval = a.saturationInterval ∧
    b.peakLength = a.peakLength ∧ b.position = a.position ∧ b.done = a.done := by
  unfold Painted at h
  rw [h]
  exact ⟨rfl, rfl, rfl, rfl, rfl, rfl, rfl, rfl, rfl, rfl, rfl, rfl⟩

/-- One frame of `show()` never clears `done`, never changes the boundary
policy of a cluster, and leaves `done` as it was for a cluster that has a
boundary policy. -/
theorem processCluster_frame (env : Env) (n : Nat) (w : World) (c : LEDCluster)
    (strip : List Nat) :
    (processCluster env n w c strip).1.length = c.length ∧
    (processCluster env n w c strip).1.wrapAround = c.wrapAround ∧
    (processCluster env n w c strip).1.backAndForth = c.backAndForth ∧
    (processCluster env n w c strip).1.startInterval = c.startInterval ∧
    (processCluster env n w c strip).1.startPosition = c.startPosition ∧
    (c.done = true → (processCluster env n w c strip).1.done = true) ∧
    ((c.wrapAround = true ∨ c.backAndForth = true ∨ 0 < c.startInterval) →
      (processCluster env n w c strip).1.done = c.done) := by
  obtain ⟨c1, hp, h⟩ := processCluster_shape env n w c strip
  obtain ⟨p1, _, p3, p4, _, _, p7, p8, _, _, _, p12⟩ := painted_fields hp
  rcases h with h | ⟨w1, h⟩
  · rw [h]
    exact ⟨p1, p3, p4, p7, p8, fun hd => by rw [p12]; exact hd, fun _ => p12⟩
  · rw [h]
    obtain ⟨a1, a2, a3, a4, a5, _, a7, a8⟩ := advance_frame env n w1 c1
    refine ⟨a1.trans p1, a2.trans p3, a3.trans p4, a4.trans p7, a5.trans p8, ?_, ?_⟩
    · intro hd
      exact a7 (by rw [p12]; exact hd)
    · intro hpol
      rw [a8 (by rw [p3, p4, p7]; exact hpol), p12]

end LEDClusterController

/-! ### Back-and-forth clusters over frames -/

namespace LEDClusterController

theorem clusterLoop_alive (env : Env) (w : World) (ctl : LEDClusterController)
    (h : ctl.BackAndForthAlive) : (clusterLoop env w ctl).1.BackAndForthAlive := by
  obtain ⟨h1, _, _, _, _, h6⟩ := clusterLoop_spec env ctl w
  intro c hc hbaf
  rw [mem_active_iff] at hc
  obtain ⟨i, hi, hs⟩ := hc
  rw [h1] at hi
  rcases h6 i with hu | ⟨c0, w1, strip, hc0, hu⟩
  · rw [hu] at hs
    exact h c ((mem_active_iff ctl _).2 ⟨i, hi, hs⟩) hbaf
  · rw [hu] at hs
    have hcc : (processCluster env ctl.numLEDs w1 c0 strip).1 = c := by
      simpa using hs
    obtain ⟨_, _, f3, _, _, _, f7⟩ := processCluster_frame env ctl.numLEDs w1 c0 strip
    rw [hcc] at f3 f7
    have hb0 : c0.backAndForth = true := by rw [← f3]; exact hbaf
    rw [f7 (Or.inr (Or.inl hb0))]
    exact h c0 ((mem_active_iff ctl _).2 ⟨i, hi, hc0⟩) hb0

theorem preReap_alive (env : Env) (w : World) (ctl : LEDClusterController)
    (h : ctl.BackAndForthAlive) : (ctl.preReap env w).BackAndForthAlive :=
  clusterLoop_alive env w ctl.clear h

theorem preReap_bound (env : Env) (w : World) (ctl : LEDClusterController)
    (hn : ctl.numClusters ≤ ctl.clusters.length) :
    (ctl.preReap env w).numClusters ≤ (ctl.preReap env w).clusters.length := by
  obtain ⟨h1, _, _, _, h5, _⟩ := clusterLoop_spec env ctl.clear w
  have e1 : (ctl.preReap env w).numClusters = ctl.numClusters := h1
  have e5 : (ctl.preReap env w).clusters.length = ctl.clusters.length := h5
  rw [e1, e5]
  exact hn

theorem show_alive (env : Env) (w : World) (ctl : LEDClusterController)
    (hn : ctl.numClusters ≤ ctl.clusters.length) (h : ctl.BackAndForthAlive) :
    (ctl.show_ env w).1.numClusters ≤ (ctl.show_ env w).1.clusters.length ∧
      (ctl.show_ env w).1.BackAndForthAlive := by
  by_cases hrun : ctl.running = true
  · rw [show_running env w ctl hrun]
    have hb := preReap_bound env w ctl hn
    obtain ⟨r1, r2, r3, _, _, _⟩ :=
      reapLoop_spec (ctl.preReap env w).numClusters 0 (ctl.preReap env w) hb
    have g1 : (reap (ctl.preReap env w)).numClusters ≤ (ctl.preReap env w).numClusters := r1
    have g2 : (reap (ctl.preReap env w)).clusters.length = (ctl.preReap env w).clusters.length := r2
    refine ⟨by omega, ?_⟩
    intro c hc hbaf
    exact preReap_alive env w ctl h c (r3.subset hc) hbaf
  · have hs : ctl.show_ env w = (ctl, w) := by
      unfold show_
      simp [hrun]
    rw [hs]
    exact ⟨hn, h⟩

theorem showFrames_alive (env : Env) (n : Nat) (s : LEDClusterController × World)
    (hn : s.1.numClusters ≤ s.1.clusters.length) (h : s.1.BackAndForthAlive) :
    (showFrames env n s).1.numClusters ≤ (showFrames env n s).1.clusters.length ∧
      (showFrames env n s).1.BackAndForthAlive := by
  induction n generalizing s with
  | zero => exact ⟨hn, h⟩
  | succ n ih =>
    have hs := show_alive env s.2 s.1 hn h
    exact ih (s.1.show_ env s.2) hs.1 hs.2

theorem apply_done (env : Env) (c : LEDCluster) (op : LEDCluster.Op) (h : c.done = true) :
    (c.apply env op).done = true := by
  cases op with
  | setRGBPixel no color =>
    exact ((painted_fields (LEDCluster.setRGBPixel_painted c no color)).2.2.2.2.2.2.2.2.2.2.2).trans h
  | setHSVPixel no hue saturation =>
    exact ((painted_fields
      (LEDCluster.setHSVPixel_painted c no hue saturation)).2.2.2.2.2.2.2.2.2.2.2).trans h
  | setDirection dir => exact h
  | enableWrapAround => exact h
  | enableBackAndForth => exact h
  | setUpdateInterval interval => exact h
  | setStartTime time => exact h
  | setStartInterval interval => exact h
  | setStartPosition pos => exact h
  | setPosition pos => exact h
  | markDone => rfl
  | shouldMove currentTime =>
    exact ((painted_fields (LEDCluster.shouldMove_painted c currentTime)).2.2.2.2.2.2.2.2.2.2.2).trans h
  | getPulsarAtIndex pixelNo =>
    exact ((painted_fields
      (LEDCluster.getPulsarAtIndex_painted env c pixelNo)).2.2.2.2.2.2.2.2.2.2.2).trans h
  | frame numPixels w strip =>
    exact (processCluster_frame env numPixels w c strip).2.2.2.2.2.1 h

theorem applyAll_done (env : Env) (ops : List LEDCluster.Op) (c : LEDCluster)
    (h : c.done = true) : (ops.foldl (LEDCluster.apply env) c).done = true := by
  induction ops generalizing c with
  | nil => exact h
  | cons op ops ih => exact ih _ (apply_done env c op h)

/-- A cluster without direction that lies inside the strip range is left in
place by a frame, whether it is dormant, throttled or advanced. -/
theorem processCluster_still (env : Env) (n : Nat) (w : World) (c : LEDCluster)
    (strip : List Nat) (hdir : c.direction = Direction.NoD)
    (hin : -(c.length : Int) < c.position ∧ c.position < (n : Int)) :
    (processCluster env n w c strip).1.direction = Direction.NoD ∧
    (processCluster env n w c strip).1.position = c.position ∧
    (processCluster env n w c strip).1.length = c.length ∧
    (processCluster env n w c strip).1.done = c.done := by
  obtain ⟨c1, hp, h⟩ := processCluster_shape env n w c strip
  obtain ⟨p1, p2, _, _, _, _, _, _, _, _, p11, p12⟩ := painted_fields hp
  rcases h with h | ⟨w1, h⟩
  · rw [h]
    exact ⟨p2.trans hdir, p11, p1, p12⟩
  · have hap : advancedPosition c1 = c1.position := by
      unfold advancedPosition
      rw [p2, hdir]
    rw [h, advance_inside env n w1 c1 (by rw [hap, p1, p11]; exact hin.1)
      (by rw [hap, p11]; exact hin.2)]
    exact ⟨p2.trans hdir, hap.trans p11, p1, p12⟩

theorem processFrames_still (env : Env) (n : Nat) (frames : List (World × List Nat))
    (c : LEDCluster) (hdir : c.direction = Direction.NoD)
    (hin : -(c.length : Int) < c.position ∧ c.position < (n : Int)) :
    (processFrames env n c frames).direction = Direction.NoD ∧
    (processFrames env n c frames).position = c.position ∧
    (processFrames env n c frames).length = c.length ∧
    (processFrames env n c frames).done = c.done := by
  induction frames generalizing c with
  | nil => exact ⟨hdir, rfl, rfl, rfl⟩
  | cons f frames ih =>
    obtain ⟨s1, s2, s3, s4⟩ := processCluster_still env n f.1 c f.2 hdir hin
    obtain ⟨i1, i2, i3, i4⟩ := ih (processCluster env n f.1 c f.2).1 s1
      (by rw [s2, s3]; exact hin)
    exact ⟨i1, i2.trans s2, i3.trans s3, i4.trans s4⟩

end LEDClusterController

/-! ### The reap pass on three clusters -/

namespace LEDClusterController

theorem reap_three (ctl : LEDClusterController) (A B C : LEDCluster)
    (hn : ctl.numClusters ≤ ctl.clusters.length)
    (h : ctl.active = [some A, some B, some C])
    (hA : A.done = false) (hB : B.done = true) :
    (reap ctl).active = [some A, some C] := by
  have n3 : ctl.numClusters = 3 := by
    rw [← active_length ctl hn, h]
    rfl
  have g0 : ctl.clusters.getD 0 none = some A := by
    rw [← active_getD ctl 0 (by omega), h]
    rfl
  have g1 : ctl.clusters.getD 1 none = some B := by
    rw [← active_getD ctl 1 (by omega), h]
    rfl
  have d0 : slotDone (ctl.clusters.getD 0 none) = false := by rw [g0]; exact hA
  have d1 : slotDone (ctl.clusters.getD 1 none) = true := by rw [g1]; exact hB
  have hr : reap ctl = removeAt ctl 1 := by
    unfold reap
    rw [n3]
    simp only [reapLoop, n3, d0, d1, removeAt_numClusters, Bool.false_eq_true, if_true,
      if_false, Nat.lt_irrefl, Nat.reduceLT, Nat.reduceSub, Nat.reduceAdd]
  rw [hr, removeAt_active ctl 1 (by omega) hn, h]
  rfl

end LEDClusterController

/-! ### Registration -/

namespace LEDClusterController

theorem take_set_self (cl : List (Option LEDCluster)) (n : Nat) (x : Option LEDCluster) :
    (cl.set n x).take n = cl.take n := by
  apply List.ext_getElem?
  intro j
  rw [List.getElem?_take, List.getElem?_take]
  by_cases h : j < n
  · rw [if_pos h, if_pos h, List.getElem?_set, if_neg (by omega)]
  · rw [if_neg h, if_neg h]

theorem addCluster_accept (ctl : LEDClusterController) (cluster : LEDCluster) (position : Int)
    (hcap : ctl.numClusters < ctl.maxClusters) (hpos : position < (ctl.numPixels : Int)) :
    ctl.addCluster cluster position =
      (true,
        { ctl with
          clusters := ctl.clusters.set ctl.numClusters
            (some ((cluster.setStartPosition position).setPosition position))
          numClusters := ctl.numClusters + 1 },
        (cluster.setStartPosition position).setPosition position) := by
  unfold addCluster
  rw [if_neg (by omega), if_pos hpos]

theorem addCluster_reject (ctl : LEDClusterController) (cluster : LEDCluster) (position : Int)
    (h : ctl.numClusters ≥ ctl.maxClusters ∨ position ≥ (ctl.numPixels : Int)) :
    ctl.addCluster cluster position = (false, ctl, cluster) := by
  unfold addCluster
  by_cases hcap : ctl.numClusters ≥ ctl.maxClusters
  · rw [if_pos hcap]
  · rw [if_neg hcap, if_neg (by omega)]

theorem addCluster_active (ctl : LEDClusterController) (cluster : LEDCluster) (position : Int)
    (hcap : ctl.numClusters < ctl.maxClusters) (hpos : position < (ctl.numPixels : Int))
    (hslots : ctl.clusters.length = ctl.maxClusters) :
    (ctl.addCluster cluster position).2.1.active =
      ctl.active ++ [some ((cluster.setStartPosition position).setPosition position)] := by
  rw [addCluster_accept ctl cluster position hcap hpos]
  show (ctl.clusters.set ctl.numClusters _).take (ctl.numClusters + 1) = _
  rw [List.take_succ, take_set_self, List.getElem?_set_self (by omega)]
  rfl

/-- The invariant of the controller: the array has `maxClusters` slots, at most
`maxClusters` of them are in use, and every slot in use holds a cluster. -/
theorem addCluster_inv (ctl : LEDClusterController) (cluster : LEDCluster) (position : Int)
    (h : ctl.clusters.length = ctl.maxClusters ∧ ctl.numClusters ≤ ctl.maxClusters ∧ ctl.Owned) :
    (ctl.addCluster cluster position).2.1.clusters.length =
        (ctl.addCluster cluster position).2.1.maxClusters ∧
      (ctl.addCluster cluster position).2.1.numClusters ≤
        (ctl.addCluster cluster position).2.1.maxClusters ∧
      (ctl.addCluster cluster position).2.1.Owned ∧
      (ctl.addCluster cluster position).2.1.maxClusters = ctl.maxClusters := by
  by_cases hacc : ctl.numClusters < ctl.maxClusters ∧ position < (ctl.numPixels : Int)
  · have hact := addCluster_active ctl cluster position hacc.1 hacc.2 h.1
    have hlen : (ctl.addCluster cluster position).2.1.clusters.length = ctl.clusters.length := by
      rw [addCluster_accept ctl cluster position hacc.1 hacc.2]
      show (ctl.clusters.set _ _).length = _
      rw [List.length_set]
    have hnum : (ctl.addCluster cluster position).2.1.numClusters = ctl.numClusters + 1 := by
      rw [addCluster_accept ctl cluster position hacc.1 hacc.2]
    have hmax : (ctl.addCluster cluster position).2.1.maxClusters = ctl.maxClusters := by
      rw [addCluster_accept ctl cluster position hacc.1 hacc.2]
    refine ⟨by rw [hlen, hmax]; exact h.1, by rw [hnum, hmax]; omega, ⟨?_, ?_⟩, hmax⟩
    · rw [hnum, hlen]; omega
    · intro slot hslot
      rw [hact, List.mem_append] at hslot
      rcases hslot with hs | hs
      · exact h.2.2.2 slot hs
      · rw [List.mem_singleton] at hs
        rw [hs]
        simp
  · rw [addCluster_reject ctl cluster position (by omega)]
    exact ⟨h.1, h.2.1, h.2.2, rfl⟩

theorem reapLoop_le (fuel k : Nat) (ctl : LEDClusterController) :
    (reapLoop fuel k ctl).numClusters ≤ ctl.numClusters := by
  induction fuel generalizing k ctl with
  | zero => exact le_refl _
  | succ fuel ih =>
    by_cases hk : k < ctl.numClusters
    · by_cases hd : slotDone (ctl.clusters.getD k none) = true
      · simp only [reapLoop, if_pos hk, if_pos hd]
        exact (ih (k + 1) (removeAt ctl k)).trans (by rw [removeAt_numClusters]; omega)
      · simp only [reapLoop, if_pos hk, if_neg hd]
        exact ih (k + 1) ctl
    · have hstep : reapLoop (fuel + 1) k ctl = ctl := by
        simp only [reapLoop, if_neg hk]
      rw [hstep]

theorem show_inv (env : Env) (w : World) (ctl : LEDClusterController)
    (h : ctl.clusters.length = ctl.maxClusters ∧ ctl.numClusters ≤ ctl.maxClusters ∧ ctl.Owned) :
    (ctl.show_ env w).1.clusters.length = (ctl.show_ env w).1.maxClusters ∧
      (ctl.show_ env w).1.numClusters ≤ (ctl.show_ env w).1.maxClusters ∧
      (ctl.show_ env w).1.Owned ∧
      (ctl.show_ env w).1.maxClusters = ctl.maxClusters := by
  by_cases hrun : ctl.running = true
  · rw [show_running env w ctl hrun]
    have hpre := preReap_owned env ctl w h.2.2
    obtain ⟨c1, c2, _, _, c5, _⟩ := clusterLoop_spec env ctl.clear w
    obtain ⟨r1, r2, _, _, _, _⟩ :=
      reapLoop_spec (ctl.preReap env w).numClusters 0 (ctl.preReap env w) hpre.1
    obtain ⟨f1, _, _, _⟩ := reapLoop_frame (ctl.preReap env w).numClusters 0 (ctl.preReap env w)
    have e1 : (ctl.preReap env w).numClusters = ctl.numClusters := c1
    have e2 : (ctl.preReap env w).maxClusters = ctl.maxClusters := c2
    have e5 : (ctl.preReap env w).clusters.length = ctl.clusters.length := c5
    have g1 : (reap (ctl.preReap env w)).numClusters ≤ (ctl.preReap env w).numClusters := r1
    have g2 : (reap (ctl.preReap env w)).clusters.length = (ctl.preReap env w).clusters.length := r2
    have g3 : (reap (ctl.preReap env w)).maxClusters = (ctl.preReap env w).maxClusters := f1
    refine ⟨by rw [g2, g3, e5, e2]; exact h.1, by rw [g3, e2]; omega, reap_owned _ hpre,
      by rw [g3, e2]⟩
  · have hs : ctl.show_ env w = (ctl, w) := by
      unfold show_
      simp [hrun]
    rw [hs]
    exact ⟨h.1, h.2.1, h.2.2, rfl⟩

theorem construct_inv (numLEDs maxClusters : Nat) (running : Bool) :
    (construct numLEDs maxClusters running).clusters.length =
        (construct numLEDs maxClusters running).maxClusters ∧
      (construct numLEDs maxClusters running).numClusters ≤
        (construct numLEDs maxClusters running).maxClusters ∧
      (construct numLEDs maxClusters running).Owned := by
  refine ⟨by simp [construct], by simp [construct], by simp [construct], ?_⟩
  intro slot hslot
  simp [active, construct] at hslot

theorem call_inv (env : Env) (s : LEDClusterController × World) (c : Call)
    (h : s.1.clusters.length = s.1.maxClusters ∧ s.1.numClusters ≤ s.1.maxClusters ∧ s.1.Owned) :
    (call env s c).1.clusters.length = (call env s c).1.maxClusters ∧
      (call env s c).1.numClusters ≤ (call env s c).1.maxClusters ∧
      (call env s c).1.Owned ∧
      (call env s c).1.maxClusters = s.1.maxClusters := by
  cases c with
  | addCluster cluster position => exact addCluster_inv s.1 cluster position h
  | begin => exact ⟨h.1, h.2.1, h.2.2, rfl⟩
  | end_ => exact ⟨h.1, h.2.1, h.2.2, rfl⟩
  | show_ => exact show_inv env s.2 s.1 h

theorem run_inv (env : Env) (calls : List Call) (s : LEDClusterController × World)
    (h : s.1.clusters.length = s.1.maxClusters ∧ s.1.numClusters ≤ s.1.maxClusters ∧ s.1.Owned) :
    (run env s calls).1.clusters.length = (run env s calls).1.maxClusters ∧
      (run env s calls).1.numClusters ≤ (run env s calls).1.maxClusters ∧
      (run env s calls).1.Owned ∧
      (run env s calls).1.maxClusters = s.1.maxClusters := by
  induction calls generalizing s with
  | nil => exact ⟨h.1, h.2.1, h.2.2, rfl⟩
  | cons c calls ih =>
    have hc := call_inv env s c h
    have := ih (call env s c) ⟨hc.1, hc.2.1, hc.2.2.1⟩
    unfold run at this ⊢
    rw [List.foldl_cons]
    exact ⟨this.1, this.2.1, this.2.2.1, this.2.2.2.trans hc.2.2.2⟩

end LEDClusterController

/-! ### The claims -/

/-- C1 (counterexample): a cluster of length 5 at position -3 occupies the
indices -3 .. 1, but `hasPixel` handed the index -1 receives it as the
`uint16_t` value 65535 and answers false. -/
theorem C1_hasPixel_negative_index :
    ¬ ((((LEDCluster.construct 5).setPosition (-3)).hasPixel (toUInt16 (-1)) = true) ↔
        (((LEDCluster.construct 5).setPosition (-3)).position ≤ -1 ∧
          (-1 : Int) < ((LEDCluster.construct 5).setPosition (-3)).position
            + ((LEDCluster.construct 5).setPosition (-3)).length)) := by
  decide

/-- C1 (amended): for every cluster whose length is a `uint16_t` and whose
position is an `int32_t`, and for every index of the parameter type
`uint16_t`, `hasPixel` answers true exactly when
`position ≤ pixelNo < position + length`. -/
theorem C1_hasPixel_iff (c : LEDCluster) (pixelNo : Nat)
    (hlen : c.length < 65536)
    (hpos : -2147483648 ≤ c.position ∧ c.position ≤ 2147483647)
    (hidx : pixelNo < 65536) :
    c.hasPixel pixelNo = true ↔
      (c.position ≤ (pixelNo : Int) ∧ (pixelNo : Int) < c.position + (c.length : Int)) := by
  unfold LEDCluster.hasPixel toInt32
  simp only [Bool.or_eq_true, decide_eq_true_eq, ge_iff_le]
  split <;> rename_i h <;> simp only [Bool.false_eq_true, false_iff, true_iff] <;> omega

/-- C1 (witness): the amended statement applied to a cluster of length 5 at
position -3 and the index 1. -/
theorem C1_hasPixel_iff_witness :
    ((LEDCluster.construct 5).setPosition (-3)).hasPixel 1 = true ↔
      (((LEDCluster.construct 5).setPosition (-3)).position ≤ ((1 : Nat) : Int) ∧
        ((1 : Nat) : Int) < ((LEDCluster.construct 5).setPosition (-3)).position
          + (((LEDCluster.construct 5).setPosition (-3)).length : Int)) :=
  C1_hasPixel_iff ((LEDCluster.construct 5).setPosition (-3)) 1 (by decide) (by decide) (by decide)

/-- C2 (failing input): two one-pixel runners registered on the last pixel are
both flagged done in the same frame.  The reap loop removes the first, shifts
the second into the slot it has just examined and steps past it: when `show()`
returns, the second runner is still in the active set and is flagged done (the
loop has met its exit test: more iterations change nothing); the next frame
paints it once more on the strip before removing it. -/
theorem C2_adjacent_done_survives :
    (LEDClusterController.preReap Sample.env Sample.world Sample.twoRunners).active.map
        LEDClusterController.slotDone = [true, true] ∧
    (LEDClusterController.show_ Sample.env Sample.world Sample.twoRunners).1.active.map
        LEDClusterController.slotDone = [true] ∧
    (LEDClusterController.reapLoop 7 0
        (LEDClusterController.preReap Sample.env Sample.world Sample.twoRunners)).active.map
        LEDClusterController.slotDone = [true] ∧
    (LEDClusterController.showFrames Sample.env 2 (Sample.twoRunners, Sample.world)).1.strip
        = [0, 0, 0, 0, 0, 0, 0, 0, 0, COLOR_GREEN] ∧
    (LEDClusterController.showFrames Sample.env 2 (Sample.twoRunners, Sample.world)).1.active
        = [] := by
  decide

/-- C3: the reap pass of `show()` on a running controller that owns its active
clusters.  With `preReap` the controller when the reap pass begins: the active
set after the pass is a subsequence of the active set before it; every cluster
that is not flagged done is kept, in the same relative order; `numClusters`
is the number of entries kept and none of them is `NULL`; every slot vacated
by the pass (index from the new `numClusters` up to the old one) is `NULL`;
an active set `[A, B, C]` in which only `B` is flagged done becomes exactly
`[A, C]`; and the loop has met its exit test, so that further iterations
would change nothing. -/
theorem C3_reap_keeps_order (env : Env) (w : World) (ctl : LEDClusterController)
    (hrun : ctl.running = true) (hown : ctl.Owned) :
    (ctl.show_ env w).1.active.Sublist (ctl.preReap env w).active ∧
    ((ctl.preReap env w).active.filter
      (fun slot => !LEDClusterController.slotDone slot)).Sublist (ctl.show_ env w).1.active ∧
    (ctl.show_ env w).1.numClusters = (ctl.show_ env w).1.active.length ∧
    (∀ slot ∈ (ctl.show_ env w).1.active, slot ≠ none) ∧
    (∀ i : Nat, (ctl.show_ env w).1.numClusters ≤ i → i < (ctl.preReap env w).numClusters →
      (ctl.show_ env w).1.clusters[i]? = some none) ∧
    (∀ A B C : LEDCluster, (ctl.preReap env w).active = [some A, some B, some C] →
      A.done = false → B.done = true → C.done = false →
      (ctl.show_ env w).1.active = [some A, some C]) ∧
    (∀ extra : Nat,
      LEDClusterController.reapLoop ((ctl.preReap env w).numClusters + extra) 0
        (ctl.preReap env w) = (ctl.show_ env w).1) := by
  have hpre := LEDClusterController.preReap_owned env ctl w hown
  have hpost := LEDClusterController.reap_owned _ hpre
  rw [LEDClusterController.show_running env w ctl hrun]
  obtain ⟨_, _, r3, r4, _, r6⟩ :=
    LEDClusterController.reapLoop_spec (ctl.preReap env w).numClusters 0 (ctl.preReap env w) hpre.1
  refine ⟨r3, r4, ?_, hpost.2, r6, ?_, ?_⟩
  · exact (LEDClusterController.active_length _ hpost.1).symm
  · intro A B C h hA hB _
    exact LEDClusterController.reap_three _ A B C hpre.1 h hA hB
  · intro extra
    exact LEDClusterController.reapLoop_fuel _ extra 0 _ (by omega)

/-- C3 (witness): a running controller holding a still cluster, a runner on the
last pixel and another still cluster.  The runner is flagged done during the
frame, and the active set `[A, B, C]` becomes `[A, C]`. -/
theorem C3_reap_keeps_order_witness :
    Sample.stillRunnerStill.running = true ∧ Sample.stillRunnerStill.Owned ∧
    (Sample.stillRunnerStill.preReap Sample.env Sample.world).active =
      [some ((Sample.still COLOR_RED).shouldMove 1000).2,
        some ((((Sample.runner COLOR_GREEN).setStartPosition 9).setPosition 9).shouldMove
          1000).2.markDone,
        some ((((Sample.still COLOR_BLUE).setStartPosition 5).setPosition 5).shouldMove
          1000).2] ∧
    (Sample.stillRunnerStill.show_ Sample.env Sample.world).1.active =
      [some ((Sample.still COLOR_RED).shouldMove 1000).2,
        some ((((Sample.still COLOR_BLUE).setStartPosition 5).setPosition 5).shouldMove
          1000).2] :=
  ⟨by decide, by decide, by decide,
    (C3_reap_keeps_order Sample.env Sample.world Sample.stillRunnerStill (by decide)
      (by decide)).2.2.2.2.2.1 ((Sample.still COLOR_RED).shouldMove 1000).2
      ((((Sample.runner COLOR_GREEN).setStartPosition 9).setPosition 9).shouldMove
          1000).2.markDone
      ((((Sample.still COLOR_BLUE).setStartPosition 5).setPosition 5).shouldMove 1000).2
      (by decide) (by decide) (by decide) (by decide)⟩

/-- C4: `addCluster` fails exactly when the controller is at capacity or the
position is not below `numPixels()`; a failing call returns false and leaves
the controller (active set, `numClusters`) and the cluster (position,
start position) as they were. -/
theorem C4_addCluster_failure (ctl : LEDClusterController) (cluster : LEDCluster)
    (position : Int) :
    ((ctl.numClusters ≥ ctl.maxClusters ∨ position ≥ (ctl.numPixels : Int)) →
      ctl.addCluster cluster position = (false, ctl, cluster)) ∧
    ((ctl.addCluster cluster position).1 = false →
      (ctl.numClusters ≥ ctl.maxClusters ∨ position ≥ (ctl.numPixels : Int))) := by
  refine ⟨LEDClusterController.addCluster_reject ctl cluster position, ?_⟩
  intro hfalse
  by_contra hcon
  rw [LEDClusterController.addCluster_accept ctl cluster position (by omega) (by omega)] at hfalse
  exact absurd hfalse (by simp)

/-- C4 (witness): registering at position 10 on a strip of ten pixels fails and
changes nothing; so does registering on a controller without a free slot. -/
theorem C4_addCluster_failure_witness :
    Sample.empty.addCluster (Sample.still COLOR_RED) 10 =
        (false, Sample.empty, Sample.still COLOR_RED) ∧
    (LEDClusterController.construct 10 0 true).addCluster (Sample.still COLOR_RED) 0 =
        (false, LEDClusterController.construct 10 0 true, Sample.still COLOR_RED) :=
  ⟨(C4_addCluster_failure Sample.empty (Sample.still COLOR_RED) 10).1 (Or.inr (by decide)),
    (C4_addCluster_failure (LEDClusterController.construct 10 0 true) (Sample.still COLOR_RED)
      0).1 (Or.inl (by decide))⟩

/-- C5: with a free slot (`numClusters < maxClusters`, the array having
`maxClusters` slots) and `position < numPixels()`, `addCluster` returns true,
appends the cluster as the last element of the active set, increases
`numClusters` by one, sets the start position and the position of the cluster
to `position` and changes nothing else of the cluster or of the controller.
Consequently `numClusters ≤ maxClusters` after every sequence of calls of
`addCluster`, `show`, `begin` and `end` on a freshly constructed controller. -/
theorem C5_addCluster_success (ctl : LEDClusterController) (cluster : LEDCluster)
    (position : Int)
    (hcap : ctl.numClusters < ctl.maxClusters) (hpos : position < (ctl.numPixels : Int))
    (hslots : ctl.clusters.length = ctl.maxClusters) :
    (ctl.addCluster cluster position).1 = true ∧
    (ctl.addCluster cluster position).2.1.active =
      ctl.active ++ [some { cluster with startPosition := position, position := position }] ∧
    (ctl.addCluster cluster position).2.1.numClusters = ctl.numClusters + 1 ∧
    (ctl.addCluster cluster position).2.2 =
      { cluster with startPosition := position, position := position } ∧
    (ctl.addCluster cluster position).2.1.maxClusters = ctl.maxClusters ∧
    (ctl.addCluster cluster position).2.1.numLEDs = ctl.numLEDs ∧
    (ctl.addCluster cluster position).2.1.strip = ctl.strip ∧
    (ctl.addCluster cluster position).2.1.running = ctl.running ∧
    (∀ (env : Env) (w : World) (numLEDs maxClusters : Nat) (running : Bool)
      (calls : List LEDClusterController.Call),
      (LEDClusterController.run env
        (LEDClusterController.construct numLEDs maxClusters running, w) calls).1.numClusters
        ≤ maxClusters) := by
  refine ⟨?_, LEDClusterController.addCluster_active ctl cluster position hcap hpos hslots,
    ?_, ?_, ?_, ?_, ?_, ?_, ?_⟩
  · rw [LEDClusterController.addCluster_accept ctl cluster position hcap hpos]
  · rw [LEDClusterController.addCluster_accept ctl cluster position hcap hpos]
  · rw [LEDClusterController.addCluster_accept ctl cluster position hcap hpos]
    rfl
  · rw [LEDClusterController.addCluster_accept ctl cluster position hcap hpos]
  · rw [LEDClusterController.addCluster_accept ctl cluster position hcap hpos]
  · rw [LEDClusterController.addCluster_accept ctl cluster position hcap hpos]
  · rw [LEDClusterController.addCluster_accept ctl cluster position hcap hpos]
  · intro env w numLEDs maxClusters running calls
    have h := LEDClusterController.run_inv env calls
      (LEDClusterController.construct numLEDs maxClusters running, w)
      (LEDClusterController.construct_inv numLEDs maxClusters running)
    have hm : (LEDClusterController.run env
        (LEDClusterController.construct numLEDs maxClusters running, w) calls).1.maxClusters
        = maxClusters := h.2.2.2
    exact le_of_le_of_eq h.2.1 hm

/-- C5 (witness): a still cluster registered at position 3 on the empty running
controller of ten pixels and four slots. -/
theorem C5_addCluster_success_witness :
    Sample.empty.numClusters < Sample.empty.maxClusters ∧
    (3 : Int) < (Sample.empty.numPixels : Int) ∧
    Sample.empty.clusters.length = Sample.empty.maxClusters ∧
    (Sample.empty.addCluster (Sample.still COLOR_RED) 3).1 = true ∧
    (Sample.empty.addCluster (Sample.still COLOR_RED) 3).2.1.active =
      Sample.empty.active ++
        [some { Sample.still COLOR_RED with startPosition := 3, position := 3 }] :=
  ⟨by decide, by decide, by decide,
    (C5_addCluster_success Sample.empty (Sample.still COLOR_RED) 3 (by decide) (by decide)
      (by decide)).1,
    (C5_addCluster_success Sample.empty (Sample.still COLOR_RED) 3 (by decide) (by decide)
      (by decide)).2.1⟩

/-- C6 (counterexample): a wrap-around cluster without pixels, one step left of
a strip without pixels and moving left to right.  Its advanced position 0 is
both `≤ -length` and `≥ stripLength`; the code tests the low side first and
stores `stripLength - 1 = -1`, not `1 - length = 1`. -/
theorem C6_wrap_both_sides :
    Sample.emptyWrapper.wrapAround = true ∧
    ¬ ((((0 : Nat) : Int) ≤ Sample.emptyWrapper.position + Sample.emptyWrapper.direction.step) →
      (LEDClusterController.advance Sample.env 0 Sample.world Sample.emptyWrapper).1.position
        = 1 - (Sample.emptyWrapper.length : Int)) := by
  decide

/-- C6 (amended): for a cluster with `wrapAround = true` whose advanced position
`p' = position + step` is representable as `int32_t`: if `p' ≤ -length` the
advance stores position `stripLength - 1`; if `p' ≥ stripLength` and
`p' > -length` it stores position `1 - length`.  In both cases nothing else of
the cluster changes (`done`, `direction`, `startTime` keep their values
whatever `startInterval` is) and the clock is not read. -/
theorem C6_wrapAround (env : Env) (n : Nat) (w : World) (c : LEDCluster)
    (hwrap : c.wrapAround = true)
    (hfit : -2147483648 ≤ c.position + c.direction.step ∧
      c.position + c.direction.step ≤ 2147483647) :
    (c.position + c.direction.step ≤ -(c.length : Int) →
      LEDClusterController.advance env n w c = ({ c with position := (n : Int) - 1 }, w)) ∧
    ((n : Int) ≤ c.position + c.direction.step →
      -(c.length : Int) < c.position + c.direction.step →
      LEDClusterController.advance env n w c =
        ({ c with position := 1 - (c.length : Int) }, w)) := by
  rw [← LEDClusterController.advancedPosition_eq c hfit]
  exact ⟨fun hlow => LEDClusterController.advance_wrap_low env n w c hwrap hlow,
    fun hhigh hlow => LEDClusterController.advance_wrap_high env n w c hwrap hlow hhigh⟩

/-- C6 (witness): direction left to right, length 5, strip length 20, advanced
position 20: the position becomes -4 and the cluster is not flagged done. -/
theorem C6_wrapAround_witness :
    Sample.wrapper.wrapAround = true ∧
    (-2147483648 ≤ Sample.wrapper.position + Sample.wrapper.direction.step ∧
      Sample.wrapper.position + Sample.wrapper.direction.step ≤ 2147483647) ∧
    Sample.wrapper.position + Sample.wrapper.direction.step = 20 ∧
    LEDClusterController.advance Sample.env 20 Sample.world Sample.wrapper =
      ({ Sample.wrapper with position := -4 }, Sample.world) :=
  ⟨by decide, by decide, by decide,
    (C6_wrapAround Sample.env 20 Sample.world Sample.wrapper (by decide) (by decide)).2
      (by decide) (by decide)⟩

/-- C7 (counterexample): on a strip of one pixel, a one-pixel back-and-forth
cluster on pixel 0 that moves left to right crosses the high boundary and is
flipped to right-to-left; the following admitted advance crosses the low
boundary, flips the direction again and does not move the cluster.  And for a
cluster without pixels next to a strip without pixels the advanced position 0
meets both boundary tests: the code sets left-to-right, not right-to-left. -/
theorem C7_flips_again :
    ((LEDClusterController.advance Sample.env 1 Sample.world Sample.bouncer).1.direction
        = Direction.RtL ∧
      (LEDClusterController.advance Sample.env 1 Sample.world
        (LEDClusterController.advance Sample.env 1 Sample.world Sample.bouncer).1).1.direction
        = Direction.LtR ∧
      (LEDClusterController.advance Sample.env 1 Sample.world
        (LEDClusterController.advance Sample.env 1 Sample.world Sample.bouncer).1).1.position
        = Sample.bouncer.position) ∧
    (Sample.emptyBouncer.backAndForth = true ∧
      ((0 : Nat) : Int) ≤ Sample.emptyBouncer.position + Sample.emptyBouncer.direction.step ∧
      (LEDClusterController.advance Sample.env 0 Sample.world Sample.emptyBouncer).1.direction
        ≠ Direction.RtL) := by
  decide

/-- C7 (amended): for a cluster with `backAndForth = true` (hence
`wrapAround = false`) whose advanced position `p' = position + step` is
representable as `int32_t`: if `p' ≤ -length` the advance sets the direction to
left-to-right; if `p' ≥ stripLength` and `p' > -length` it sets the direction
to right-to-left; in both cases nothing else of the cluster changes.  If the
cluster was inside the strip range (`-length < position < stripLength`) and
`length + stripLength > 2`, the admitted advance that follows a flip moves the
cluster one step back inside and keeps the new direction.  Over any number of
`show()` frames no active back-and-forth cluster is flagged done, neither
when the reap pass begins nor when `show()` returns. -/
theorem C7_backAndForth (env : Env) (n : Nat) (w : World) (c : LEDCluster)
    (hbaf : c.backAndForth = true) (hwrap : c.wrapAround = false)
    (hfit : -2147483648 ≤ c.position + c.direction.step ∧
      c.position + c.direction.step ≤ 2147483647) :
    (c.position + c.direction.step ≤ -(c.length : Int) →
      LEDClusterController.advance env n w c = ({ c with direction := Direction.LtR }, w)) ∧
    ((n : Int) ≤ c.position + c.direction.step →
      -(c.length : Int) < c.position + c.direction.step →
      LEDClusterController.advance env n w c = ({ c with direction := Direction.RtL }, w)) ∧
    (c.length < 65536 → n < 65536 →
      -(c.length : Int) < c.position → c.position < (n : Int) → 2 < c.length + n →
      (c.position + c.direction.step ≤ -(c.length : Int) ∨
        (n : Int) ≤ c.position + c.direction.step) →
      ∀ w1 : World,
        (LEDClusterController.advance env n w c).1.direction ≠ c.direction ∧
        (LEDClusterController.advance env n w c).1.position = c.position ∧
        LEDClusterController.advance env n w1 (LEDClusterController.advance env n w c).1 =
          ({ (LEDClusterController.advance env n w c).1 with
              position := c.position
                + (LEDClusterController.advance env n w c).1.direction.step }, w1) ∧
        -(c.length : Int) <
          c.position + (LEDClusterController.advance env n w c).1.direction.step ∧
        c.position + (LEDClusterController.advance env n w c).1.direction.step < (n : Int)) ∧
    (∀ (ctl : LEDClusterController) (w0 : World) (frames : Nat),
      ctl.numClusters ≤ ctl.clusters.length → ctl.BackAndForthAlive →
      (LEDClusterController.showFrames env frames (ctl, w0)).1.BackAndForthAlive ∧
      ((LEDClusterController.showFrames env frames (ctl, w0)).1.preReap env
        (LEDClusterController.showFrames env frames (ctl, w0)).2).BackAndForthAlive) := by
  have hap := LEDClusterController.advancedPosition_eq c hfit
  refine ⟨?_, ?_, ?_, ?_⟩
  · intro hlow
    exact LEDClusterController.advance_flip_low env n w c hwrap hbaf (by rw [hap]; exact hlow)
  · intro hhigh hlow
    exact LEDClusterController.advance_flip_high env n w c hwrap hbaf (by rw [hap]; exact hlow)
      (by rw [hap]; exact hhigh)
  · intro hL hN hin1 hin2 hbig hout w1
    have hstep : c.direction.step = 0 ∨ c.direction.step = 1 ∨ c.direction.step = -1 := by
      cases hd : c.direction <;> simp [Direction.step]
    rcases hout with hlow | hhigh
    · -- low boundary: the cluster moves right to left
      have hs : c.direction.step = -1 := by omega
      have hdir : c.direction = Direction.RtL := by
        cases hd : c.direction <;> rw [hd] at hs <;> simp [Direction.step] at hs
      rw [LEDClusterController.advance_flip_low env n w c hwrap hbaf (by rw [hap]; exact hlow)]
      have hap1 : LEDClusterController.advancedPosition { c with direction := Direction.LtR }
          = c.position + 1 := by
        unfold LEDClusterController.advancedPosition toInt32
        dsimp only
        omega
      refine ⟨by dsimp only; rw [hdir]; decide, rfl, ?_, by dsimp only [Direction.step]; omega,
        by dsimp only [Direction.step]; omega⟩
      rw [LEDClusterController.advance_inside env n w1 _ (by rw [hap1]; dsimp only; omega)
        (by rw [hap1]; omega), hap1]
      rfl
    · -- high boundary: the cluster moves left to right
      have hs : c.direction.step = 1 := by omega
      have hdir : c.direction = Direction.LtR := by
        cases hd : c.direction <;> rw [hd] at hs <;> simp [Direction.step] at hs
      rw [LEDClusterController.advance_flip_high env n w c hwrap hbaf (by rw [hap]; omega)
        (by rw [hap]; exact hhigh)]
      have hap1 : LEDClusterController.advancedPosition { c with direction := Direction.RtL }
          = c.position - 1 := by
        unfold LEDClusterController.advancedPosition toInt32
        dsimp only
        omega
      refine ⟨by dsimp only; rw [hdir]; decide, rfl, ?_, by dsimp only [Direction.step]; omega,
        by dsimp only [Direction.step]; omega⟩
      rw [LEDClusterController.advance_inside env n w1 _ (by rw [hap1]; dsimp only; omega)
        (by rw [hap1]; omega), hap1]
      rfl
  · intro ctl w0 frames hn halive
    have h := LEDClusterController.showFrames_alive env frames (ctl, w0) hn halive
    exact ⟨h.2, LEDClusterController.preReap_alive env _ _ h.2⟩

/-- C7 (witness): a three-pixel back-and-forth cluster on the last pixel of a
strip of ten, moving left to right: the advance flips it to right-to-left and
leaves it in place; the next advance moves it to pixel 8. -/
theorem C7_backAndForth_witness :
    Sample.bouncer3.backAndForth = true ∧ Sample.bouncer3.wrapAround = false ∧
    (-2147483648 ≤ Sample.bouncer3.position + Sample.bouncer3.direction.step ∧
      Sample.bouncer3.position + Sample.bouncer3.direction.step ≤ 2147483647) ∧
    LEDClusterController.advance Sample.env 10 Sample.world Sample.bouncer3 =
      ({ Sample.bouncer3 with direction := Direction.RtL }, Sample.world) ∧
    LEDClusterController.advance Sample.env 10 Sample.world
        (LEDClusterController.advance Sample.env 10 Sample.world Sample.bouncer3).1 =
      ({ Sample.bouncer3 with direction := Direction.RtL, position := 8 }, Sample.world) :=
  ⟨by decide, by decide, by decide,
    (C7_backAndForth Sample.env 10 Sample.world Sample.bouncer3 (by decide) (by decide)
      (by decide)).2.1 (by decide) (by decide),
    ((C7_backAndForth Sample.env 10 Sample.world Sample.bouncer3 (by decide) (by decide)
      (by decide)).2.2.1 (by decide) (by decide) (by decide) (by decide) (by decide)
      (Or.inr (by decide)) Sample.world).2.2.1.trans (by decide)⟩

/-- C8: for a cluster whose members have values of their declared types
(`int32_t` position, `uint16_t` length) on a strip of `uint16_t` length, with
`p' = position + step`: an admitted advance flags a cluster that was not done
as done if and only if `p' ≤ -length` or `p' ≥ stripLength`, and
`wrapAround = false`, `backAndForth = false` and `startInterval = 0`; when it
does, `done` is the only member that changes (position and direction keep
their values); and once `done` is true it stays true under every sequence of
cluster operations, frames of `show()` included. -/
theorem C8_terminal (env : Env) (n : Nat) (w : World) (c : LEDCluster)
    (hpos : -2147483648 ≤ c.position ∧ c.position ≤ 2147483647)
    (hlen : c.length < 65536) (hstrip : n < 65536) :
    (c.done = false →
      ((LEDClusterController.advance env n w c).1.done = true ↔
        ((c.position + c.direction.step ≤ -(c.length : Int) ∨
            (n : Int) ≤ c.position + c.direction.step) ∧
          c.wrapAround = false ∧ c.backAndForth = false ∧ c.startInterval = 0))) ∧
    ((c.position + c.direction.step ≤ -(c.length : Int) ∨
        (n : Int) ≤ c.position + c.direction.step) →
      c.wrapAround = false → c.backAndForth = false → c.startInterval = 0 →
      LEDClusterController.advance env n w c = ({ c with done := true }, w)) ∧
    (∀ (ops : List LEDCluster.Op) (c0 : LEDCluster), c0.done = true →
      (ops.foldl (LEDCluster.apply env) c0).done = true) := by
  have hiff := LEDClusterController.outside_iff c n hpos hlen hstrip
  refine ⟨?_, ?_, ?_⟩
  · intro hnd
    constructor
    · intro hdone
      obtain ⟨_, _, _, _, _, _, _, a8⟩ := LEDClusterController.advance_frame env n w c
      have hpol : ¬ (c.wrapAround = true ∨ c.backAndForth = true ∨ 0 < c.startInterval) := by
        intro hp
        rw [a8 hp, hnd] at hdone
        exact absurd hdone (by simp)
      have hw : c.wrapAround = false := by
        cases hc : c.wrapAround
        · rfl
        · exact absurd (Or.inl hc) hpol
      have hb : c.backAndForth = false := by
        cases hc : c.backAndForth
        · rfl
        · exact absurd (Or.inr (Or.inl hc)) hpol
      have hs : c.startInterval = 0 := by
        by_contra hc
        exact hpol (Or.inr (Or.inr (by omega)))
      refine ⟨?_, hw, hb, hs⟩
      by_contra hin
      have hin1 : ¬ (LEDClusterController.advancedPosition c ≤ -(c.length : Int) ∨
          (n : Int) ≤ LEDClusterController.advancedPosition c) := fun h => hin (hiff.1 h)
      rw [LEDClusterController.advance_inside env n w c (by omega) (by omega)] at hdone
      rw [hnd] at hdone
      exact absurd hdone (by simp)
    · rintro ⟨hout, hw, hb, hs⟩
      rw [LEDClusterController.advance_markDone env n w c hw hb hs (hiff.2 hout)]
  · intro hout hw hb hs
    exact LEDClusterController.advance_markDone env n w c hw hb hs (hiff.2 hout)
  · intro ops c0 h0
    exact LEDClusterController.applyAll_done env ops c0 h0

/-- C8 (witness): a one-pixel runner without boundary policy on the last pixel
of a strip of ten is flagged done by the advance and keeps its position and
direction. -/
theorem C8_terminal_witness :
    (-2147483648 ≤ ((Sample.runner COLOR_RED).setPosition 9).position ∧
      ((Sample.runner COLOR_RED).setPosition 9).position ≤ 2147483647) ∧
    ((Sample.runner COLOR_RED).setPosition 9).length < 65536 ∧ 10 < 65536 ∧
    LEDClusterController.advance Sample.env 10 Sample.world
        ((Sample.runner COLOR_RED).setPosition 9) =
      ({ (Sample.runner COLOR_RED).setPosition 9 with done := true }, Sample.world) :=
  ⟨by decide, by decide, by decide,
    (C8_terminal Sample.env 10 Sample.world ((Sample.runner COLOR_RED).setPosition 9)
      (by decide) (by decide) (by decide)).2.1 (Or.inr (by decide)) (by decide) (by decide)
      (by decide)⟩

/-- C9: for a cluster whose members have values of their declared types
(`int32_t` position, `uint16_t` length) on a strip of `uint16_t` length, with
`wrapAround = false`, `backAndForth = false` and `startInterval > 0`, whose
advanced position `p' = position + step` satisfies `p' ≤ -length` or
`p' ≥ stripLength`: the advance reads the clock once, sets `startTime` to
`(now + startInterval) mod 2^32` and the position to `startPosition`, and
changes nothing else (`done` and `direction` keep their values); the result is
the same on the low side and on the high side. -/
theorem C9_restart (env : Env) (n : Nat) (w : World) (c : LEDCluster)
    (hpos : -2147483648 ≤ c.position ∧ c.position ≤ 2147483647)
    (hlen : c.length < 65536) (hstrip : n < 65536)
    (hwrap : c.wrapAround = false) (hbaf : c.backAndForth = false)
    (hsi : 0 < c.startInterval)
    (hout : c.position + c.direction.step ≤ -(c.length : Int) ∨
      (n : Int) ≤ c.position + c.direction.step) :
    LEDClusterController.advance env n w c =
      ({ c with
          startTime := ((w.millis env).1 + c.startInterval) % 4294967296
          position := c.startPosition },
        (w.millis env).2) := by
  rw [LEDClusterController.advance_restart env n w c hwrap hbaf hsi
    ((LEDClusterController.outside_iff c n hpos hlen hstrip).2 hout), Nat.add_comm]

/-- C9 (witness): a runner with start interval 500 ms and start position 2 that
leaves a strip of ten at clock reading 1000 ms restarts at position 2 with
start time 1500 ms. -/
theorem C9_restart_witness :
    (-2147483648 ≤ Sample.restarter.position ∧ Sample.restarter.position ≤ 2147483647) ∧
    Sample.restarter.length < 65536 ∧ 10 < 65536 ∧
    Sample.restarter.wrapAround = false ∧ Sample.restarter.backAndForth = false ∧
    0 < Sample.restarter.startInterval ∧
    ((10 : Nat) : Int) ≤ Sample.restarter.position + Sample.restarter.direction.step ∧
    LEDClusterController.advance Sample.env 10 Sample.world Sample.restarter =
      ({ Sample.restarter with startTime := 1500, position := 2 },
        (Sample.world.millis Sample.env).2) :=
  ⟨by decide, by decide, by decide, by decide, by decide, by decide, by decide,
    (C9_restart Sample.env 10 Sample.world Sample.restarter (by decide) (by decide) (by decide)
      (by decide) (by decide) (by decide) (Or.inr (by decide))).trans (by decide)⟩

/-- C10: for a cluster of `uint16_t` length on a strip of `uint16_t` length whose
advanced position `p' = position + step` satisfies
`-length < p' < stripLength`, the advance stores `p'` as the position and
changes nothing else (direction, `done`, `startTime` and the pixel buffer keep
their values).  In particular a cluster without direction that lies inside
that range keeps its position and its `done` flag over any sequence of frames
of `show()`. -/
theorem C10_inside (env : Env) (n : Nat) (w : World) (c : LEDCluster)
    (hlen : c.length < 65536) (hstrip : n < 65536)
    (hin : -(c.length : Int) < c.position + c.direction.step ∧
      c.position + c.direction.step < (n : Int)) :
    LEDClusterController.advance env n w c =
      ({ c with position := c.position + c.direction.step }, w) ∧
    (c.direction = Direction.NoD → ∀ frames : List (World × List Nat),
      (LEDClusterController.processFrames env n c frames).position = c.position ∧
      (LEDClusterController.processFrames env n c frames).done = c.done) := by
  have hap := LEDClusterController.advancedPosition_eq c (by omega)
  constructor
  · rw [LEDClusterController.advance_inside env n w c (by rw [hap]; exact hin.1)
      (by rw [hap]; exact hin.2), hap]
  · intro hdir frames
    have hin0 : -(c.length : Int) < c.position ∧ c.position < (n : Int) := by
      rw [hdir] at hin
      simpa [Direction.step] using hin
    have h := LEDClusterController.processFrames_still env n frames c hdir hin0
    exact ⟨h.2.1, h.2.2.2⟩

/-- C10 (witness): a one-pixel runner on pixel 3 of a strip of ten moves to
pixel 4. -/
theorem C10_inside_witness :
    ((Sample.runner COLOR_RED).setPosition 3).length < 65536 ∧ 10 < 65536 ∧
    (-(((Sample.runner COLOR_RED).setPosition 3).length : Int) <
        ((Sample.runner COLOR_RED).setPosition 3).position
          + ((Sample.runner COLOR_RED).setPosition 3).direction.step ∧
      ((Sample.runner COLOR_RED).setPosition 3).position
          + ((Sample.runner COLOR_RED).setPosition 3).direction.step < ((10 : Nat) : Int)) ∧
    LEDClusterController.advance Sample.env 10 Sample.world
        ((Sample.runner COLOR_RED).setPosition 3) =
      ({ (Sample.runner COLOR_RED).setPosition 3 with position := 4 }, Sample.world) :=
  ⟨by decide, by decide, by decide,
    (C10_inside Sample.env 10 Sample.world ((Sample.runner COLOR_RED).setPosition 3) (by decide)
      (by decide) (by decide)).1.trans (by decide)⟩

/-! ### Cells of the pixel buffer -/

namespace LEDCluster

theorem setRGBPixel_eq_setCell (c : LEDCluster) (no color : Nat) :
    c.setRGBPixel no color = c.setCell no (rgbCell color) := rfl

theorem setHSVPixel_eq_setCell (c : LEDCluster) (no hue saturation : Nat) :
    c.setHSVPixel no hue saturation = c.setCell no (hsvCell hue saturation) := rfl

theorem setCell_painted (c : LEDCluster) (no : Nat) (p : PixelColor) :
    Painted c (c.setCell no p) := by
  unfold setCell
  split
  · rfl
  · exact Painted.refl c

theorem setCell_lastUpdate (c : LEDCluster) (no : Nat) (p : PixelColor) :
    (c.setCell no p).lastUpdate = c.lastUpdate := by
  unfold setCell
  split <;> rfl

theorem setCell_pixels_length (c : LEDCluster) (no : Nat) (p : PixelColor) :
    (c.setCell no p).pixels.length = c.pixels.length := by
  unfold setCell
  split
  · exact List.length_set _ _ _
  · rfl

theorem setCell_length (c : LEDCluster) (no : Nat) (p : PixelColor) :
    (c.setCell no p).length = c.length := by
  unfold setCell
  split <;> rfl

theorem setCell_getElem? (c : LEDCluster) (no : Nat) (p : PixelColor) (j : Nat) :
    (c.setCell no p).pixels[j]? =
      if no = j ∧ no < c.length ∧ no < c.pixels.length then some p else c.pixels[j]? := by
  unfold setCell
  by_cases h : no < c.length
  · rw [if_pos h]
    show (c.pixels.set no p)[j]? = _
    rw [List.getElem?_set]
    by_cases h1 : no = j
    · rw [if_pos h1]
      by_cases h2 : no < c.pixels.length
      · rw [if_pos h2, if_pos ⟨h1, h, h2⟩]
      · rw [if_neg h2, if_neg (by tauto)]
        subst h1
        exact (List.getElem?_eq_none (by omega)).symm
    · rw [if_neg h1, if_neg (by tauto)]
  · rw [if_neg h, if_neg (by tauto)]

theorem cell_eq (c : LEDCluster) (i : Nat) : c.cell i = c.pixels[i]?.getD ⟨0, 0, 0⟩ := by
  unfold cell
  exact List.getD_eq_getElem?_getD _ _ _

/-- A loop that writes cell `i` with `p i` for every `i` of a list of indices. -/
theorem setCellFold_spec (p : Nat → PixelColor) (l : List Nat) (c : LEDCluster) :
    (l.foldl (fun acc i => acc.setCell i (p i)) c).length = c.length ∧
    (l.foldl (fun acc i => acc.setCell i (p i)) c).pixels.length = c.pixels.length ∧
    Painted c (l.foldl (fun acc i => acc.setCell i (p i)) c) ∧
    (l.foldl (fun acc i => acc.setCell i (p i)) c).lastUpdate = c.lastUpdate ∧
    (∀ j : Nat, (l.foldl (fun acc i => acc.setCell i (p i)) c).pixels[j]? =
      if j ∈ l ∧ j < c.length ∧ j < c.pixels.length then some (p j) else c.pixels[j]?) := by
  induction l generalizing c with
  | nil =>
    refine ⟨rfl, rfl, Painted.refl c, rfl, ?_⟩
    intro j
    rw [if_neg (by simp)]
    rfl
  | cons a l ih =>
    obtain ⟨h1, h2, h3, h4, h5⟩ := ih (c.setCell a (p a))
    rw [List.foldl_cons]
    refine ⟨h1.trans (setCell_length _ _ _), h2.trans (setCell_pixels_length _ _ _),
      (setCell_painted c a (p a)).trans h3, h4.trans (setCell_lastUpdate _ _ _), ?_⟩
    intro j
    rw [h5 j, setCell_length, setCell_pixels_length, setCell_getElem?]
    by_cases hj : j ∈ l ∧ j < c.length ∧ j < c.pixels.length
    · rw [if_pos hj, if_pos ⟨List.mem_cons_of_mem _ hj.1, hj.2⟩]
    · rw [if_neg hj]
      by_cases ha : a = j ∧ a < c.length ∧ a < c.pixels.length
      · rw [if_pos ha]
        obtain ⟨rfl, ha2, ha3⟩ := ha
        rw [if_pos ⟨List.mem_cons_self _ _, ha2, ha3⟩]
      · rw [if_neg ha, if_neg]
        rintro ⟨hm, hl, hp⟩
        rcases List.mem_cons.1 hm with rfl | hm
        · exact ha ⟨rfl, hl, hp⟩
        · exact hj ⟨hm, hl, hp⟩

theorem rgbCell_rgb (color : Nat) : (rgbCell color).rgb = color % 16777216 := by
  unfold rgbCell PixelColor.rgb
  dsimp only
  omega

theorem hsvCell_hue (hue saturation : Nat) (h : hue < 65536) :
    (hsvCell hue saturation).hue = hue := by
  unfold hsvCell PixelColor.hue
  dsimp only
  omega

theorem hsvCell_saturation (hue saturation : Nat) (h : saturation < 256) :
    (hsvCell hue saturation).saturation = saturation := by
  unfold hsvCell PixelColor.saturation
  dsimp only
  omega

theorem getRGBPixel_eq (c : LEDCluster) (no : Nat) :
    c.getRGBPixel no = if no < c.length then (c.cell no).rgb else 0 := rfl

end LEDCluster

/-- C11: for `uint32_t` values of the clock and of `lastUpdate`, `shouldMove`
called at clock value `t` returns true exactly when
`(t - lastUpdate) mod 2^32 > updateInterval`; when it returns true the only
change is `lastUpdate = t`, when it returns false the cluster is unchanged.
Hence, if a call at `t` returned true, a call at `t2` with `t ≤ t2` (no clock
wrap) and `t2 - t ≤ updateInterval` returns false. -/
theorem C11_shouldMove (c : LEDCluster) (t : Nat)
    (ht : t < 4294967296) (hlu : c.lastUpdate < 4294967296) :
    ((c.shouldMove t).1 = true ↔
      ((t : Int) - (c.lastUpdate : Int)) % 4294967296 > (c.updateInterval : Int)) ∧
    ((c.shouldMove t).1 = true → (c.shouldMove t).2 = { c with lastUpdate := t }) ∧
    ((c.shouldMove t).1 = false → (c.shouldMove t).2 = c) ∧
    (∀ t2 : Nat, t ≤ t2 → t2 < 4294967296 → t2 - t ≤ c.updateInterval →
      (c.shouldMove t).1 = true → ((c.shouldMove t).2.shouldMove t2).1 = false) := by
  by_cases h : subUInt32 t c.lastUpdate > c.updateInterval
  · have e : c.shouldMove t = (true, { c with lastUpdate := t }) := by
      unfold LEDCluster.shouldMove
      rw [if_pos h]
    rw [e]
    unfold subUInt32 at h
    refine ⟨⟨fun _ => by omega, fun _ => rfl⟩, fun _ => rfl, fun h0 => absurd h0 (by simp), ?_⟩
    intro t2 h1 h2 h3 _
    unfold LEDCluster.shouldMove subUInt32
    rw [if_neg (by dsimp only; omega)]
  · have e : c.shouldMove t = (false, c) := by
      unfold LEDCluster.shouldMove
      rw [if_neg h]
    rw [e]
    unfold subUInt32 at h
    refine ⟨⟨fun h0 => absurd h0 (by simp), fun h0 => absurd h0 (by omega)⟩,
      fun h0 => absurd h0 (by simp), fun _ => rfl, ?_⟩
    intro t2 _ _ _ h0
    exact absurd h0 (by simp)

/-- C11 (witness): with `lastUpdate = 0` and `updateInterval = 100`, a call at
1000 ms returns true and a call at 1100 ms then returns false. -/
theorem C11_shouldMove_witness :
    (1000 : Nat) < 4294967296 ∧
    ((LEDCluster.construct 1).setUpdateInterval 100).lastUpdate < 4294967296 ∧
    (((LEDCluster.construct 1).setUpdateInterval 100).shouldMove 1000).1 = true ∧
    ((((LEDCluster.construct 1).setUpdateInterval 100).shouldMove 1000).2.shouldMove 1100).1
      = false :=
  ⟨by decide, by decide, by decide,
    (C11_shouldMove ((LEDCluster.construct 1).setUpdateInterval 100) 1000 (by decide)
      (by decide)).2.2.2 1100 (by decide) (by decide) (by decide) (by decide)⟩

/-- C16: for a cluster whose buffer has `length` cells: for `no < length`,
`getRGBPixel(no)` after `setRGBPixel(no, color)` returns `color & 0xFFFFFF`,
every other cell is unchanged and so is every other member; for
`no ≥ length`, `setRGBPixel` and `setHSVPixel` leave the cluster unchanged and
`getRGBPixel(no)` returns 0. -/
theorem C16_rgb_accessors (c : LEDCluster) (no color : Nat)
    (hbuf : c.pixels.length = c.length) :
    (no < c.length →
      (c.setRGBPixel no color).getRGBPixel no = color &&& 0xFFFFFF ∧
      (∀ j : Nat, j ≠ no → (c.setRGBPixel no color).cell j = c.cell j) ∧
      c.setRGBPixel no color = { c with pixels := (c.setRGBPixel no color).pixels } ∧
      (c.setRGBPixel no color).pixels.length = c.length) ∧
    (c.length ≤ no →
      c.setRGBPixel no color = c ∧ c.getRGBPixel no = 0 ∧
      ∀ hue saturation : Nat, c.setHSVPixel no hue saturation = c) := by
  constructor
  · intro hno
    have hmask : color &&& 0xFFFFFF = color % 16777216 := by
      have := Nat.and_pow_two_sub_one_eq_mod color 24
      simpa using this
    refine ⟨?_, ?_, ?_, ?_⟩
    · rw [LEDCluster.getRGBPixel_eq, LEDCluster.setRGBPixel_eq_setCell,
        LEDCluster.setCell_length, if_pos hno, LEDCluster.cell_eq, LEDCluster.setCell_getElem?,
        if_pos ⟨rfl, hno, by omega⟩, hmask]
      exact LEDCluster.rgbCell_rgb color
    · intro j hj
      rw [LEDCluster.cell_eq, LEDCluster.cell_eq, LEDCluster.setRGBPixel_eq_setCell,
        LEDCluster.setCell_getElem?, if_neg (by omega)]
    · unfold LEDCluster.setRGBPixel
      rw [if_pos hno]
    · rw [LEDCluster.setRGBPixel_eq_setCell, LEDCluster.setCell_pixels_length, hbuf]
  · intro hno
    refine ⟨?_, ?_, ?_⟩
    · unfold LEDCluster.setRGBPixel
      rw [if_neg (by omega)]
    · unfold LEDCluster.getRGBPixel
      rw [if_neg (by omega)]
    · intro hue saturation
      unfold LEDCluster.setHSVPixel
      rw [if_neg (by omega)]

/-- C16 (witness): cell 1 of a three-pixel cluster written with `0x12345678`
reads back as `0x345678`; index 3 is ignored. -/
theorem C16_rgb_accessors_witness :
    (LEDCluster.construct 3).pixels.length = (LEDCluster.construct 3).length ∧
    ((LEDCluster.construct 3).setRGBPixel 1 0x12345678).getRGBPixel 1 = 0x345678 ∧
    (LEDCluster.construct 3).setRGBPixel 3 0x12345678 = LEDCluster.construct 3 :=
  ⟨by decide,
    ((C16_rgb_accessors (LEDCluster.construct 3) 1 0x12345678 (by decide)).1
      (by decide)).1.trans (by decide),
    ((C16_rgb_accessors (LEDCluster.construct 3) 3 0x12345678 (by decide)).2 (by decide)).1⟩

/-! ### Boundary-policy flags and factories -/

namespace LEDClusterController

open LEDCluster

/-- An operation leaves the two policy flags alone or sets exactly one. -/
theorem apply_flags (env : Env) (c : LEDCluster) (op : LEDCluster.Op) :
    ((c.apply env op).wrapAround = c.wrapAround ∧
        (c.apply env op).backAndForth = c.backAndForth) ∨
      ((c.apply env op).wrapAround = true ∧ (c.apply env op).backAndForth = false) ∨
      ((c.apply env op).wrapAround = false ∧ (c.apply env op).backAndForth = true) := by
  cases op with
  | setRGBPixel no color =>
    have h := painted_fields (setRGBPixel_painted c no color)
    exact Or.inl ⟨h.2.2.1, h.2.2.2.1⟩
  | setHSVPixel no hue saturation =>
    have h := painted_fields (setHSVPixel_painted c no hue saturation)
    exact Or.inl ⟨h.2.2.1, h.2.2.2.1⟩
  | setDirection dir => exact Or.inl ⟨rfl, rfl⟩
  | enableWrapAround => exact Or.inr (Or.inl ⟨rfl, rfl⟩)
  | enableBackAndForth => exact Or.inr (Or.inr ⟨rfl, rfl⟩)
  | setUpdateInterval interval => exact Or.inl ⟨rfl, rfl⟩
  | setStartTime time => exact Or.inl ⟨rfl, rfl⟩
  | setStartInterval interval => exact Or.inl ⟨rfl, rfl⟩
  | setStartPosition pos => exact Or.inl ⟨rfl, rfl⟩
  | setPosition pos => exact Or.inl ⟨rfl, rfl⟩
  | markDone => exact Or.inl ⟨rfl, rfl⟩
  | shouldMove currentTime =>
    have h := painted_fields (shouldMove_painted c currentTime)
    exact Or.inl ⟨h.2.2.1, h.2.2.2.1⟩
  | getPulsarAtIndex pixelNo =>
    have h := painted_fields (getPulsarAtIndex_painted env c pixelNo)
    exact Or.inl ⟨h.2.2.1, h.2.2.2.1⟩
  | frame numPixels w strip =>
    have h := processCluster_frame env numPixels w c strip
    exact Or.inl ⟨h.2.1, h.2.2.1⟩

theorem applyAll_flags (env : Env) (ops : List LEDCluster.Op) (c : LEDCluster)
    (h : ¬ (c.wrapAround = true ∧ c.backAndForth = true)) :
    ¬ ((ops.foldl (LEDCluster.apply env) c).wrapAround = true ∧
      (ops.foldl (LEDCluster.apply env) c).backAndForth = true) := by
  induction ops generalizing c with
  | nil => exact h
  | cons op ops ih =>
    apply ih
    rcases apply_flags env c op with h1 | h1 | h1
    · rw [h1.1, h1.2]; exact h
    · rw [h1.1, h1.2]; simp
    · rw [h1.1, h1.2]; simp

theorem painted_construct_flags (n : Nat) (c : LEDCluster)
    (h : Painted (LEDCluster.construct n) c) : c.wrapAround = false ∧ c.backAndForth = false := by
  have hf := painted_fields h
  exact ⟨hf.2.2.1, hf.2.2.2.1⟩

/-- Every factory answers a cluster with both policy flags false. -/
theorem factory_flags (env : Env) (allocated : Bool) (a b n : Nat) (c : LEDCluster)
    (h : initRGBPixel allocated a = some c ∨ initRGBBar allocated a n = some c ∨
      initRGBRainbow env allocated n = some c ∨ initRGBPattern allocated a b = some c ∨
      initPeakMeter allocated n b = some c ∨ initPulsarPixel allocated a b = some c ∨
      initPulsarBar allocated a b n = some c ∨ initPulsarRainbow allocated b n = some c) :
    c.wrapAround = false ∧ c.backAndForth = false := by
  rcases h with h | h | h | h | h | h | h | h
  · unfold initRGBPixel at h
    split at h
    · rw [← Option.some.inj h]
      exact painted_construct_flags 1 _ (setRGBPixel_painted _ _ _)
    · exact absurd h (by simp)
  · unfold initRGBBar at h
    split at h
    · rw [← Option.some.inj h]
      exact painted_construct_flags n _
        (Painted.foldl _ (fun acc i => setRGBPixel_painted acc i _) _ _)
    · exact absurd h (by simp)
  · unfold initRGBRainbow at h
    split at h
    · rw [← Option.some.inj h]
      exact painted_construct_flags n _
        (Painted.foldl _ (fun acc i => setRGBPixel_painted acc i _) _ _)
    · exact absurd h (by simp)
  · unfold initRGBPattern at h
    split at h
    · rw [← Option.some.inj h]
      refine painted_construct_flags 8 _ (Painted.foldl _ ?_ _ _)
      intro acc bit
      dsimp only
      split
      · exact setRGBPixel_painted _ _ _
      · exact setRGBPixel_painted _ _ _
    · exact absurd h (by simp)
  · unfold initPeakMeter at h
    split at h
    · exact absurd h (by simp)
    · split at h
      · rw [← Option.some.inj h]
        have step : ∀ (acc : LEDCluster) (i : Nat), Painted acc
            (if i < n / 2 then acc.setRGBPixel i COLOR_GREEN
              else if i < n / 2 + n / 3 then acc.setRGBPixel i COLOR_YELLOW
              else acc.setRGBPixel i COLOR_RED) := by
          intro acc i
          split
          · exact setRGBPixel_painted acc i _
          · split
            · exact setRGBPixel_painted acc i _
            · exact setRGBPixel_painted acc i _
        have hp := (Painted.foldl
          (fun (acc : LEDCluster) (i : Nat) =>
            if i < n / 2 then acc.setRGBPixel i COLOR_GREEN
            else if i < n / 2 + n / 3 then acc.setRGBPixel i COLOR_YELLOW
            else acc.setRGBPixel i COLOR_RED) step (List.range n)
          { LEDCluster.construct (toUInt16 ((n + b : Nat) : Int)) with peakLength := b }).trans
          (Painted.foldl (fun (acc : LEDCluster) (i : Nat) => acc.setRGBPixel i COLOR_BLACK)
            (fun acc i => setRGBPixel_painted acc i COLOR_BLACK) (List.range' n b) _)
        have hf := painted_fields hp
        exact ⟨hf.2.2.1, hf.2.2.2.1⟩
      · exact absurd h (by simp)
  · unfold initPulsarPixel at h
    split at h
    · rw [← Option.some.inj h]
      have hf := painted_construct_flags 1 _ (setHSVPixel_painted (LEDCluster.construct 1) 0 a b)
      exact hf
    · exact absurd h (by simp)
  · unfold initPulsarBar at h
    split at h
    · rw [← Option.some.inj h]
      have hf := painted_construct_flags n _
        (Painted.foldl (fun (acc : LEDCluster) (i : Nat) => acc.setHSVPixel i a b)
          (fun acc i => setHSVPixel_painted acc i a b) (List.range n) (LEDCluster.construct n))
      exact hf
    · exact absurd h (by simp)
  · unfold initPulsarRainbow at h
    split at h
    · rw [← Option.some.inj h]
      have hf := painted_construct_flags n _
        (Painted.foldl
          (fun (acc : LEDCluster) (i : Nat) =>
            acc.setHSVPixel i (toUInt16 ((toUInt16 ((65536 / n : Nat) : Int) * i : Nat) : Int)) b)
          (fun acc i => setHSVPixel_painted acc i _ b) (List.range n) (LEDCluster.construct n))
      exact hf
    · exact absurd h (by simp)

end LEDClusterController

/-- C17: a newly constructed cluster has `wrapAround` and `backAndForth` false,
and so has every cluster answered by a factory; `enableWrapAround` yields
`wrapAround = true` and `backAndForth = false`; `enableBackAndForth` yields
`backAndForth = true` and `wrapAround = false`; and no sequence of cluster
operations, frames of `show()` included, makes both flags true: from a cluster
with at most one flag set, hence from every constructed cluster, at most one
flag is set afterwards. -/
theorem C17_exclusive_policies (env : Env) :
    (∀ numLEDs : Nat, (LEDCluster.construct numLEDs).wrapAround = false ∧
      (LEDCluster.construct numLEDs).backAndForth = false) ∧
    (∀ (allocated : Bool) (a b n : Nat) (c : LEDCluster),
      (LEDCluster.initRGBPixel allocated a = some c ∨
        LEDCluster.initRGBBar allocated a n = some c ∨
        LEDCluster.initRGBRainbow env allocated n = some c ∨
        LEDCluster.initRGBPattern allocated a b = some c ∨
        LEDCluster.initPeakMeter allocated n b = some c ∨
        LEDCluster.initPulsarPixel allocated a b = some c ∨
        LEDCluster.initPulsarBar allocated a b n = some c ∨
        LEDCluster.initPulsarRainbow allocated b n = some c) →
      c.wrapAround = false ∧ c.backAndForth = false) ∧
    (∀ c : LEDCluster, c.enableWrapAround.wrapAround = true ∧
      c.enableWrapAround.backAndForth = false) ∧
    (∀ c : LEDCluster, c.enableBackAndForth.backAndForth = true ∧
      c.enableBackAndForth.wrapAround = false) ∧
    (∀ (c : LEDCluster) (ops : List LEDCluster.Op),
      ¬ (c.wrapAround = true ∧ c.backAndForth = true) →
      ¬ ((ops.foldl (LEDCluster.apply env) c).wrapAround = true ∧
        (ops.foldl (LEDCluster.apply env) c).backAndForth = true)) ∧
    (∀ (numLEDs : Nat) (ops : List LEDCluster.Op),
      ¬ ((ops.foldl (LEDCluster.apply env) (LEDCluster.construct numLEDs)).wrapAround = true ∧
        (ops.foldl (LEDCluster.apply env) (LEDCluster.construct numLEDs)).backAndForth
          = true)) := by
  refine ⟨fun _ => ⟨rfl, rfl⟩, ?_, fun _ => ⟨rfl, rfl⟩, fun _ => ⟨rfl, rfl⟩, ?_, ?_⟩
  · intro allocated a b n c h
    exact LEDClusterController.factory_flags env allocated a b n c h
  · intro c ops h
    exact LEDClusterController.applyAll_flags env ops c h
  · intro numLEDs ops
    exact LEDClusterController.applyAll_flags env ops _ (by simp [LEDCluster.construct])

/-- C17 (witness): enabling wrap-around and then back-and-forth on a fresh
cluster, with a frame of `show()` in between, leaves only back-and-forth set. -/
theorem C17_exclusive_policies_witness :
    ([LEDCluster.Op.enableWrapAround, LEDCluster.Op.frame 10 Sample.world [],
        LEDCluster.Op.enableBackAndForth].foldl (LEDCluster.apply Sample.env)
      (LEDCluster.construct 2)).wrapAround = false ∧
    ¬ (([LEDCluster.Op.enableWrapAround, LEDCluster.Op.frame 10 Sample.world [],
        LEDCluster.Op.enableBackAndForth].foldl (LEDCluster.apply Sample.env)
      (LEDCluster.construct 2)).wrapAround = true ∧
      ([LEDCluster.Op.enableWrapAround, LEDCluster.Op.frame 10 Sample.world [],
        LEDCluster.Op.enableBackAndForth].foldl (LEDCluster.apply Sample.env)
      (LEDCluster.construct 2)).backAndForth = true) :=
  ⟨by decide, (C17_exclusive_policies Sample.env).2.2.2.2.2 2 _⟩

/-! ### Peak-meter and rainbow factories -/

namespace LEDCluster

theorem toUInt16_natCast (n : Nat) : toUInt16 (n : Int) = n % 65536 := by
  unfold toUInt16
  omega

theorem peakColor_rgb (width i : Nat) :
    (rgbCell (LEDClusterController.peakColor width i)).rgb =
      LEDClusterController.peakColor width i := by
  rw [rgbCell_rgb]
  unfold LEDClusterController.peakColor
  split
  · rfl
  · split <;> rfl

/-- The cluster built by `initPeakMeter`, with both loops written as loops over
cells. -/
theorem initPeakMeter_eq (width peak : Nat) (h : peak < width) :
    initPeakMeter true width peak =
      some ((List.range' width peak).foldl (fun acc i => acc.setCell i (rgbCell COLOR_BLACK))
        ((List.range width).foldl
          (fun acc i => acc.setCell i (rgbCell (LEDClusterController.peakColor width i)))
          { construct (toUInt16 ((width + peak : Nat) : Int)) with peakLength := peak })) := by
  have hf : (fun (acc : LEDCluster) (i : Nat) =>
      if i < width / 2 then acc.setRGBPixel i COLOR_GREEN
      else if i < width / 2 + width / 3 then acc.setRGBPixel i COLOR_YELLOW
      else acc.setRGBPixel i COLOR_RED) =
      fun acc i => acc.setCell i (rgbCell (LEDClusterController.peakColor width i)) := by
    funext acc i
    unfold LEDClusterController.peakColor
    split
    · rfl
    · split <;> rfl
  unfold initPeakMeter
  rw [if_neg (by omega), if_pos rfl]
  dsimp only
  rw [hf]
  rfl

theorem initPeakMeter_cells (width peak : Nat) (hsum : width + peak ≤ 65535)
    (h : peak < width) (c : LEDCluster) (hc : initPeakMeter true width peak = some c) :
    c.length = width + peak ∧ c.peakLength = peak ∧ c.pixels.length = width + peak ∧
    ∀ i : Nat, i < width + peak →
      c.getRGBPixel i =
        if i < width then LEDClusterController.peakColor width i else COLOR_BLACK := by
  rw [initPeakMeter_eq width peak h] at hc
  have hc := (Option.some.inj hc).symm
  have hlen0 : ({ construct (toUInt16 ((width + peak : Nat) : Int)) with
      peakLength := peak } : LEDCluster).length = width + peak := by
    show toUInt16 ((width + peak : Nat) : Int) = width + peak
    rw [toUInt16_natCast]
    omega
  have hpix0 : ({ construct (toUInt16 ((width + peak : Nat) : Int)) with
      peakLength := peak } : LEDCluster).pixels.length = width + peak := by
    show (List.replicate (toUInt16 ((width + peak : Nat) : Int)) _).length = width + peak
    rw [List.length_replicate, toUInt16_natCast]
    omega
  obtain ⟨a1, a2, a3, _, a5⟩ := setCellFold_spec
    (fun i => rgbCell (LEDClusterController.peakColor width i)) (List.range width)
    { construct (toUInt16 ((width + peak : Nat) : Int)) with peakLength := peak }
  obtain ⟨b1, b2, b3, _, b5⟩ := setCellFold_spec (fun _ => rgbCell COLOR_BLACK)
    (List.range' width peak)
    ((List.range width).foldl
      (fun acc i => acc.setCell i (rgbCell (LEDClusterController.peakColor width i)))
      { construct (toUInt16 ((width + peak : Nat) : Int)) with peakLength := peak })
  rw [← hc] at b1 b2 b3 b5
  rw [a1, hlen0] at b1
  rw [a2, hpix0] at b2
  have hpk : c.peakLength = peak := by
    have h1 := (LEDClusterController.painted_fields b3).2.2.2.2.2.2.2.2.2.1
    have h2 := (LEDClusterController.painted_fields a3).2.2.2.2.2.2.2.2.2.1
    rw [h1, h2]
  refine ⟨b1, hpk, b2, ?_⟩
  intro i hi
  rw [getRGBPixel_eq, if_pos (by omega), cell_eq, b5 i, a1, a2, hlen0, hpix0]
  by_cases hw : i < width
  · rw [if_neg (by rw [List.mem_range'_1]; omega), a5 i, hlen0, hpix0,
      if_pos ⟨List.mem_range.2 hw, hi, hi⟩, if_pos hw]
    exact peakColor_rgb width i
  · rw [if_pos ⟨by rw [List.mem_range'_1]; omega, hi, hi⟩, if_neg hw]
    rfl

theorem rainbowHue (width i : Nat) (hw : 1 ≤ width) (hi : i < width) :
    toUInt16 ((toUInt16 ((65536 / width : Nat) : Int) * i : Nat) : Int) = 65536 / width * i ∧
      65536 / width * i < 65536 := by
  rw [toUInt16_natCast, toUInt16_natCast]
  by_cases h1 : width = 1
  · subst h1
    have : i = 0 := by omega
    subst this
    decide
  · have hq : 65536 / width < 65536 := Nat.div_lt_self (by omega) (by omega)
    have hprod : 65536 / width * i < 65536 := by
      have h2 : 65536 / width * width ≤ 65536 := Nat.div_mul_le_self _ _
      by_cases h0 : 65536 / width = 0
      · rw [h0]; omega
      · have h3 : 65536 / width * i < 65536 / width * width :=
          Nat.mul_lt_mul_of_le_of_lt (le_refl _) hi (Nat.pos_of_ne_zero h0)
        omega
    rw [Nat.mod_eq_of_lt hq, Nat.mod_eq_of_lt hprod]
    exact ⟨rfl, hprod⟩

theorem initPulsarRainbow_cells (s width : Nat) (hw : 1 ≤ width) (c : LEDCluster)
    (hc : initPulsarRainbow true s width = some c) :
    c.saturationInterval = s ∧ c.length = width ∧ c.pixels.length = width ∧
    ∀ i : Nat, i < width → c.cell i = hsvCell (65536 / width * i) s := by
  have hc : c = { (List.range width).foldl
      (fun acc i => acc.setCell i
        (hsvCell (toUInt16 ((toUInt16 ((65536 / width : Nat) : Int) * i : Nat) : Int)) s))
      (construct width) with saturationInterval := s } := (Option.some.inj hc).symm
  obtain ⟨a1, a2, _, _, a5⟩ := setCellFold_spec
    (fun i => hsvCell (toUInt16 ((toUInt16 ((65536 / width : Nat) : Int) * i : Nat) : Int)) s)
    (List.range width) (construct width)
  have hl : (construct width).length = width := rfl
  have hp : (construct width).pixels.length = width := List.length_replicate _ _
  rw [hl] at a1
  rw [hp] at a2
  refine ⟨by rw [hc], by rw [hc]; exact a1, by rw [hc]; exact a2, ?_⟩
  intro i hi
  rw [cell_eq, hc]
  dsimp only
  rw [a5 i, hl, hp, if_pos ⟨List.mem_range.2 hi, hi, hi⟩, (rainbowHue width i hw hi).1]
  rfl

theorem initRGBRainbow_cells (env : Env) (width : Nat) (hw : 1 ≤ width) (c : LEDCluster)
    (hc : initRGBRainbow env true width = some c) :
    c.length = width ∧
    ∀ i : Nat, i < width →
      c.getRGBPixel i = env.gamma32 (env.colorHSV (65536 / width * i) 255 255) % 16777216 := by
  have hc : c = (List.range width).foldl
      (fun acc i => acc.setCell i
        (rgbCell (env.gamma32 (env.colorHSV
          (toUInt16 ((toUInt16 ((65536 / width : Nat) : Int) * i : Nat) : Int)) 255 255))))
      (construct width) := (Option.some.inj hc).symm
  obtain ⟨a1, a2, _, _, a5⟩ := setCellFold_spec
    (fun i => rgbCell (env.gamma32 (env.colorHSV
      (toUInt16 ((toUInt16 ((65536 / width : Nat) : Int) * i : Nat) : Int)) 255 255)))
    (List.range width) (construct width)
  have hl : (construct width).length = width := rfl
  have hp : (construct width).pixels.length = width := List.length_replicate _ _
  rw [hl] at a1
  rw [hp] at a2
  rw [← hc] at a1 a2 a5
  refine ⟨a1, ?_⟩
  intro i hi
  rw [getRGBPixel_eq, a1, if_pos hi, cell_eq, a5 i, hl, hp,
    if_pos ⟨List.mem_range.2 hi, hi, hi⟩, (rainbowHue width i hw hi).1]
  exact rgbCell_rgb _

end LEDCluster

/-- C18: with the buffer allocated and `width + peak ≤ 65535`,
`initPeakMeter(width, peak)` answers a cluster if and only if `peak < width`;
that cluster has length `width + peak` and `peakLength = peak`; its cell `i`
reads green for `i < width/2`, yellow for `width/2 ≤ i < width/2 + width/3`,
red for `width/2 + width/3 ≤ i < width` and black for
`width ≤ i < width + peak`, the divisions being truncating. -/
theorem C18_initPeakMeter (width peak : Nat) (hsum : width + peak ≤ 65535) :
    ((∃ c : LEDCluster, LEDCluster.initPeakMeter true width peak = some c) ↔ peak < width) ∧
    (∀ c : LEDCluster, LEDCluster.initPeakMeter true width peak = some c →
      c.length = width + peak ∧ c.peakLength = peak ∧ c.pixels.length = width + peak ∧
      (∀ i : Nat, i < width / 2 → c.getRGBPixel i = 0x00FF00) ∧
      (∀ i : Nat, width / 2 ≤ i → i < width / 2 + width / 3 → c.getRGBPixel i = 0xFFFF00) ∧
      (∀ i : Nat, width / 2 + width / 3 ≤ i → i < width → c.getRGBPixel i = 0xFF0000) ∧
      (∀ i : Nat, width ≤ i → i < width + peak → c.getRGBPixel i = 0)) := by
  constructor
  · constructor
    · rintro ⟨c, hc⟩
      by_contra hn
      unfold LEDCluster.initPeakMeter at hc
      rw [if_pos (by omega)] at hc
      exact absurd hc (by simp)
    · intro h
      exact ⟨_, LEDCluster.initPeakMeter_eq width peak h⟩
  · intro c hc
    have h : peak < width := by
      by_contra hn
      unfold LEDCluster.initPeakMeter at hc
      rw [if_pos (by omega)] at hc
      exact absurd hc (by simp)
    obtain ⟨h1, h2, h3, h4⟩ := LEDCluster.initPeakMeter_cells width peak hsum h c hc
    refine ⟨h1, h2, h3, ?_, ?_, ?_, ?_⟩
    · intro i hi
      rw [h4 i (by omega), if_pos (by omega)]
      unfold LEDClusterController.peakColor
      rw [if_pos hi]
      rfl
    · intro i hi1 hi2
      rw [h4 i (by omega), if_pos (by omega)]
      unfold LEDClusterController.peakColor
      rw [if_neg (by omega), if_pos hi2]
      rfl
    · intro i hi1 hi2
      rw [h4 i (by omega), if_pos hi2]
      unfold LEDClusterController.peakColor
      rw [if_neg (by omega), if_neg (by omega)]
      rfl
    · intro i hi1 hi2
      rw [h4 i hi2, if_neg (by omega)]
      rfl

/-- C18 (witness): `initPeakMeter(6, 2)` answers a cluster of eight cells:
three green, two yellow, one red, two black. -/
theorem C18_initPeakMeter_witness :
    6 + 2 ≤ 65535 ∧
    (∃ c : LEDCluster, LEDCluster.initPeakMeter true 6 2 = some c) ∧
    (LEDCluster.initPeakMeter true 6 2).map
        (fun c => (List.range 8).map (fun i => c.getRGBPixel i)) =
      some [0x00FF00, 0x00FF00, 0x00FF00, 0xFFFF00, 0xFFFF00, 0xFF0000, 0, 0] :=
  ⟨by decide, (C18_initPeakMeter 6 2 (by decide)).1.2 (by decide), by decide⟩

/-- C19: for every `uint16_t` width of at least 1 and every `uint8_t`
saturation interval `s`: `initPulsarRainbow(s, width)` answers a cluster of
length `width` with `saturationInterval = s` whose cell `i` (for `i < width`)
holds the hue `⌊65536 / width⌋ * i`, a value below 65536, and the saturation
`s`, the hues being strictly increasing in `i` when `width ≥ 2`; and
`initRGBRainbow(width)` stores in cell `i` the low 24 bits of the conversion
of the hue `⌊65536 / width⌋ * i`. -/
theorem C19_rainbow_hue (env : Env) (s width : Nat)
    (hw : 1 ≤ width) (hw16 : width < 65536) (hs : s < 256) :
    (∃ c : LEDCluster, LEDCluster.initPulsarRainbow true s width = some c ∧
      c.saturationInterval = s ∧ c.length = width ∧
      (∀ i : Nat, i < width →
        (c.cell i).hue = 65536 / width * i ∧ (c.cell i).hue < 65536 ∧
        (c.cell i).saturation = s) ∧
      (2 ≤ width → ∀ i j : Nat, i < j → j < width → (c.cell i).hue < (c.cell j).hue)) ∧
    (∃ c : LEDCluster, LEDCluster.initRGBRainbow env true width = some c ∧
      c.length = width ∧
      ∀ i : Nat, i < width →
        c.getRGBPixel i =
          env.gamma32 (env.colorHSV (65536 / width * i) 255 255) % 16777216) := by
  constructor
  · obtain ⟨h1, h2, _, h4⟩ := LEDCluster.initPulsarRainbow_cells s width hw _ rfl
    refine ⟨_, rfl, h1, h2, ?_, ?_⟩
    · intro i hi
      have e := h4 i hi
      have hh := (congrArg PixelColor.hue e).trans
        (LEDCluster.hsvCell_hue _ s (LEDCluster.rainbowHue width i hw hi).2)
      refine ⟨hh, by rw [hh]; exact (LEDCluster.rainbowHue width i hw hi).2, ?_⟩
      exact (congrArg PixelColor.saturation e).trans (LEDCluster.hsvCell_saturation _ s hs)
    · intro h2w i j hij hj
      have ei := (congrArg PixelColor.hue (h4 i (by omega))).trans
        (LEDCluster.hsvCell_hue _ s (LEDCluster.rainbowHue width i hw (by omega)).2)
      have ej := (congrArg PixelColor.hue (h4 j hj)).trans
        (LEDCluster.hsvCell_hue _ s (LEDCluster.rainbowHue width j hw hj).2)
      rw [ei, ej]
      exact Nat.mul_lt_mul_of_le_of_lt (le_refl _) hij (Nat.div_pos (by omega) (by omega))
  · obtain ⟨h1, h2⟩ := LEDCluster.initRGBRainbow_cells env width hw _ rfl
    exact ⟨_, rfl, h1, h2⟩

/-- C19 (witness): `initPulsarRainbow(5, 4)` stores the hues 0, 16384, 32768,
49152 and the saturation 5. -/
theorem C19_rainbow_hue_witness :
    1 ≤ 4 ∧ 4 < 65536 ∧ 5 < 256 ∧
    (∃ c : LEDCluster, LEDCluster.initPulsarRainbow true 5 4 = some c ∧
      c.saturationInterval = 5 ∧ c.length = 4 ∧
      (∀ i : Nat, i < 4 →
        (c.cell i).hue = 65536 / 4 * i ∧ (c.cell i).hue < 65536 ∧
        (c.cell i).saturation = 5) ∧
      (2 ≤ 4 → ∀ i j : Nat, i < j → j < 4 → (c.cell i).hue < (c.cell j).hue)) ∧
    (LEDCluster.initPulsarRainbow true 5 4).map
        (fun c => (List.range 4).map (fun i => (c.cell i).hue)) = some [0, 16384, 32768, 49152] :=
  ⟨by decide, by decide, by decide,
    (C19_rainbow_hue Sample.env 5 4 (by decide) (by decide) (by decide)).1, by decide⟩

/-! ### The two colour accessors -/

namespace LEDCluster

/-- For values of the declared types, `hasPixel` answers true exactly for the
indices of `[position, position + length)`. -/
theorem hasPixel_range (c : LEDCluster) (g : Nat)
    (hlen : c.length < 65536)
    (hpos : -2147483648 ≤ c.position ∧ c.position ≤ 2147483647) (hg : g < 65536) :
    c.hasPixel g = true ↔ (c.position ≤ (g : Int) ∧ (g : Int) < c.position + (c.length : Int)) := by
  unfold hasPixel toInt32
  simp only [Bool.or_eq_true, decide_eq_true_eq, ge_iff_le]
  split <;> rename_i h <;> simp only [Bool.false_eq_true, false_iff, true_iff] <;> omega

/-- The local index of a claimed strip index. -/
theorem localIndex (c : LEDCluster) (g : Nat)
    (hlen : c.length < 65536)
    (hpos : -2147483648 ≤ c.position ∧ c.position ≤ 2147483647) (hg : g < 65536)
    (h : c.hasPixel g = true) :
    (toInt32 ((g : Int) - c.position)).toNat = ((g : Int) - c.position).toNat ∧
    toUInt16 (toInt32 ((g : Int) - c.position)) = ((g : Int) - c.position).toNat ∧
    0 ≤ (g : Int) - c.position ∧ ((g : Int) - c.position).toNat < c.length := by
  have hr := (hasPixel_range c g hlen hpos hg).1 h
  unfold toUInt16 toInt32
  omega

theorem getPulsarAtIndex_claimed (env : Env) (c : LEDCluster) (g : Nat)
    (hlen : c.length < 65536)
    (hpos : -2147483648 ≤ c.position ∧ c.position ≤ 2147483647) (hg : g < 65536)
    (h : c.hasPixel g = true) :
    c.getPulsarAtIndex env g =
      (env.gamma32 (env.colorHSV (c.pulsedCell ((g : Int) - c.position).toNat).hue
          (c.pulsedCell ((g : Int) - c.position).toNat).saturation 255),
        { c with
          pixels := c.pixels.set ((g : Int) - c.position).toNat
                      (c.pulsedCell ((g : Int) - c.position).toNat) }) := by
  unfold getPulsarAtIndex
  rw [h]
  simp only [Bool.not_true, Bool.false_eq_true, if_false]
  rw [(localIndex c g hlen hpos hg h).1]
  rfl

theorem getPulsarAtIndex_unclaimed (env : Env) (c : LEDCluster) (g : Nat)
    (h : c.hasPixel g = false) : c.getPulsarAtIndex env g = (0, c) := by
  unfold getPulsarAtIndex
  rw [h]
  rfl

theorem getPixelColorAtIndex_claimed (c : LEDCluster) (g : Nat)
    (hlen : c.length < 65536)
    (hpos : -2147483648 ≤ c.position ∧ c.position ≤ 2147483647) (hg : g < 65536)
    (h : c.hasPixel g = true) :
    c.getPixelColorAtIndex g = (c.cell ((g : Int) - c.position).toNat).rgb := by
  unfold getPixelColorAtIndex
  rw [h]
  simp only [Bool.not_true, Bool.false_eq_true, if_false]
  rw [(localIndex c g hlen hpos hg h).2.1, getRGBPixel_eq,
    if_pos (localIndex c g hlen hpos hg h).2.2.2]

theorem getPixelColorAtIndex_unclaimed (c : LEDCluster) (g : Nat)
    (h : c.hasPixel g = false) : c.getPixelColorAtIndex g = 0 := by
  unfold getPixelColorAtIndex
  rw [h]
  rfl

theorem cell_set (l : List PixelColor) (k j : Nat) (p : PixelColor) :
    (l.set k p).getD j ⟨0, 0, 0⟩ =
      if k = j ∧ k < l.length then p else l.getD j ⟨0, 0, 0⟩ := by
  rw [List.getD_eq_getElem?_getD, List.getD_eq_getElem?_getD, List.getElem?_set]
  by_cases h : k = j
  · rw [if_pos h]
    by_cases h2 : k < l.length
    · rw [if_pos h2, if_pos ⟨h, h2⟩]
      rfl
    · rw [if_neg h2, if_neg (by tauto)]
      subst h
      rw [List.getElem?_eq_none (by omega)]
  · rw [if_neg h, if_neg (by tauto)]

/-- The cluster after one call of `getPulsarAtIndex` for a claimed index. -/
theorem getPulsarAtIndex_step (env : Env) (c : LEDCluster) (g : Nat)
    (hlen : c.length < 65536)
    (hpos : -2147483648 ≤ c.position ∧ c.position ≤ 2147483647)
    (hbuf : c.pixels.length = c.length) (hg : g < 65536)
    (h : c.hasPixel g = true) :
    (c.getPulsarAtIndex env g).2.length = c.length ∧
    (c.getPulsarAtIndex env g).2.position = c.position ∧
    (c.getPulsarAtIndex env g).2.saturationInterval = c.saturationInterval ∧
    (c.getPulsarAtIndex env g).2.pixels.length = c.pixels.length ∧
    (c.getPulsarAtIndex env g).2.hasPixel g = true ∧
    ((c.getPulsarAtIndex env g).2.cell ((g : Int) - c.position).toNat).saturation =
      ((c.cell ((g : Int) - c.position).toNat).saturation + c.saturationInterval) % 256 ∧
    ((c.getPulsarAtIndex env g).2.cell ((g : Int) - c.position).toNat).hue =
      (c.cell ((g : Int) - c.position).toNat).hue ∧
    (∀ j : Nat, j ≠ ((g : Int) - c.position).toNat →
      (c.getPulsarAtIndex env g).2.cell j = c.cell j) := by
  have hk := (localIndex c g hlen hpos hg h).2.2.2
  rw [getPulsarAtIndex_claimed env c g hlen hpos hg h]
  refine ⟨rfl, rfl, rfl, List.length_set _ _ _, h, ?_, ?_, ?_⟩
  · show (List.getD (c.pixels.set _ _) _ _).saturation = _
    rw [cell_set, if_pos ⟨rfl, by omega⟩]
    rfl
  · show (List.getD (c.pixels.set _ _) _ _).hue = _
    rw [cell_set, if_pos ⟨rfl, by omega⟩]
    rfl
  · intro j hj
    show List.getD (c.pixels.set _ _) _ _ = _
    rw [cell_set, if_neg (by omega)]
    rfl

/-- What `n + 1` successive calls of `getPulsarAtIndex` for a claimed index do
to its cell. -/
theorem pulse_saturation (env : Env) (g : Nat) (n : Nat) (c : LEDCluster)
    (hlen : c.length < 65536)
    (hpos : -2147483648 ≤ c.position ∧ c.position ≤ 2147483647)
    (hbuf : c.pixels.length = c.length) (hg : g < 65536)
    (h : c.hasPixel g = true) :
    ((c.pulse env g (n + 1)).cell ((g : Int) - c.position).toNat).saturation =
      ((c.cell ((g : Int) - c.position).toNat).saturation
        + (n + 1) * c.saturationInterval) % 256 ∧
    ((c.pulse env g (n + 1)).cell ((g : Int) - c.position).toNat).hue =
      (c.cell ((g : Int) - c.position).toNat).hue := by
  induction n generalizing c with
  | zero =>
    obtain ⟨_, _, _, _, _, s6, s7, _⟩ := getPulsarAtIndex_step env c g hlen hpos hbuf hg h
    show ((c.getPulsarAtIndex env g).2.cell _).saturation = _ ∧
      ((c.getPulsarAtIndex env g).2.cell _).hue = _
    rw [s6, s7, Nat.zero_add, Nat.one_mul]
    exact ⟨rfl, rfl⟩
  | succ n ih =>
    obtain ⟨s1, s2, s3, s4, s5, s6, s7, _⟩ := getPulsarAtIndex_step env c g hlen hpos hbuf hg h
    have := ih (c.getPulsarAtIndex env g).2 (by rw [s1]; exact hlen) (by rw [s2]; exact hpos)
      (by rw [s4, s1]; exact hbuf) s5
    rw [s2, s3, s6, s7] at this
    show ((pulse env g (n + 1) (c.getPulsarAtIndex env g).2).cell _).saturation = _ ∧
      ((pulse env g (n + 1) (c.getPulsarAtIndex env g).2).cell _).hue = _
    refine ⟨?_, this.2⟩
    rw [this.1]
    have e : (n + 1 + 1) * c.saturationInterval
        = (n + 1) * c.saturationInterval + c.saturationInterval := by
      rw [Nat.succ_mul]
    rw [e]
    omega

end LEDCluster

/-- C12: for a cluster whose members have values of their declared types
(`uint16_t` length, `int32_t` position, a buffer of `length` cells) and a
`uint16_t` index `g`.  If `g` is claimed, the local index `k = g - position`
lies in the buffer, and one call of `getPulsarAtIndex(g)` changes the stored
saturation of cell `k` to `(old saturation + saturationInterval) mod 256`,
leaves the hue of that cell, every other cell and every other member
unchanged, and returns the gamma-corrected conversion of (hue, new saturation,
255); `n ≥ 1` successive calls leave the saturation
`(old saturation + n * saturationInterval) mod 256` and the hue unchanged.  If
`g` is not claimed the call returns 0 and changes nothing. -/
theorem C12_getPulsarAtIndex (env : Env) (c : LEDCluster) (g : Nat)
    (hlen : c.length < 65536)
    (hpos : -2147483648 ≤ c.position ∧ c.position ≤ 2147483647)
    (hbuf : c.pixels.length = c.length) (hg : g < 65536) :
    (c.hasPixel g = true →
      ((g : Int) - c.position).toNat < c.length ∧
      ((c.getPulsarAtIndex env g).2.cell ((g : Int) - c.position).toNat).saturation =
        ((c.cell ((g : Int) - c.position).toNat).saturation + c.saturationInterval) % 256 ∧
      ((c.getPulsarAtIndex env g).2.cell ((g : Int) - c.position).toNat).hue =
        (c.cell ((g : Int) - c.position).toNat).hue ∧
      (∀ j : Nat, j ≠ ((g : Int) - c.position).toNat →
        (c.getPulsarAtIndex env g).2.cell j = c.cell j) ∧
      (c.getPulsarAtIndex env g).2 = { c with pixels := (c.getPulsarAtIndex env g).2.pixels } ∧
      (c.getPulsarAtIndex env g).1 =
        env.gamma32 (env.colorHSV (c.cell ((g : Int) - c.position).toNat).hue
          (((c.cell ((g : Int) - c.position).toNat).saturation + c.saturationInterval) % 256)
          255) ∧
      (∀ n : Nat, 1 ≤ n →
        ((c.pulse env g n).cell ((g : Int) - c.position).toNat).saturation =
          ((c.cell ((g : Int) - c.position).toNat).saturation
            + n * c.saturationInterval) % 256 ∧
        ((c.pulse env g n).cell ((g : Int) - c.position).toNat).hue =
          (c.cell ((g : Int) - c.position).toNat).hue)) ∧
    (c.hasPixel g = false → c.getPulsarAtIndex env g = (0, c)) := by
  constructor
  · intro h
    obtain ⟨_, _, _, _, _, s6, s7, s8⟩ :=
      LEDCluster.getPulsarAtIndex_step env c g hlen hpos hbuf hg h
    refine ⟨(LEDCluster.localIndex c g hlen hpos hg h).2.2.2, s6, s7, s8, ?_, ?_, ?_⟩
    · rw [LEDCluster.getPulsarAtIndex_claimed env c g hlen hpos hg h]
    · rw [LEDCluster.getPulsarAtIndex_claimed env c g hlen hpos hg h]
      rfl
    · intro n hn
      obtain ⟨m, rfl⟩ : ∃ m, n = m + 1 := ⟨n - 1, by omega⟩
      exact LEDCluster.pulse_saturation env g m c hlen hpos hbuf hg h
  · intro h
    exact LEDCluster.getPulsarAtIndex_unclaimed env c g h

/-- C12 (witness): a pulsar bar of three cells at position 4 with saturation
and saturation interval 10; index 5 is its cell 1, whose saturation is 20
after one call and 40 after three. -/
theorem C12_getPulsarAtIndex_witness :
    Sample.pulsar.length < 65536 ∧
    (-2147483648 ≤ Sample.pulsar.position ∧ Sample.pulsar.position ≤ 2147483647) ∧
    Sample.pulsar.pixels.length = Sample.pulsar.length ∧ (5 : Nat) < 65536 ∧
    Sample.pulsar.hasPixel 5 = true ∧
    ((Sample.pulsar.getPulsarAtIndex Sample.env 5).2.cell 1).saturation = 20 ∧
    ((Sample.pulsar.pulse Sample.env 5 3).cell 1).saturation = 40 :=
  ⟨by decide, by decide, by decide, by decide, by decide,
    ((C12_getPulsarAtIndex Sample.env Sample.pulsar 5 (by decide) (by decide) (by decide)
      (by decide)).1 (by decide)).2.1.trans (by decide),
    (((C12_getPulsarAtIndex Sample.env Sample.pulsar 5 (by decide) (by decide) (by decide)
      (by decide)).1 (by decide)).2.2.2.2.2.2 3 (by decide)).1.trans (by decide)⟩

/-- C13: for a cluster whose members have values of their declared types
(`uint16_t` length, `int32_t` position) and a `uint16_t` index `g`.  If `g` is
claimed, the local index `g - position` lies in `[0, length)` and
`getPixelColorAtIndex(g)` answers the value `getRGBPixel` returns for that
cell, the 24-bit value `0xRRGGBB` of its three bytes; if `g` is not claimed it
answers 0.  The accessor answers a colour only; the composite step that calls
it for a cluster that is not a pulsar keeps the cluster as it is. -/
theorem C13_getPixelColorAtIndex (env : Env) (c : LEDCluster) (g : Nat)
    (hlen : c.length < 65536)
    (hpos : -2147483648 ≤ c.position ∧ c.position ≤ 2147483647) (hg : g < 65536) :
    (c.hasPixel g = true →
      0 ≤ (g : Int) - c.position ∧ (g : Int) - c.position < (c.length : Int) ∧
      c.getPixelColorAtIndex g = c.getRGBPixel ((g : Int) - c.position).toNat ∧
      c.getPixelColorAtIndex g = (c.cell ((g : Int) - c.position).toNat).rgb) ∧
    (c.hasPixel g = false → c.getPixelColorAtIndex g = 0) ∧
    (c.isPulsar = false → ∀ strip : List Nat,
      (LEDClusterController.compositePixel env (c, strip) g).1 = c) := by
  refine ⟨?_, LEDCluster.getPixelColorAtIndex_unclaimed c g, ?_⟩
  · intro h
    have hl := LEDCluster.localIndex c g hlen hpos hg h
    have hr := (LEDCluster.hasPixel_range c g hlen hpos hg).1 h
    refine ⟨hl.2.2.1, by omega, ?_, LEDCluster.getPixelColorAtIndex_claimed c g hlen hpos hg h⟩
    rw [LEDCluster.getPixelColorAtIndex_claimed c g hlen hpos hg h, LEDCluster.getRGBPixel_eq,
      if_pos hl.2.2.2]
  · intro hp strip
    unfold LEDClusterController.compositePixel
    dsimp only
    rw [hp]
    split <;> rfl

/-- C13 (witness): a red bar of three cells at position 4 answers red for
index 5 and 0 for index 7. -/
theorem C13_getPixelColorAtIndex_witness :
    Sample.bar.length < 65536 ∧
    (-2147483648 ≤ Sample.bar.position ∧ Sample.bar.position ≤ 2147483647) ∧
    (5 : Nat) < 65536 ∧ Sample.bar.hasPixel 5 = true ∧
    Sample.bar.getPixelColorAtIndex 5 = COLOR_RED ∧
    Sample.bar.hasPixel 7 = false ∧ Sample.bar.getPixelColorAtIndex 7 = 0 :=
  ⟨by decide, by decide, by decide, by decide,
    ((C13_getPixelColorAtIndex Sample.env Sample.bar 5 (by decide) (by decide)
      (by decide)).1 (by decide)).2.2.2.trans (by decide),
    by decide,
    (C13_getPixelColorAtIndex Sample.env Sample.bar 7 (by decide) (by decide)
      (by decide)).2.1 (by decide)⟩

/-! ### The composite loop -/

namespace LEDClusterController

open LEDCluster

theorem hasPixel_congr (a b : LEDCluster) (g : Nat)
    (hl : b.length = a.length) (hp : b.position = a.position) :
    b.hasPixel g = a.hasPixel g := by
  unfold hasPixel
  rw [hl, hp]

theorem isPulsar_congr (a b : LEDCluster)
    (hs : b.saturationInterval = a.saturationInterval) : b.isPulsar = a.isPulsar := by
  unfold isPulsar
  rw [hs]

theorem setPixelColor_length (strip : List Nat) (n color : Nat) :
    (setPixelColor strip n color).length = strip.length := by
  unfold setPixelColor
  split
  · exact List.length_set _ _ _
  · rfl

theorem setPixelColor_getElem? (strip : List Nat) (n color i : Nat) :
    (setPixelColor strip n color)[i]? =
      if n = i ∧ i < strip.length then some color else strip[i]? := by
  unfold setPixelColor
  by_cases h : n < strip.length
  · rw [if_pos h, List.getElem?_set]
    by_cases h1 : n = i
    · subst h1
      rw [if_pos rfl, if_pos h, if_pos ⟨rfl, h⟩]
    · rw [if_neg h1, if_neg (by tauto)]
  · rw [if_neg h, if_neg]
    rintro ⟨rfl, h2⟩
    exact h h2

/-- One iteration of the composite loop, for a cluster `acc.1` that agrees with
the cluster `c` that entered the loop on the cell of the index at hand. -/
theorem compositePixel_spec (env : Env) (c : LEDCluster) (acc : LEDCluster × List Nat)
    (m : Nat)
    (hlen : c.length < 65536)
    (hpos : -2147483648 ≤ c.position ∧ c.position ≤ 2147483647) (hm : m < 65536)
    (hl : acc.1.length = c.length) (hp : acc.1.position = c.position)
    (hs : acc.1.saturationInterval = c.saturationInterval)
    (hcell : c.hasPixel m = true →
      acc.1.cell ((m : Int) - c.position).toNat = c.cell ((m : Int) - c.position).toNat) :
    (compositePixel env acc m).1.length = c.length ∧
    (compositePixel env acc m).1.position = c.position ∧
    (compositePixel env acc m).1.saturationInterval = c.saturationInterval ∧
    (compositePixel env acc m).2 =
      (if c.hasPixel m = true then setPixelColor acc.2 m (fetch env c m) else acc.2) ∧
    (∀ j : Nat, j ≠ m → j < 65536 → c.hasPixel j = true →
      (compositePixel env acc m).1.cell ((j : Int) - c.position).toNat =
        acc.1.cell ((j : Int) - c.position).toNat) := by
  have hhp : acc.1.hasPixel m = c.hasPixel m := hasPixel_congr c acc.1 m hl hp
  have hip : acc.1.isPulsar = c.isPulsar := isPulsar_congr c acc.1 hs
  unfold compositePixel
  by_cases hclaim : c.hasPixel m = true
  · have hclaim1 : acc.1.hasPixel m = true := hhp.trans hclaim
    rw [if_pos hclaim1, if_pos hclaim]
    have hcell1 := hcell hclaim
    by_cases hpul : c.isPulsar = true
    · rw [if_pos (hip.trans hpul)]
      dsimp only
      have hcl1 := getPulsarAtIndex_claimed env acc.1 m (by rw [hl]; exact hlen)
        (by rw [hp]; exact hpos) hm hclaim1
      have hcl := getPulsarAtIndex_claimed env c m hlen hpos hm hclaim
      have hpc : acc.1.pulsedCell ((m : Int) - c.position).toNat =
          c.pulsedCell ((m : Int) - c.position).toNat := by
        unfold pulsedCell
        rw [hcell1, hs]
      have hk : ((m : Int) - acc.1.position).toNat = ((m : Int) - c.position).toNat := by
        rw [hp]
      rw [hk] at hcl1
      rw [hcl1]
      refine ⟨hl, hp, hs, ?_, ?_⟩
      · dsimp only
        unfold fetch
        rw [if_pos hpul, hcl, hpc]
      · intro j hj hj16 hjc
        have hrm := (hasPixel_range c m hlen hpos hm).1 hclaim
        have hrj := (hasPixel_range c j hlen hpos hj16).1 hjc
        show List.getD (acc.1.pixels.set _ _) _ _ = _
        rw [cell_set, if_neg (by omega)]
        rfl
    · rw [if_neg (by rw [hip]; exact hpul)]
      refine ⟨hl, hp, hs, ?_, fun _ _ _ _ => rfl⟩
      dsimp only
      unfold fetch
      rw [if_neg hpul, getPixelColorAtIndex_claimed acc.1 m (by rw [hl]; exact hlen)
        (by rw [hp]; exact hpos) hm hclaim1,
        getPixelColorAtIndex_claimed c m hlen hpos hm hclaim, hp, hcell1]
  · rw [if_neg (by rw [hhp]; exact hclaim), if_neg hclaim]
    exact ⟨hl, hp, hs, rfl, fun _ _ _ _ => rfl⟩

/-- The first `m` iterations of the composite loop. -/
theorem compositeFold_spec (env : Env) (c : LEDCluster) (strip : List Nat) (m : Nat)
    (hlen : c.length < 65536)
    (hpos : -2147483648 ≤ c.position ∧ c.position ≤ 2147483647) (hm : m ≤ 65536) :
    ((List.range m).foldl (compositePixel env) (c, strip)).1.length = c.length ∧
    ((List.range m).foldl (compositePixel env) (c, strip)).1.position = c.position ∧
    ((List.range m).foldl (compositePixel env) (c, strip)).1.saturationInterval =
      c.saturationInterval ∧
    ((List.range m).foldl (compositePixel env) (c, strip)).2.length = strip.length ∧
    (∀ j : Nat, m ≤ j → j < 65536 → c.hasPixel j = true →
      ((List.range m).foldl (compositePixel env) (c, strip)).1.cell
          ((j : Int) - c.position).toNat = c.cell ((j : Int) - c.position).toNat) ∧
    (∀ i : Nat, ((List.range m).foldl (compositePixel env) (c, strip)).2[i]? =
      if i < m ∧ i < strip.length ∧ c.hasPixel i = true then some (fetch env c i)
      else strip[i]?) := by
  induction m with
  | zero =>
    refine ⟨rfl, rfl, rfl, rfl, fun _ _ _ _ => rfl, ?_⟩
    intro i
    rw [if_neg (by omega)]
    rfl
  | succ m ih =>
    obtain ⟨h1, h2, h3, h4, h5, h6⟩ := ih (by omega)
    rw [List.range_succ, List.foldl_append, List.foldl_cons, List.foldl_nil]
    generalize (List.range m).foldl (compositePixel env) (c, strip) = acc at h1 h2 h3 h4 h5 h6
    obtain ⟨s1, s2, s3, s4, s5⟩ := compositePixel_spec env c acc m hlen hpos (by omega)
      h1 h2 h3 (fun hc => h5 m (le_refl _) (by omega) hc)
    refine ⟨s1, s2, s3, ?_, ?_, ?_⟩
    · rw [s4]
      split
      · rw [setPixelColor_length, h4]
      · exact h4
    · intro j hj hj16 hjc
      rw [s5 j (by omega) hj16 hjc]
      exact h5 j (by omega) hj16 hjc
    · intro i
      rw [s4]
      by_cases hc : c.hasPixel m = true
      · rw [if_pos hc, setPixelColor_getElem?, h4, h6 i]
        by_cases hmi : m = i
        · subst hmi
          by_cases hil : m < strip.length
          · rw [if_pos ⟨rfl, hil⟩, if_pos ⟨by omega, hil, hc⟩]
          · rw [if_neg (by tauto), if_neg (by omega), if_neg (by tauto)]
        · rw [if_neg (by tauto)]
          by_cases hi : i < m ∧ i < strip.length ∧ c.hasPixel i = true
          · rw [if_pos hi, if_pos ⟨by omega, hi.2⟩]
          · rw [if_neg hi, if_neg]
            rintro ⟨hi1, hi2⟩
            exact hi ⟨by omega, hi2⟩
      · rw [if_neg hc, h6 i]
        by_cases hi : i < m ∧ i < strip.length ∧ c.hasPixel i = true
        · rw [if_pos hi, if_pos ⟨by omega, hi.2⟩]
        · rw [if_neg hi, if_neg]
          rintro ⟨hi1, hi2, hi3⟩
          by_cases hmi : m = i
          · subst hmi
            exact hc hi3
          · exact hi ⟨by omega, hi2, hi3⟩

/-- The strip after the composite loop of one cluster: an index below the
strip length that the cluster claims holds the colour fetched from it, every
other cell of the strip is as before. -/
theorem composite_strip (env : Env) (n : Nat) (c : LEDCluster) (strip : List Nat)
    (hlen : c.length < 65536)
    (hpos : -2147483648 ≤ c.position ∧ c.position ≤ 2147483647) (hn : n < 65536) :
    (composite env n c strip).2.length = strip.length ∧
    (∀ i : Nat, (composite env n c strip).2[i]? =
      if i < n ∧ i < strip.length ∧ c.hasPixel i = true then some (fetch env c i)
      else strip[i]?) := by
  obtain ⟨_, _, _, h4, _, h6⟩ := compositeFold_spec env c strip n hlen hpos (by omega)
  exact ⟨h4, h6⟩

end LEDClusterController

/-! ### The strip and the slots during the cluster loop -/

namespace LEDClusterController

open LEDCluster

theorem compositePixel_length (env : Env) (acc : LEDCluster × List Nat) (m : Nat) :
    (compositePixel env acc m).2.length = acc.2.length := by
  unfold compositePixel
  split
  · split
    · exact setPixelColor_length _ _ _
    · exact setPixelColor_length _ _ _
  · rfl

theorem composite_length (env : Env) (n : Nat) (c : LEDCluster) (strip : List Nat) :
    (composite env n c strip).2.length = strip.length := by
  unfold composite
  generalize List.range n = l
  have key : ∀ acc : LEDCluster × List Nat,
      (l.foldl (compositePixel env) acc).2.length = acc.2.length := by
    induction l with
    | nil => intro acc; rfl
    | cons x l ih =>
      intro acc
      rw [List.foldl_cons, ih, compositePixel_length]
  exact key (c, strip)

/-- The processing of one cluster, split along the dormancy test. -/
theorem processCluster_eq (env : Env) (n : Nat) (w : World) (c : LEDCluster)
    (strip : List Nat) :
    processCluster env n w c strip =
      if dormant env w c = true then (c, strip, (w.millis env).2)
      else animateCluster env n (afterDormancyTest env w c) c strip := by
  unfold processCluster dormant afterDormancyTest
  by_cases hsi : c.startInterval > 0
  · by_cases hst : c.startTime > (w.millis env).1
    · simp [hsi, hst]
    · simp [hsi, hst]
  · simp [hsi]

theorem processCluster_length (env : Env) (n : Nat) (w : World) (c : LEDCluster)
    (strip : List Nat) : (processCluster env n w c strip).2.1.length = strip.length := by
  rw [processCluster_eq]
  split
  · rfl
  · exact composite_length env n _ strip

theorem clusterStep_frame (env : Env) (s : LEDClusterController × World) (m : Nat) :
    (clusterStep env s m).1.strip.length = s.1.strip.length ∧
    (clusterStep env s m).1.numLEDs = s.1.numLEDs ∧
    (∀ j : Nat, j ≠ m → (clusterStep env s m).1.clusters[j]? = s.1.clusters[j]?) := by
  cases hc : s.1.clusters.getD m none with
  | none =>
    rw [clusterStep_none env s m hc]
    exact ⟨rfl, rfl, fun _ _ => rfl⟩
  | some c =>
    rw [clusterStep_some env s m c hc]
    refine ⟨processCluster_length env _ _ c _, rfl, ?_⟩
    intro j hj
    show (s.1.clusters.set m _)[j]? = _
    rw [List.getElem?_set, if_neg (by omega)]

theorem loopState_succ (env : Env) (w : World) (ctl : LEDClusterController) (k : Nat) :
    loopState env w ctl (k + 1) = clusterStep env (loopState env w ctl k) k := by
  unfold loopState
  rw [List.range_succ, List.foldl_append, List.foldl_cons, List.foldl_nil]

theorem loopState_strip_length (env : Env) (w : World) (ctl : LEDClusterController)
    (k : Nat) : (loopState env w ctl k).1.strip.length = ctl.strip.length := by
  induction k with
  | zero => exact List.length_replicate _ _
  | succ k ih => rw [loopState_succ, (clusterStep_frame env _ k).1, ih]

theorem loopState_frame (env : Env) (w : World) (ctl : LEDClusterController) (k : Nat) :
    (loopState env w ctl k).1.numLEDs = ctl.numLEDs ∧
    (loopState env w ctl k).1.numClusters = ctl.numClusters ∧
    (loopState env w ctl k).1.strip.length = ctl.strip.length ∧
    (∀ j : Nat, k ≤ j → (loopState env w ctl k).1.clusters[j]? = ctl.clusters[j]?) := by
  obtain ⟨h1, _, h3, _, _, h6, _⟩ := clusterFold_spec env ctl.clear w k
  exact ⟨h3, h1, loopState_strip_length env w ctl k, h6⟩

theorem loopState_slot (env : Env) (w : World) (ctl : LEDClusterController) (k : Nat) :
    (loopState env w ctl k).1.clusters.getD k none = ctl.clusters.getD k none := by
  rw [List.getD_eq_getElem?_getD, List.getD_eq_getElem?_getD,
    (loopState_frame env w ctl k).2.2.2 k (le_refl _)]

/-- A slot is not touched any more once its cluster has been processed. -/
theorem loopState_slot_after (env : Env) (w : World) (ctl : LEDClusterController)
    (k d : Nat) :
    (loopState env w ctl (k + 1 + d)).1.clusters[k]? =
      (loopState env w ctl (k + 1)).1.clusters[k]? := by
  induction d with
  | zero => rfl
  | succ d ih =>
    rw [← Nat.add_assoc, loopState_succ, (clusterStep_frame env _ _).2.2 k (by omega)]
    exact ih

theorem preReap_eq_loopState (env : Env) (w : World) (ctl : LEDClusterController) :
    ctl.preReap env w = (loopState env w ctl ctl.numClusters).1 := rfl

/-- The strip is left alone by the iteration of a slot that is empty or holds
a dormant cluster. -/
theorem loopState_strip_none (env : Env) (w : World) (ctl : LEDClusterController) (k : Nat)
    (h : composited env w ctl k = none) :
    (loopState env w ctl (k + 1)).1.strip = (loopState env w ctl k).1.strip := by
  rw [loopState_succ]
  unfold composited at h
  cases hc : ctl.clusters.getD k none with
  | none =>
    rw [clusterStep_none env _ k (by rw [loopState_slot]; exact hc)]
  | some c =>
    rw [hc] at h
    dsimp only at h
    have hd : dormant env (loopState env w ctl k).2 c = true := by
      by_contra hn
      rw [if_neg hn] at h
      exact absurd h (by simp)
    rw [clusterStep_some env _ k c (by rw [loopState_slot]; exact hc)]
    show (processCluster env _ _ c _).2.1 = _
    rw [processCluster_eq, if_pos hd]

/-- The strip after the iteration of a slot whose cluster is composited. -/
theorem loopState_strip_some (env : Env) (w : World) (ctl : LEDClusterController) (k : Nat)
    (c : LEDCluster) (h : composited env w ctl k = some c)
    (hlen : c.length < 65536)
    (hpos : -2147483648 ≤ c.position ∧ c.position ≤ 2147483647)
    (hn : ctl.numLEDs < 65536) (hstrip : ctl.strip.length = ctl.numLEDs) (i : Nat)
    (hi : i < ctl.numLEDs) :
    (loopState env w ctl (k + 1)).1.strip[i]? =
      if c.hasPixel i = true then some (fetch env c i)
      else (loopState env w ctl k).1.strip[i]? := by
  obtain ⟨f1, _, f3, _⟩ := loopState_frame env w ctl k
  rw [loopState_succ]
  unfold composited at h
  cases hc : ctl.clusters.getD k none with
  | none =>
    rw [hc] at h
    exact absurd h (by simp)
  | some c0 =>
    rw [hc] at h
    dsimp only at h
    have hd : ¬ dormant env (loopState env w ctl k).2 c0 = true := by
      intro hn
      rw [if_pos hn] at h
      exact absurd h (by simp)
    rw [if_neg hd] at h
    have hce := Option.some.inj h
    rw [clusterStep_some env _ k c0 (by rw [loopState_slot]; exact hc)]
    show (processCluster env _ _ c0 _).2.1[i]? = _
    rw [processCluster_eq, if_neg hd]
    show (composite env _ (effectStep env _ c0).1 _).2[i]? = _
    rw [hce]
    have hnp : (loopState env w ctl k).1.numPixels = ctl.numLEDs := f1
    rw [(composite_strip env _ c _ hlen hpos (by rw [hnp]; exact hn)).2 i, hnp, f3, hstrip]
    by_cases hcl : c.hasPixel i = true
    · rw [if_pos ⟨hi, hi, hcl⟩, if_pos hcl]
    · rw [if_neg (by tauto), if_neg hcl]

/-- The cluster that enters the composite loop has the position and the length
of the cluster registered in the slot, so it claims the same strip indices. -/
theorem composited_slot (env : Env) (w : World) (ctl : LEDClusterController) (k : Nat)
    (c : LEDCluster) (h : composited env w ctl k = some c) :
    ∃ c0 : LEDCluster, ctl.clusters[k]? = some (some c0) ∧
      dormant env (loopState env w ctl k).2 c0 = false ∧
      c.position = c0.position ∧ c.length = c0.length ∧ ∀ i : Nat, c.hasPixel i = c0.hasPixel i := by
  unfold composited at h
  cases hc : ctl.clusters.getD k none with
  | none =>
    rw [hc] at h
    exact absurd h (by simp)
  | some c0 =>
    rw [hc] at h
    dsimp only at h
    have hd : ¬ dormant env (loopState env w ctl k).2 c0 = true := by
      intro hn
      rw [if_pos hn] at h
      exact absurd h (by simp)
    rw [if_neg hd] at h
    have hce := Option.some.inj h
    have hp := painted_fields (effectStep_painted env
      (afterDormancyTest env (loopState env w ctl k).2 c0) c0)
    rw [hce] at hp
    exact ⟨c0, getD_some_getElem? _ _ _ hc, by simpa using hd, hp.2.2.2.2.2.2.2.2.2.2.1, hp.1,
      fun i => hasPixel_congr c0 c i hp.1 hp.2.2.2.2.2.2.2.2.2.2.1⟩

end LEDClusterController

namespace LEDClusterController

open LEDCluster

theorem composited_typed (env : Env) (w : World) (ctl : LEDClusterController) (k : Nat)
    (c : LEDCluster) (hk : k < ctl.numClusters) (h : composited env w ctl k = some c)
    (htyped : ∀ c0 : LEDCluster, some c0 ∈ ctl.active →
      c0.length < 65536 ∧ -2147483648 ≤ c0.position ∧ c0.position ≤ 2147483647) :
    c.length < 65536 ∧ -2147483648 ≤ c.position ∧ c.position ≤ 2147483647 := by
  obtain ⟨c0, hs, _, hp, hl, _⟩ := composited_slot env w ctl k c h
  have := htyped c0 ((mem_active_iff ctl _).2 ⟨k, hk, hs⟩)
  rw [hp, hl]
  exact this

/-- The strip after the first `m` iterations of the cluster loop, at an index
of the strip: cleared if no composited cluster among them claims it, otherwise
the colour fetched from the last one that does. -/
theorem loopState_strip (env : Env) (w : World) (ctl : LEDClusterController)
    (hn : ctl.numLEDs < 65536) (hstrip : ctl.strip.length = ctl.numLEDs)
    (htyped : ∀ c0 : LEDCluster, some c0 ∈ ctl.active →
      c0.length < 65536 ∧ -2147483648 ≤ c0.position ∧ c0.position ≤ 2147483647)
    (i : Nat) (hi : i < ctl.numLEDs) (m : Nat) (hm : m ≤ ctl.numClusters) :
    ((∀ (k : Nat) (c : LEDCluster), k < m → composited env w ctl k = some c →
        c.hasPixel i = false) →
      (loopState env w ctl m).1.strip[i]? = some 0) ∧
    (∀ (k : Nat) (c : LEDCluster), k < m → composited env w ctl k = some c →
      c.hasPixel i = true →
      (∀ (k' : Nat) (c' : LEDCluster), k < k' → k' < m → composited env w ctl k' = some c' →
        c'.hasPixel i = false) →
      (loopState env w ctl m).1.strip[i]? = some (fetch env c i)) := by
  induction m with
  | zero =>
    constructor
    · intro _
      show (List.replicate ctl.strip.length 0)[i]? = some 0
      rw [List.getElem?_replicate, if_pos (by omega)]
    · intro k c hk
      omega
  | succ m ih =>
    obtain ⟨ihA, ihB⟩ := ih (by omega)
    cases hcm : composited env w ctl m with
    | none =>
      rw [loopState_strip_none env w ctl m hcm]
      constructor
      · intro hA
        exact ihA (fun k c hk hc => hA k c (by omega) hc)
      · intro k c hk hc hcl hlater
        have hkm : k ≠ m := by
          rintro rfl
          rw [hcm] at hc
          exact absurd hc (by simp)
        exact ihB k c (by omega) hc hcl (fun k' c' h1 h2 h3 => hlater k' c' h1 (by omega) h3)
    | some cm =>
      have ht := composited_typed env w ctl m cm (by omega) hcm htyped
      rw [loopState_strip_some env w ctl m cm hcm ht.1 ht.2 hn hstrip i hi]
      constructor
      · intro hA
        rw [if_neg (by rw [hA m cm (by omega) hcm]; simp)]
        exact ihA (fun k c hk hc => hA k c (by omega) hc)
      · intro k c hk hc hcl hlater
        by_cases hkm : k = m
        · subst hkm
          rw [hcm] at hc
          have := Option.some.inj hc
          subst this
          rw [if_pos hcl]
        · rw [if_neg (by rw [hlater m cm (by omega) (by omega) hcm]; simp)]
          exact ihB k c (by omega) hc hcl (fun k' c' h1 h2 h3 => hlater k' c' h1 (by omega) h3)

theorem show_strip (env : Env) (w : World) (ctl : LEDClusterController)
    (hrun : ctl.running = true) : (ctl.show_ env w).1.strip = (ctl.preReap env w).strip := by
  rw [show_running env w ctl hrun]
  exact (reapLoop_frame _ 0 _).2.2.1

end LEDClusterController

/-- C14: on a controller whose strip buffer has `numPixels()` cells
(`numPixels()` a `uint16_t`) and whose active clusters have members of their
declared types, for every strip index `i < numPixels()`, with `composited k`
the cluster of slot `k` as it enters the composite loop when it is not
dormant at its turn (it has the position and the length of the registered
cluster, so it claims the same indices): after the cluster loop of `show()`
the strip holds 0 at `i` if no composited cluster claims `i`, and otherwise
holds the colour fetched from the composited cluster of the highest slot that
claims `i`, whatever earlier slots painted there; the reap pass leaves the
strip as it is. -/
theorem C14_composite_order (env : Env) (w : World) (ctl : LEDClusterController)
    (hn : ctl.numLEDs < 65536) (hstrip : ctl.strip.length = ctl.numLEDs)
    (htyped : ∀ c0 : LEDCluster, some c0 ∈ ctl.active →
      c0.length < 65536 ∧ -2147483648 ≤ c0.position ∧ c0.position ≤ 2147483647)
    (i : Nat) (hi : i < ctl.numPixels) :
    ((∀ (k : Nat) (c : LEDCluster), k < ctl.numClusters →
        LEDClusterController.composited env w ctl k = some c → c.hasPixel i = false) →
      (ctl.preReap env w).strip[i]? = some 0) ∧
    (∀ (k : Nat) (c : LEDCluster), k < ctl.numClusters →
      LEDClusterController.composited env w ctl k = some c → c.hasPixel i = true →
      (∀ (k' : Nat) (c' : LEDCluster), k < k' → k' < ctl.numClusters →
        LEDClusterController.composited env w ctl k' = some c' → c'.hasPixel i = false) →
      (ctl.preReap env w).strip[i]? = some (LEDClusterController.fetch env c i)) ∧
    (∀ (k : Nat) (c : LEDCluster), LEDClusterController.composited env w ctl k = some c →
      ∃ c0 : LEDCluster, ctl.clusters[k]? = some (some c0) ∧
        LEDClusterController.dormant env (LEDClusterController.loopState env w ctl k).2 c0
          = false ∧
        c.position = c0.position ∧ c.length = c0.length ∧
        ∀ j : Nat, c.hasPixel j = c0.hasPixel j) ∧
    (ctl.running = true → (ctl.show_ env w).1.strip = (ctl.preReap env w).strip) := by
  have h := LEDClusterController.loopState_strip env w ctl hn hstrip htyped i hi
    ctl.numClusters (le_refl _)
  rw [LEDClusterController.preReap_eq_loopState]
  exact ⟨h.1, h.2, fun k c hc => LEDClusterController.composited_slot env w ctl k c hc,
    fun hrun => LEDClusterController.show_strip env w ctl hrun⟩

/-- C14 (witness): a red bar of three cells at position 4 and a green pixel
registered after it at position 5: index 5 holds green, index 4 red, index 0
the cleared state. -/
theorem C14_composite_order_witness :
    Sample.overlap.numLEDs < 65536 ∧ Sample.overlap.strip.length = Sample.overlap.numLEDs ∧
    (5 : Nat) < Sample.overlap.numPixels ∧
    LEDClusterController.composited Sample.env Sample.world Sample.overlap 1 =
      some (((Sample.still COLOR_GREEN).setStartPosition 5).setPosition 5) ∧
    (Sample.overlap.preReap Sample.env Sample.world).strip[5]? = some COLOR_GREEN ∧
    (Sample.overlap.preReap Sample.env Sample.world).strip =
      [0, 0, 0, 0, COLOR_RED, COLOR_GREEN, COLOR_RED, 0, 0, 0] :=
  ⟨by decide, by decide, by decide, by decide,
    ((C14_composite_order Sample.env Sample.world Sample.overlap (by decide) (by decide)
      (by
        intro c0 h
        have ha : Sample.overlap.active =
            [some ((Sample.bar.setStartPosition 4).setPosition 4),
              some (((Sample.still COLOR_GREEN).setStartPosition 5).setPosition 5)] := by
          decide
        rw [ha] at h
        simp only [List.mem_cons, List.mem_singleton, Option.some.injEq, List.not_mem_nil,
          or_false] at h
        rcases h with rfl | rfl <;> decide)
      5 (by decide)).2.1 1 (((Sample.still COLOR_GREEN).setStartPosition 5).setPosition 5)
      (by decide) (by decide) (by decide)
      (by
        intro k' c' h1 h2
        have : k' < 2 := h2
        omega)).trans (by decide),
    by decide⟩

/-! ### Dormant clusters -/

namespace LEDClusterController

open LEDCluster

theorem processCluster_dormant (env : Env) (n : Nat) (w : World) (c : LEDCluster)
    (strip : List Nat) (hsi : 0 < c.startInterval) (hst : c.startTime > (w.millis env).1) :
    processCluster env n w c strip = (c, strip, (w.millis env).2) := by
  unfold processCluster
  rw [if_pos hsi]
  dsimp only
  rw [if_pos hst]

theorem processCluster_awake (env : Env) (n : Nat) (w : World) (c : LEDCluster)
    (strip : List Nat) (hsi : c.startInterval = 0) :
    processCluster env n w c strip = animateCluster env n w c strip := by
  unfold processCluster
  rw [if_neg (by omega)]

/-- A dormant cluster is still in its slot, unchanged, when the reap pass
begins, and its iteration leaves the strip alone. -/
theorem dormant_slot (env : Env) (w : World) (ctl : LEDClusterController) (k : Nat)
    (c : LEDCluster) (hk : k < ctl.numClusters)
    (hslot : ctl.clusters[k]? = some (some c)) (hsi : 0 < c.startInterval)
    (hst : c.startTime > ((loopState env w ctl k).2.millis env).1) :
    (ctl.preReap env w).clusters[k]? = some (some c) ∧
    (loopState env w ctl (k + 1)).1.strip = (loopState env w ctl k).1.strip := by
  have hget : ctl.clusters.getD k none = some c := by
    rw [List.getD_eq_getElem?_getD, hslot]
    rfl
  have hget1 : (loopState env w ctl k).1.clusters.getD k none = some c := by
    rw [loopState_slot]
    exact hget
  have hlen : k < (loopState env w ctl k).1.clusters.length := by
    have h2 := getD_some_getElem? _ _ _ hget1
    by_contra hcon
    rw [List.getElem?_eq_none (by omega)] at h2
    exact absurd h2 (by simp)
  have hstep : loopState env w ctl (k + 1) =
      ({ (loopState env w ctl k).1 with
          clusters := (loopState env w ctl k).1.clusters.set k (some c)
          strip := (loopState env w ctl k).1.strip },
        ((loopState env w ctl k).2.millis env).2) := by
    rw [loopState_succ, clusterStep_some env _ k c hget1,
      processCluster_dormant env _ _ c _ hsi hst]
  constructor
  · obtain ⟨d, hd⟩ : ∃ d, ctl.numClusters = k + 1 + d := ⟨ctl.numClusters - (k + 1), by omega⟩
    rw [preReap_eq_loopState, hd, loopState_slot_after, hstep]
    show ((loopState env w ctl k).1.clusters.set k (some c))[k]? = _
    rw [List.getElem?_set_self hlen]
  · rw [hstep]

theorem dormant_kept (env : Env) (w : World) (ctl : LEDClusterController) (k : Nat)
    (c : LEDCluster) (hrun : ctl.running = true)
    (hn : ctl.numClusters ≤ ctl.clusters.length) (hk : k < ctl.numClusters)
    (hpre : (ctl.preReap env w).clusters[k]? = some (some c)) (hdone : c.done = false) :
    some c ∈ (ctl.show_ env w).1.active := by
  rw [show_running env w ctl hrun]
  have hb := preReap_bound env w ctl hn
  obtain ⟨_, _, _, r4, _, _⟩ :=
    reapLoop_spec (ctl.preReap env w).numClusters 0 (ctl.preReap env w) hb
  apply r4.subset
  rw [List.mem_filter]
  have hnum : (ctl.preReap env w).numClusters = ctl.numClusters :=
    (clusterLoop_spec env ctl.clear w).1
  refine ⟨(mem_active_iff _ _).2 ⟨k, by rw [hnum]; exact hk, hpre⟩, ?_⟩
  show (!c.done) = true
  rw [hdone]
  rfl

end LEDClusterController

namespace LEDClusterController

/-- One frame of the cluster loop flags no restarting cluster done. -/
theorem clusterLoop_restarters (env : Env) (w : World) (ctl : LEDClusterController)
    (h : ctl.RestartersAlive) : (clusterLoop env w ctl).1.RestartersAlive := by
  obtain ⟨h1, _, _, _, _, h6⟩ := clusterLoop_spec env ctl w
  intro c hc hsi
  rw [mem_active_iff] at hc
  obtain ⟨i, hi, hs⟩ := hc
  rw [h1] at hi
  rcases h6 i with hu | ⟨c0, w1, strip, hc0, hu⟩
  · rw [hu] at hs
    exact h c ((mem_active_iff ctl _).2 ⟨i, hi, hs⟩) hsi
  · rw [hu] at hs
    have hcc : (processCluster env ctl.numLEDs w1 c0 strip).1 = c := by
      simpa using hs
    obtain ⟨_, _, _, f4, _, _, f7⟩ := processCluster_frame env ctl.numLEDs w1 c0 strip
    rw [hcc] at f4 f7
    have hsi0 : 0 < c0.startInterval := by rw [← f4]; exact hsi
    rw [f7 (Or.inr (Or.inr hsi0))]
    exact h c0 ((mem_active_iff ctl _).2 ⟨i, hi, hc0⟩) hsi0

theorem show_restarters (env : Env) (w : World) (ctl : LEDClusterController)
    (hn : ctl.numClusters ≤ ctl.clusters.length) (h : ctl.RestartersAlive) :
    (ctl.show_ env w).1.RestartersAlive := by
  by_cases hrun : ctl.running = true
  · rw [show_running env w ctl hrun]
    have hb := preReap_bound env w ctl hn
    obtain ⟨_, _, r3, _, _, _⟩ :=
      reapLoop_spec (ctl.preReap env w).numClusters 0 (ctl.preReap env w) hb
    intro c hc hsi
    exact clusterLoop_restarters env w ctl.clear h c (r3.subset hc) hsi
  · have hs : ctl.show_ env w = (ctl, w) := by
      unfold show_
      simp [hrun]
    rw [hs]
    exact h

theorem addCluster_restarters (ctl : LEDClusterController) (cluster : LEDCluster)
    (position : Int) (hslots : ctl.clusters.length = ctl.maxClusters)
    (hfresh : cluster.done = false) (h : ctl.RestartersAlive) :
    (ctl.addCluster cluster position).2.1.RestartersAlive := by
  by_cases hacc : ctl.numClusters < ctl.maxClusters ∧ position < (ctl.numPixels : Int)
  · intro c hc _
    rw [addCluster_active ctl cluster position hacc.1 hacc.2 hslots, List.mem_append] at hc
    rcases hc with hc | hc
    · exact h c hc (by assumption)
    · rw [List.mem_singleton] at hc
      rw [Option.some.inj hc]
      exact hfresh
  · rw [addCluster_reject ctl cluster position (by omega)]
    exact h

/-- A host program that registers clusters not flagged done never has a
restarting cluster flagged done in the active set: `markDone()` is reached in
`show()` only for a cluster without start interval. -/
theorem run_restarters (env : Env) (calls : List Call) (s : LEDClusterController × World)
    (h : s.1.clusters.length = s.1.maxClusters ∧ s.1.numClusters ≤ s.1.maxClusters ∧ s.1.Owned)
    (hr : s.1.RestartersAlive)
    (hfresh : ∀ (cluster : LEDCluster) (position : Int),
      Call.addCluster cluster position ∈ calls → cluster.done = false) :
    (run env s calls).1.RestartersAlive := by
  induction calls generalizing s with
  | nil => exact hr
  | cons c calls ih =>
    have hc := call_inv env s c h
    have hstep : (call env s c).1.RestartersAlive := by
      cases c with
      | addCluster cluster position =>
        exact addCluster_restarters s.1 cluster position h.1
          (hfresh cluster position (List.mem_cons_self _ _)) hr
      | begin => exact hr
      | end_ => exact hr
      | show_ => exact show_restarters env s.2 s.1 (by omega) hr
    have := ih (call env s c) ⟨hc.1, hc.2.1, hc.2.2.1⟩ hstep
      (fun cluster position hm => hfresh cluster position (List.mem_cons_of_mem _ hm))
    unfold run at this ⊢
    rw [List.foldl_cons]
    exact this

end LEDClusterController

/-- C15: let the controller be in any state that the host program reaches from
the constructor by calls of `addCluster` (of clusters not flagged done),
`begin`, `end` and `show`.  For a cluster `c` in slot `k` of the active set
with `startInterval > 0` and `startTime` above the clock reading of its
dormancy test, one frame of `show()` leaves the cluster in its slot with every
member unchanged when the reap pass begins, its iteration writes nothing to
the strip, and the cluster, unchanged, is in the active set when `show()`
returns (it is not flagged done, and the reap pass keeps it).  In general the
processing of a cluster with `startInterval > 0` and `startTime > now`
returns the cluster and the strip as they were, and a cluster with
`startInterval = 0` is processed whatever its start time, without the clock
being read for the test. -/
theorem C15_dormancy (env : Env) (w0 w : World) (numLEDs maxClusters : Nat) (running : Bool)
    (calls : List LEDClusterController.Call) (ctl : LEDClusterController) (k : Nat)
    (c : LEDCluster)
    (hreach : LEDClusterController.run env
      (LEDClusterController.construct numLEDs maxClusters running, w0) calls = (ctl, w))
    (hfresh : ∀ (cluster : LEDCluster) (position : Int),
      LEDClusterController.Call.addCluster cluster position ∈ calls → cluster.done = false)
    (hk : k < ctl.numClusters)
    (hslot : ctl.clusters[k]? = some (some c)) (hsi : 0 < c.startInterval)
    (hst : c.startTime > ((LEDClusterController.loopState env w ctl k).2.millis env).1) :
    (ctl.preReap env w).clusters[k]? = some (some c) ∧
    (LEDClusterController.loopState env w ctl (k + 1)).1.strip =
      (LEDClusterController.loopState env w ctl k).1.strip ∧
    c.done = false ∧
    some c ∈ (ctl.show_ env w).1.active ∧
    (∀ (n : Nat) (w1 : World) (strip : List Nat), c.startTime > (w1.millis env).1 →
      LEDClusterController.processCluster env n w1 c strip = (c, strip, (w1.millis env).2)) ∧
    (∀ (c1 : LEDCluster) (n : Nat) (w1 : World) (strip : List Nat), c1.startInterval = 0 →
      LEDClusterController.processCluster env n w1 c1 strip =
        LEDClusterController.animateCluster env n w1 c1 strip) := by
  have hinv0 := LEDClusterController.construct_inv numLEDs maxClusters running
  have hinv := LEDClusterController.run_inv env calls
    (LEDClusterController.construct numLEDs maxClusters running, w0) hinv0
  have hres := LEDClusterController.run_restarters env calls
    (LEDClusterController.construct numLEDs maxClusters running, w0) hinv0
    (by
      intro c0 hc0
      exact absurd hc0 (List.not_mem_nil _))
    hfresh
  rw [hreach] at hinv hres
  have hn : ctl.numClusters ≤ ctl.clusters.length := by
    have h1 : ctl.clusters.length = ctl.maxClusters := hinv.1
    have h2 : ctl.numClusters ≤ ctl.maxClusters := hinv.2.1
    omega
  have hmem : some c ∈ ctl.active := (LEDClusterController.mem_active_iff ctl _).2 ⟨k, hk, hslot⟩
  have hdone : c.done = false := hres c hmem hsi
  obtain ⟨h1, h2⟩ := LEDClusterController.dormant_slot env w ctl k c hk hslot hsi hst
  refine ⟨h1, h2, hdone, ?_, ?_, ?_⟩
  · by_cases hrun : ctl.running = true
    · exact LEDClusterController.dormant_kept env w ctl k c hrun hn hk h1 hdone
    · have hs : ctl.show_ env w = (ctl, w) := by
        unfold LEDClusterController.show_
        simp [hrun]
      rw [hs]
      exact hmem
  · intro n w1 strip hst1
    exact LEDClusterController.processCluster_dormant env n w1 c strip hsi hst1
  · intro c1 n w1 strip h0
    exact LEDClusterController.processCluster_awake env n w1 c1 strip h0

/-- C15 (witness): the host calls `begin()` and registers the sleeper (start
interval 500 ms, start time 5000 ms) at position 0; in the frame at 1000 ms
the sleeper stays in the active set, unchanged. -/
theorem C15_dormancy_witness :
    LEDClusterController.run Sample.env
      (LEDClusterController.construct 10 4 false, Sample.world)
      [LEDClusterController.Call.begin,
        LEDClusterController.Call.addCluster Sample.sleeper 0] =
      (Sample.sleeping, Sample.world) ∧
    Sample.sleeper.done = false ∧
    0 < Sample.sleeping.numClusters ∧
    Sample.sleeping.clusters[0]? = some (some Sample.sleeper) ∧
    0 < Sample.sleeper.startInterval ∧
    Sample.sleeper.startTime >
      ((LEDClusterController.loopState Sample.env Sample.world Sample.sleeping 0).2.millis
        Sample.env).1 ∧
    some Sample.sleeper ∈ (Sample.sleeping.show_ Sample.env Sample.world).1.active :=
  ⟨by decide, by decide, by decide, by decide, by decide, by decide,
    (C15_dormancy Sample.env Sample.world Sample.world 10 4 false
      [LEDClusterController.Call.begin,
        LEDClusterController.Call.addCluster Sample.sleeper 0]
      Sample.sleeping 0 Sample.sleeper (by decide)
      (by
        intro cluster position h
        simp only [List.mem_cons, List.mem_singleton, List.not_mem_nil, or_false,
          LEDClusterController.Call.addCluster.injEq] at h
        rcases h with h | h
        · exact LEDClusterController.Call.noConfusion h
        · rw [h.1]
          decide)
      (by decide) (by decide) (by decide) (by decide)).2.2.2.1⟩

/-! ### The throttle within one frame -/

namespace LEDClusterController

open LEDCluster

theorem foldl_lastUpdate {α : Type} (f : LEDCluster → α → LEDCluster)
    (hf : ∀ acc x, (f acc x).lastUpdate = acc.lastUpdate) (l : List α) (a : LEDCluster) :
    (l.foldl f a).lastUpdate = a.lastUpdate := by
  induction l generalizing a with
  | nil => rfl
  | cons x l ih => rw [List.foldl_cons, ih, hf]

theorem setRGBPixel_lastUpdate (c : LEDCluster) (no color : Nat) :
    (c.setRGBPixel no color).lastUpdate = c.lastUpdate :=
  setCell_lastUpdate c no _

theorem setHSVPixel_lastUpdate (c : LEDCluster) (no hue saturation : Nat) :
    (c.setHSVPixel no hue saturation).lastUpdate = c.lastUpdate :=
  setCell_lastUpdate c no _

theorem rippleCell_lastUpdate (d : Nat) (c : LEDCluster) (src dst : Nat) :
    (rippleCell d c src dst).lastUpdate = c.lastUpdate := by
  unfold rippleCell
  dsimp only
  split
  · exact setHSVPixel_lastUpdate _ _ _ _
  · exact setRGBPixel_lastUpdate _ _ _

theorem peakMeterEffect_lastUpdate (env : Env) (w : World) (c : LEDCluster) :
    (peakMeterEffect env w c).1.lastUpdate = c.lastUpdate := by
  unfold peakMeterEffect
  dsimp only
  rw [foldl_lastUpdate _ (fun acc i => setRGBPixel_lastUpdate acc i _),
    foldl_lastUpdate _ (fun acc i => setRGBPixel_lastUpdate acc i _)]

theorem pixelSourceEffect_lastUpdate (env : Env) (c : LEDCluster) :
    (pixelSourceEffect env c).lastUpdate = c.lastUpdate := by
  unfold pixelSourceEffect
  dsimp only
  rw [foldl_lastUpdate _ (fun acc i => rippleCell_lastUpdate _ acc i _),
    setHSVPixel_lastUpdate, foldl_lastUpdate _ (fun acc i => rippleCell_lastUpdate _ acc i _)]

theorem getPulsarAtIndex_lastUpdate (env : Env) (c : LEDCluster) (pixelNo : Nat) :
    (c.getPulsarAtIndex env pixelNo).2.lastUpdate = c.lastUpdate := by
  unfold getPulsarAtIndex
  split <;> rfl

theorem compositePixel_lastUpdate (env : Env) (acc : LEDCluster × List Nat) (m : Nat) :
    (compositePixel env acc m).1.lastUpdate = acc.1.lastUpdate := by
  unfold compositePixel
  split
  · split
    · exact getPulsarAtIndex_lastUpdate env acc.1 m
    · rfl
  · rfl

theorem composite_lastUpdate (env : Env) (n : Nat) (c : LEDCluster) (strip : List Nat) :
    (composite env n c strip).1.lastUpdate = c.lastUpdate := by
  unfold composite
  generalize List.range n = l
  have key : ∀ acc : LEDCluster × List Nat,
      (l.foldl (compositePixel env) acc).1.lastUpdate = acc.1.lastUpdate := by
    induction l with
    | nil => intro acc; rfl
    | cons x l ih =>
      intro acc
      rw [List.foldl_cons, ih, compositePixel_lastUpdate]
  exact key (c, strip)

theorem shouldMove_false (c : LEDCluster) (t : Nat)
    (h : ¬ subUInt32 t c.lastUpdate > c.updateInterval) : c.shouldMove t = (false, c) := by
  unfold shouldMove
  rw [if_neg h]

theorem shouldMove_true (c : LEDCluster) (t : Nat)
    (h : subUInt32 t c.lastUpdate > c.updateInterval) :
    c.shouldMove t = (true, { c with lastUpdate := t }) := by
  unfold shouldMove
  rw [if_pos h]

theorem subUInt32_self (t : Nat) : subUInt32 t t = 0 := by
  unfold subUInt32
  omega

/-- With a clock that reads the same value at every call, the effect step of a
peak meter leaves the cluster in a state in which `shouldMove()` answers
false. -/
theorem effectStep_peak_throttled (env : Env) (w : World) (c : LEDCluster) (t : Nat)
    (hpeak : c.isPeakMeter = true) (hclock : ∀ k : Nat, env.millis k = t) :
    ¬ subUInt32 (t % 4294967296) (effectStep env w c).1.lastUpdate >
      (effectStep env w c).1.updateInterval := by
  have hui : (effectStep env w c).1.updateInterval = c.updateInterval :=
    (painted_fields (effectStep_painted env w c)).2.2.2.2.1
  rw [hui]
  have hread : (w.millis env).1 = t % 4294967296 := by
    unfold World.millis
    rw [hclock]
  unfold effectStep
  rw [if_pos hpeak]
  dsimp only
  rw [hread]
  by_cases hm : subUInt32 (t % 4294967296) c.lastUpdate > c.updateInterval
  · rw [shouldMove_true c _ hm]
    dsimp only
    rw [if_pos rfl, peakMeterEffect_lastUpdate]
    dsimp only
    rw [subUInt32_self]
    omega
  · rw [shouldMove_false c _ hm]
    dsimp only
    rw [if_neg (by simp)]
    split
    · rw [pixelSourceEffect_lastUpdate]
      exact hm
    · exact hm

/-- With a clock that reads the same value at every call, the position advance
is never applied to a peak meter: the cluster leaves the frame as it left the
composite loop. -/
theorem animate_peak_not_advanced (env : Env) (n : Nat) (w : World) (c : LEDCluster)
    (strip : List Nat) (t : Nat)
    (hpeak : c.isPeakMeter = true) (hclock : ∀ k : Nat, env.millis k = t) :
    (animateCluster env n w c strip).1 = (composite env n (effectStep env w c).1 strip).1 := by
  have hthr := effectStep_peak_throttled env w c t hpeak hclock
  have hui : (composite env n (effectStep env w c).1 strip).1.updateInterval =
      (effectStep env w c).1.updateInterval :=
    (painted_fields (composite_painted env n (effectStep env w c).1 strip)).2.2.2.2.1
  have hlu := composite_lastUpdate env n (effectStep env w c).1 strip
  unfold animateCluster moveStep
  dsimp only
  have hread : ((effectStep env w c).2.millis env).1 = t % 4294967296 := by
    unfold World.millis
    rw [hclock]
  rw [hread, shouldMove_false _ _ (by rw [hui, hlu]; exact hthr)]
  rfl

end LEDClusterController

/-- C20 (failing input): a peak meter of width 4 and peak length 2 with
direction left-to-right at position 0 on a strip of ten, update interval 0,
with the clock reading 1000 ms at every call.  The first `shouldMove()` of the
frame admits the recolouring (the bar is redrawn with width 2) and resets
`lastUpdate`; the second `shouldMove()` of the same frame then answers false,
so the position stays 0, whereas the same cluster with `peakLength = 0` moves
to position 1.  In general, with a clock that reads the same value throughout,
the position advance is never applied to a peak meter: the cluster leaves the
frame as it left the composite loop. -/
theorem C20_peak_meter_recoloured_not_advanced :
    Sample.meter.isPeakMeter = true ∧
    (Sample.meter.shouldMove 1000).1 = true ∧
    (LEDClusterController.processCluster Sample.env 10 Sample.world Sample.meter
        (List.replicate 10 0)).1.pixels.map PixelColor.rgb =
      [COLOR_GREEN, COLOR_RED, 0, 0, 0, 0] ∧
    Sample.meter.pixels.map PixelColor.rgb =
      [COLOR_GREEN, COLOR_GREEN, COLOR_YELLOW, COLOR_RED, 0, 0] ∧
    (LEDClusterController.processCluster Sample.env 10 Sample.world Sample.meter
        (List.replicate 10 0)).1.position = 0 ∧
    (LEDClusterController.processCluster Sample.env 10 Sample.world
        { Sample.meter with peakLength := 0 } (List.replicate 10 0)).1.position = 1 ∧
    (∀ (env : Env) (n : Nat) (w : World) (c : LEDCluster) (strip : List Nat) (t : Nat),
      c.isPeakMeter = true → (∀ k : Nat, env.millis k = t) →
      (LEDClusterController.animateCluster env n w c strip).1 =
        (LEDClusterController.composite env n
          (LEDClusterController.effectStep env w c).1 strip).1) := by
  refine ⟨by decide, by decide, by decide, by decide, by decide, by decide, ?_⟩
  intro env n w c strip t hpeak hclock
  exact LEDClusterController.animate_peak_not_advanced env n w c strip t hpeak hclock

/-! ### Saturation of a pulsar during one frame -/

namespace LEDClusterController

open LEDCluster

end LEDClusterController

/-! ### The size of the pixel buffer during the effect step -/

namespace LEDClusterController

open LEDCluster

end LEDClusterController

namespace LEDClusterController

open LEDCluster

/-- The peak-meter effect on a cluster of `width + peak` cells with
`peakLength = peak`, with both loops written as loops over cells: the bounds
handed to the random generator are `width - peak` and `width + peak`. -/
theorem peakMeterEffect_eq (env : Env) (w : World) (c : LEDCluster) (width peak : Nat)
    (hlt : peak < width) (hsum : width + peak ≤ 65535)
    (hl : c.length = width + peak) (hpk : c.peakLength = peak) :
    peakMeterEffect env w c =
      ((List.range' (toUInt16 (env.random w.draws ((width : Int) - (peak : Int))
            ((width : Int) + (peak : Int))))
          (c.length - toUInt16 (env.random w.draws ((width : Int) - (peak : Int))
            ((width : Int) + (peak : Int))))).foldl
        (fun acc i => acc.setCell i (rgbCell COLOR_BLACK))
        ((List.range (toUInt16 (env.random w.draws ((width : Int) - (peak : Int))
            ((width : Int) + (peak : Int))))).foldl
          (fun acc i => acc.setCell i (rgbCell (peakColor
            (toUInt16 (env.random w.draws ((width : Int) - (peak : Int))
              ((width : Int) + (peak : Int)))) i))) c),
        { w with draws := w.draws + 1 }) := by
  have hlen : toUInt16 ((c.length : Int) - (c.peakLength : Int)) = width := by
    rw [hl, hpk]
    unfold toUInt16
    omega
  unfold peakMeterEffect World.random
  dsimp only
  rw [hlen, hpk]
  have hc1 := (setCellFold_spec
    (fun i => rgbCell (peakColor (toUInt16 (env.random w.draws ((width : Int) - (peak : Int))
      ((width : Int) + (peak : Int)))) i))
    (List.range (toUInt16 (env.random w.draws ((width : Int) - (peak : Int))
      ((width : Int) + (peak : Int))))) c).1
  have hfold : ∀ (f g : LEDCluster → Nat → LEDCluster), f = g → ∀ (l : List Nat) (a : LEDCluster),
      l.foldl f a = l.foldl g a := by
    intro f g hfg l a
    rw [hfg]
  congr 1
  rw [hfold _ _ (funext fun acc => funext fun i => setRGBPixel_eq_setCell acc i COLOR_BLACK),
    hfold (fun acc i => acc.setRGBPixel i (peakColor _ i)) _
      (funext fun acc => funext fun i => setRGBPixel_eq_setCell acc i _), hc1]

end LEDClusterController

namespace LEDClusterController

open LEDCluster

/-- The cells after the peak-meter effect, for a draw `r` within the bounds
handed to the random generator. -/
theorem peakMeterEffect_cells (env : Env) (w : World) (c : LEDCluster) (width peak : Nat)
    (hlt : peak < width) (hsum : width + peak ≤ 65535)
    (hl : c.length = width + peak) (hpk : c.peakLength = peak)
    (hb : c.pixels.length = c.length) (r : Nat)
    (hr : env.random w.draws ((width : Int) - (peak : Int)) ((width : Int) + (peak : Int)) =
      (r : Int))
    (hhi : r < width + peak) :
    (peakMeterEffect env w c).1.length = c.length ∧
    (peakMeterEffect env w c).1.peakLength = c.peakLength ∧
    (peakMeterEffect env w c).1.pixels.length = c.pixels.length ∧
    ∀ i : Nat, i < c.length →
      (peakMeterEffect env w c).1.getRGBPixel i =
        if i < r then peakColor r i else COLOR_BLACK := by
  have hwd : toUInt16 (env.random w.draws ((width : Int) - (peak : Int))
      ((width : Int) + (peak : Int))) = r := by
    rw [hr, toUInt16_natCast]
    omega
  rw [peakMeterEffect_eq env w c width peak hlt hsum hl hpk, hwd]
  obtain ⟨a1, a2, a3, _, a5⟩ := setCellFold_spec (fun i => rgbCell (peakColor r i))
    (List.range r) c
  obtain ⟨b1, b2, b3, _, b5⟩ := setCellFold_spec (fun _ => rgbCell COLOR_BLACK)
    (List.range' r (c.length - r))
    ((List.range r).foldl (fun acc i => acc.setCell i (rgbCell (peakColor r i))) c)
  refine ⟨by rw [b1, a1], ?_, by rw [b2, a2], ?_⟩
  · rw [(painted_fields b3).2.2.2.2.2.2.2.2.2.1, (painted_fields a3).2.2.2.2.2.2.2.2.2.1]
  · intro i hi
    rw [getRGBPixel_eq, b1, a1, if_pos hi, cell_eq, b5 i, a1, a2, hb]
    by_cases hw : i < r
    · rw [if_neg (by rw [List.mem_range'_1]; omega), a5 i, hb,
        if_pos ⟨List.mem_range.2 hw, hi, hi⟩, if_pos hw]
      exact peakColor_rgb r i
    · rw [if_pos ⟨by rw [List.mem_range'_1]; omega, hi, hi⟩, if_neg hw]
      rfl

/-- The effect step of a peak meter whose throttle admits the step is the
peak-meter effect. -/
theorem effectStep_peak_admitted (env : Env) (w : World) (c : LEDCluster)
    (hpeak : c.isPeakMeter = true) (hmove : (c.shouldMove (w.millis env).1).1 = true) :
    effectStep env w c =
      peakMeterEffect env (w.millis env).2 (c.shouldMove (w.millis env).1).2 := by
  unfold effectStep
  rw [if_pos hpeak]
  dsimp only
  rw [if_pos hmove]

end LEDClusterController

/-- C22: for the cluster `c0` that `initPeakMeter(width, peak)` returns, with
`0 < peak < width` and `width + peak ≤ 65535`, and for every cluster `c` that
has the length, the peak length and the buffer size of `c0` (the cluster in
any later frame): `len = length - peakLength` is `width`, the bounds
`low = len - peak` and `high = len + peak` handed to the random generator
satisfy `1 ≤ low < high = length`, and for every draw `r` with
`low ≤ r < high` the bar width is `r` with `1 ≤ r < length`, so both loops of
the step write cells below `length` only; after the step cell `i` is green for
`i < r/2`, yellow for `r/2 ≤ i < r/2 + r/3`, red for `r/2 + r/3 ≤ i < r` and
black for `r ≤ i < length`, and length, peak length and buffer size are
unchanged.  When `shouldMove()` admits the step in `show()`, the effect step
is this step applied to the cluster that `shouldMove()` left. -/
theorem C22_peak_meter_step (env : Env) (w : World) (width peak : Nat) (c0 c : LEDCluster)
    (hpeak : 0 < peak) (hlt : peak < width) (hsum : width + peak ≤ 65535)
    (h0 : LEDCluster.initPeakMeter true width peak = some c0)
    (hl : c.length = c0.length) (hpk : c.peakLength = c0.peakLength)
    (hb : c.pixels.length = c0.pixels.length) :
    toUInt16 ((c.length : Int) - (c.peakLength : Int)) = width ∧
    (1 : Int) ≤ (width : Int) - (peak : Int) ∧
    (width : Int) - (peak : Int) < (width : Int) + (peak : Int) ∧
    (width : Int) + (peak : Int) = (c.length : Int) ∧
    (w.random env ((width : Int) - (peak : Int)) ((width : Int) + (peak : Int))).1 =
      env.random w.draws ((width : Int) - (peak : Int)) ((width : Int) + (peak : Int)) ∧
    (∀ r : Int,
      env.random w.draws ((width : Int) - (peak : Int)) ((width : Int) + (peak : Int)) = r →
      (width : Int) - (peak : Int) ≤ r → r < (width : Int) + (peak : Int) →
      1 ≤ r.toNat ∧ r.toNat < c.length ∧ (r.toNat : Int) = r ∧
      (∀ i : Nat, i ∈ List.range r.toNat ++ List.range' r.toNat (c.length - r.toNat) →
        i < c.length) ∧
      (LEDClusterController.peakMeterEffect env w c).1.length = c.length ∧
      (LEDClusterController.peakMeterEffect env w c).1.peakLength = c.peakLength ∧
      (LEDClusterController.peakMeterEffect env w c).1.pixels.length = c.pixels.length ∧
      (∀ i : Nat, i < r.toNat / 2 →
        (LEDClusterController.peakMeterEffect env w c).1.getRGBPixel i = 0x00FF00) ∧
      (∀ i : Nat, r.toNat / 2 ≤ i → i < r.toNat / 2 + r.toNat / 3 →
        (LEDClusterController.peakMeterEffect env w c).1.getRGBPixel i = 0xFFFF00) ∧
      (∀ i : Nat, r.toNat / 2 + r.toNat / 3 ≤ i → i < r.toNat →
        (LEDClusterController.peakMeterEffect env w c).1.getRGBPixel i = 0xFF0000) ∧
      (∀ i : Nat, r.toNat ≤ i → i < c.length →
        (LEDClusterController.peakMeterEffect env w c).1.getRGBPixel i = 0)) ∧
    (c.isPeakMeter = true ∧
      ((c.shouldMove (w.millis env).1).1 = true →
        LEDClusterController.effectStep env w c =
          LEDClusterController.peakMeterEffect env (w.millis env).2
            (c.shouldMove (w.millis env).1).2)) := by
  obtain ⟨g1, g2, g3, _⟩ := LEDCluster.initPeakMeter_cells width peak hsum hlt c0 h0
  rw [g1] at hl
  rw [g2] at hpk
  rw [g3, ← hl] at hb
  have hpm : c.isPeakMeter = true := by
    unfold LEDCluster.isPeakMeter
    rw [if_pos (by omega)]
  refine ⟨?_, by omega, by omega, by omega, rfl, ?_, hpm, ?_⟩
  · rw [hl, hpk]
    unfold toUInt16
    omega
  · intro r hr hlo hhi
    obtain ⟨p1, p2, p3, p4⟩ := LEDClusterController.peakMeterEffect_cells env w c width peak
      hlt hsum hl hpk hb r.toNat (by rw [hr]; omega) (by omega)
    refine ⟨by omega, by omega, by omega, ?_, p1, p2, p3, ?_, ?_, ?_, ?_⟩
    · intro i hi
      rw [List.mem_append, List.mem_range, List.mem_range'_1] at hi
      omega
    · intro i hi
      rw [p4 i (by omega), if_pos (by omega)]
      unfold LEDClusterController.peakColor
      rw [if_pos hi]
      rfl
    · intro i hi1 hi2
      rw [p4 i (by omega), if_pos (by omega)]
      unfold LEDClusterController.peakColor
      rw [if_neg (by omega), if_pos hi2]
      rfl
    · intro i hi1 hi2
      rw [p4 i (by omega), if_pos hi2]
      unfold LEDClusterController.peakColor
      rw [if_neg (by omega), if_neg (by omega)]
      rfl
    · intro i hi1 hi2
      rw [p4 i hi2, if_neg (by omega)]
      rfl
  · intro hmove
    exact LEDClusterController.effectStep_peak_admitted env w c hpm hmove

/-- C22 (witness): the peak meter of `initPeakMeter(4, 2)`, set to move left
to right, with the draw `2` from `[2, 6)`: the bar has width 2, cell 0 is
green, cell 1 is red and the cells 2 to 5 are black. -/
theorem C22_peak_meter_step_witness :
    0 < 2 ∧ 2 < 4 ∧ 4 + 2 ≤ 65535 ∧
    LEDCluster.initPeakMeter true 4 2 =
      some ((LEDCluster.initPeakMeter true 4 2).getD (LEDCluster.construct 0)) ∧
    Sample.env.random Sample.world.draws (((4 : Nat) : Int) - ((2 : Nat) : Int))
      (((4 : Nat) : Int) + ((2 : Nat) : Int)) = 2 ∧
    toUInt16 ((Sample.meter.length : Int) - (Sample.meter.peakLength : Int)) = 4 ∧
    (1 ≤ (2 : Int).toNat ∧ (2 : Int).toNat < Sample.meter.length) ∧
    (∀ i : Nat, i < (2 : Int).toNat / 2 →
      (LEDClusterController.peakMeterEffect Sample.env Sample.world Sample.meter).1.getRGBPixel i
        = 0x00FF00) ∧
    (∀ i : Nat, (2 : Int).toNat ≤ i → i < Sample.meter.length →
      (LEDClusterController.peakMeterEffect Sample.env Sample.world Sample.meter).1.getRGBPixel i
        = 0) ∧
    (List.range 6).map
      (LEDClusterController.peakMeterEffect Sample.env Sample.world Sample.meter).1.getRGBPixel =
      [0x00FF00, 0xFF0000, 0, 0, 0, 0] :=
  ⟨by decide, by decide, by decide, by decide, by decide,
    (C22_peak_meter_step Sample.env Sample.world 4 2
      ((LEDCluster.initPeakMeter true 4 2).getD (LEDCluster.construct 0)) Sample.meter
      (by decide) (by decide) (by decide) (by decide) (by decide) (by decide) (by decide)).1,
    ⟨((C22_peak_meter_step Sample.env Sample.world 4 2
      ((LEDCluster.initPeakMeter true 4 2).getD (LEDCluster.construct 0)) Sample.meter
      (by decide) (by decide) (by decide) (by decide) (by decide) (by decide)
      (by decide)).2.2.2.2.2.1 2 (by decide) (by decide) (by decide)).1,
     ((C22_peak_meter_step Sample.env Sample.world 4 2
      ((LEDCluster.initPeakMeter true 4 2).getD (LEDCluster.construct 0)) Sample.meter
      (by decide) (by decide) (by decide) (by decide) (by decide) (by decide)
      (by decide)).2.2.2.2.2.1 2 (by decide) (by decide) (by decide)).2.1⟩,
    ((C22_peak_meter_step Sample.env Sample.world 4 2
      ((LEDCluster.initPeakMeter true 4 2).getD (LEDCluster.construct 0)) Sample.meter
      (by decide) (by decide) (by decide) (by decide) (by decide) (by decide)
      (by decide)).2.2.2.2.2.1 2 (by decide) (by decide) (by decide)).2.2.2.2.2.2.2.1,
    ((C22_peak_meter_step Sample.env Sample.world 4 2
      ((LEDCluster.initPeakMeter true 4 2).getD (LEDCluster.construct 0)) Sample.meter
      (by decide) (by decide) (by decide) (by decide) (by decide) (by decide)
      (by decide)).2.2.2.2.2.1 2 (by decide) (by decide) (by decide)).2.2.2.2.2.2.2.2.2.2,
    by decide⟩

/-! ### The pixel-source effect -/

namespace LEDClusterController

open LEDCluster

theorem rippleCell_eq (d : Nat) (acc : LEDCluster) (src dst : Nat) (h : src < acc.length) :
    rippleCell d acc src dst = acc.setCell dst (rippled d (acc.cell src)) := by
  unfold rippleCell rippled getHue getSaturation
  rw [if_pos h, if_pos h]
  by_cases hs : toUInt16 (((acc.cell src).saturation : Nat) : Int) ≥ d
  · rw [if_pos hs]
    exact if_pos hs
  · rw [if_neg hs]
    exact if_neg hs

/-- The loop that runs backward from the center (lines 155-162) after `m`
iterations: the cells `0 .. m-1` hold what was stored for the cells
`1 .. m` as they were before the loop. -/
theorem inboundFold_spec (d : Nat) (c : LEDCluster) (m : Nat)
    (hm : m + 1 ≤ c.length) (hbuf : c.pixels.length = c.length) :
    ((List.range' 1 m).foldl (fun acc i => rippleCell d acc i (i - 1)) c).length = c.length ∧
    ((List.range' 1 m).foldl (fun acc i => rippleCell d acc i (i - 1)) c).pixels.length =
      c.pixels.length ∧
    (∀ j : Nat, ((List.range' 1 m).foldl (fun acc i => rippleCell d acc i (i - 1)) c).pixels[j]? =
      if j < m then some (rippled d (c.cell (j + 1))) else c.pixels[j]?) := by
  induction m with
  | zero =>
    refine ⟨rfl, rfl, ?_⟩
    intro j
    rw [if_neg (by omega)]
    rfl
  | succ m ih =>
    obtain ⟨h1, h2, h3⟩ := ih (by omega)
    rw [List.range'_1_concat, List.foldl_append, List.foldl_cons, List.foldl_nil]
    generalize (List.range' 1 m).foldl (fun acc i => rippleCell d acc i (i - 1)) c = acc
      at h1 h2 h3
    rw [rippleCell_eq d acc (1 + m) (1 + m - 1) (by omega)]
    refine ⟨by rw [setCell_length, h1], by rw [setCell_pixels_length, h2], ?_⟩
    intro j
    rw [setCell_getElem?, h3 j, h1, h2, hbuf]
    have hsrc : acc.cell (1 + m) = c.cell (m + 1) := by
      rw [cell_eq, cell_eq, h3 (1 + m), if_neg (by omega), Nat.add_comm]
    by_cases hj : 1 + m - 1 = j
    · rw [if_pos ⟨hj, by omega, by omega⟩, if_pos (by omega), hsrc]
      have : j = m := by omega
      rw [this]
    · rw [if_neg (by tauto)]
      by_cases hjm : j < m
      · rw [if_pos hjm, if_pos (by omega)]
      · rw [if_neg hjm, if_neg (by omega)]

end LEDClusterController

namespace LEDClusterController

open LEDCluster

/-- The loop that runs outward from the center (lines 169-176), started at
index `a + k - 1` and run down to index `a`: the cells `a+1 .. a+k` hold what
was stored for the cells `a .. a+k-1` as they were before the loop. -/
theorem outboundFold_spec (d : Nat) (a k : Nat) (c : LEDCluster)
    (hk : 0 < k → a + k < c.length) (h16 : a + k < 65536)
    (hbuf : c.pixels.length = c.length) :
    ((List.range' a k).reverse.foldl
      (fun acc i => rippleCell d acc i (toUInt16 ((i : Int) + 1))) c).length = c.length ∧
    ((List.range' a k).reverse.foldl
      (fun acc i => rippleCell d acc i (toUInt16 ((i : Int) + 1))) c).pixels.length =
      c.pixels.length ∧
    (∀ j : Nat, ((List.range' a k).reverse.foldl
      (fun acc i => rippleCell d acc i (toUInt16 ((i : Int) + 1))) c).pixels[j]? =
      if a + 1 ≤ j ∧ j ≤ a + k then some (rippled d (c.cell (j - 1))) else c.pixels[j]?) := by
  induction k generalizing c with
  | zero =>
    refine ⟨rfl, rfl, ?_⟩
    intro j
    rw [if_neg (by omega)]
    rfl
  | succ k ih =>
    have hlt := hk (by omega)
    rw [List.range'_concat, List.reverse_append, List.reverse_singleton, List.singleton_append,
      List.foldl_cons, rippleCell_eq d c _ _ (by omega)]
    have hdst : toUInt16 (((a + 1 * k : Nat) : Int) + 1) = a + k + 1 := by
      unfold toUInt16
      omega
    rw [hdst]
    obtain ⟨h1, h2, h3⟩ := ih (c.setCell (a + k + 1) (rippled d (c.cell (a + 1 * k))))
      (fun _ => by rw [setCell_length]; omega) (by omega)
      (by rw [setCell_pixels_length, setCell_length]; exact hbuf)
    refine ⟨by rw [h1, setCell_length], by rw [h2, setCell_pixels_length], ?_⟩
    intro j
    rw [h3 j, setCell_getElem?, hbuf]
    by_cases hj : a + 1 ≤ j ∧ j ≤ a + k
    · rw [if_pos hj, if_pos (by omega), cell_eq, setCell_getElem?, if_neg (by omega), ← cell_eq]
    · rw [if_neg hj]
      by_cases hj1 : a + k + 1 = j
      · rw [if_pos ⟨hj1, by omega, by omega⟩, if_pos (by omega)]
        have : j - 1 = a + 1 * k := by omega
        rw [this]
      · rw [if_neg (by tauto), if_neg (by omega)]

/-- The cells after the pixel-source effect on a cluster of at least two
cells. -/
theorem pixelSourceEffect_cells (env : Env) (c : LEDCluster)
    (h2 : 2 ≤ c.length) (h16 : c.length < 65536) (hbuf : c.pixels.length = c.length) :
    (pixelSourceEffect env c).length = c.length ∧
    (pixelSourceEffect env c).pixels.length = c.pixels.length ∧
    (∀ i : Nat, 1 ≤ i → i < c.length / 2 →
      (pixelSourceEffect env c).cell (i - 1) = rippled (255 / (c.length / 2)) (c.cell i)) ∧
    (pixelSourceEffect env c).cell (c.length / 2) =
      hsvCell (env.getSourceHue ((List.range' 1 (c.length / 2 - 1)).foldl
        (fun acc i => rippleCell (255 / (c.length / 2)) acc i (i - 1)) c) % 65536) 255 ∧
    (∀ i : Nat, c.length / 2 + 1 ≤ i → i + 2 ≤ c.length →
      (pixelSourceEffect env c).cell (i + 1) = rippled (255 / (c.length / 2)) (c.cell i)) := by
  have hcen : 1 ≤ c.length / 2 := by omega
  have hcl : c.length / 2 < c.length := by omega
  have hd : toUInt8 ((255 / (c.length / 2) : Nat) : Int) = 255 / (c.length / 2) := by
    have : 255 / (c.length / 2) ≤ 255 := Nat.div_le_self _ _
    generalize 255 / (c.length / 2) = x at this
    unfold toUInt8
    omega
  obtain ⟨a1, a2, a3⟩ := inboundFold_spec (255 / (c.length / 2)) c (c.length / 2 - 1)
    (by omega) hbuf
  unfold pixelSourceEffect
  dsimp only
  rw [hd, setHSVPixel_eq_setCell]
  generalize (List.range' 1 (c.length / 2 - 1)).foldl
    (fun acc i => rippleCell (255 / (c.length / 2)) acc i (i - 1)) c = c1 at a1 a2 a3
  generalize hsv : hsvCell (env.getSourceHue c1 % 65536) 255 = seed
  have hstart : toUInt16 (((c1.setCell (c.length / 2) seed).length : Int) - 2) = c.length - 2 := by
    rw [setCell_length, a1]
    unfold toUInt16
    omega
  rw [hstart]
  obtain ⟨b1, b2, b3⟩ := outboundFold_spec (255 / (c.length / 2)) (c.length / 2 + 1)
    (c.length - 2 - c.length / 2) (c1.setCell (c.length / 2) seed)
    (fun _ => by rw [setCell_length, a1]; omega) (by omega)
    (by rw [setCell_pixels_length, setCell_length, a1, a2]; exact hbuf)
  refine ⟨by rw [b1, setCell_length, a1], by rw [b2, setCell_pixels_length, a2], ?_, ?_, ?_⟩
  · intro i hi1 hi2
    rw [cell_eq, b3, if_neg (by omega), setCell_getElem?, if_neg (by omega), a3,
      if_pos (by omega)]
    have : i - 1 + 1 = i := by omega
    rw [this]
    rfl
  · rw [cell_eq, b3, if_neg (by omega), setCell_getElem?, a1, a2, hbuf,
      if_pos ⟨rfl, hcl, hcl⟩]
    rfl
  · intro i hi1 hi2
    rw [cell_eq, b3, if_pos (by omega)]
    have : i + 1 - 1 = i := by omega
    rw [this]
    show rippled _ ((c1.setCell (c.length / 2) seed).cell i) = _
    rw [cell_eq, setCell_getElem?, if_neg (by omega), a3, if_neg (by omega), ← cell_eq]

end LEDClusterController

namespace LEDClusterController

open LEDCluster

/-- What the copy loops store for a source cell whose hue is a `uint16_t` and
whose saturation is a `uint8_t`. -/
theorem rippled_typed (d : Nat) (p : PixelColor) (hh : p.hue < 65536)
    (hs : p.saturation < 256) :
    (d ≤ p.saturation →
      (rippled d p).hue = p.hue ∧ (rippled d p).saturation = p.saturation - d) ∧
    (p.saturation < d → rippled d p = ⟨0, 0, 0⟩) := by
  have h1 : toUInt16 ((p.saturation : Nat) : Int) = p.saturation := by
    rw [toUInt16_natCast]
    omega
  have h2 : toUInt16 ((p.hue : Nat) : Int) = p.hue := by
    rw [toUInt16_natCast]
    omega
  unfold rippled
  rw [h1, h2]
  constructor
  · intro hd
    rw [if_pos hd]
    have h3 : toUInt8 ((p.saturation : Int) - (d : Int)) = p.saturation - d := by
      unfold toUInt8
      omega
    rw [h3]
    exact ⟨hsvCell_hue _ _ hh, hsvCell_saturation _ _ (by omega)⟩
  · intro hd
    rw [if_neg (by omega)]
    rfl

theorem effectStep_source (env : Env) (w : World) (c : LEDCluster)
    (hsrc : env.isPixelSource c = true) (hpeak : c.isPeakMeter = false) :
    effectStep env w c = (pixelSourceEffect env c, w) := by
  unfold effectStep
  rw [if_neg (by rw [hpeak]; simp), if_pos hsrc]

end LEDClusterController

/-- C23 (counterexample): a pixel-source cluster of six cells (center 3,
decrement 85) whose cell `i` has hue `100 * (i + 1)` and saturation `50 * i`.
After one effect step the cell one step nearer the center than an inbound
index has not received that index's hue: cell 2 still holds hue 300 and
saturation 100 (not black, which the saturation 50 of cell 1 would give) and
the center cell 3 holds the source hue (not hue 300 of cell 2).  What was
stored for the cells 1 and 2 is in the cells 0 and 1. -/
theorem C23_inbound_moves_outward :
    Sample.sourceEnv.isPixelSource Sample.source = true ∧
    Sample.source.length / 2 = 3 ∧ 255 / (Sample.source.length / 2) = 85 ∧
    Sample.source.pixels.map (fun p => (p.hue, p.saturation)) =
      [(100, 0), (200, 50), (300, 100), (400, 150), (500, 200), (600, 250)] ∧
    (LEDClusterController.pixelSourceEffect Sample.sourceEnv Sample.source).pixels.map
        (fun p => (p.hue, p.saturation)) =
      [(0, 0), (300, 15), (300, 100), (7777, 255), (500, 200), (500, 115)] ∧
    ¬ (∀ i : Nat, i < 3 → 1 ≤ i →
      if 85 ≤ (Sample.source.cell i).saturation then
        ((LEDClusterController.pixelSourceEffect Sample.sourceEnv Sample.source).cell
            (i + 1)).hue = (Sample.source.cell i).hue ∧
        ((LEDClusterController.pixelSourceEffect Sample.sourceEnv Sample.source).cell
            (i + 1)).saturation = (Sample.source.cell i).saturation - 85
      else
        (LEDClusterController.pixelSourceEffect Sample.sourceEnv Sample.source).cell (i + 1) =
          ⟨0, 0, 0⟩) := by
  decide

/-- C23 (amended): for a cluster of `2 ≤ length < 65536` cells (buffer of
`length` cells, hues `uint16_t`, saturations `uint8_t`), with
`center = length / 2` and `d = 255 / center`, one pixel-source effect step
(the effect step of `show()` for a pixel source that is not a peak meter)
gives: for every inbound index `i` in `1 .. center-1` the cell `i - 1` (one
step farther from the center) has the pre-step hue of cell `i` with its
saturation lowered by `d`, or is black when that saturation is below `d`; the
center cell has the source hue (as a `uint16_t`) and saturation 255; for every
outbound index `i` in `center+1 .. length-2` the cell `i + 1` has the pre-step
hue of cell `i` with its saturation lowered by `d`, or is black when that
saturation is below `d`; all these cells are inside `[0, length)`, and the
length and the buffer size are unchanged. -/
theorem C23_ripple_step (env : Env) (w : World) (c : LEDCluster)
    (h2 : 2 ≤ c.length) (h16 : c.length < 65536) (hbuf : c.pixels.length = c.length)
    (htyped : ∀ i : Nat, i < c.length →
      (c.cell i).hue < 65536 ∧ (c.cell i).saturation < 256) :
    (env.isPixelSource c = true → c.isPeakMeter = false →
      LEDClusterController.effectStep env w c =
        (LEDClusterController.pixelSourceEffect env c, w)) ∧
    (∀ i : Nat, 1 ≤ i → i < c.length / 2 →
      i - 1 < c.length ∧
      (255 / (c.length / 2) ≤ (c.cell i).saturation →
        ((LEDClusterController.pixelSourceEffect env c).cell (i - 1)).hue = (c.cell i).hue ∧
        ((LEDClusterController.pixelSourceEffect env c).cell (i - 1)).saturation =
          (c.cell i).saturation - 255 / (c.length / 2)) ∧
      ((c.cell i).saturation < 255 / (c.length / 2) →
        (LEDClusterController.pixelSourceEffect env c).cell (i - 1) = ⟨0, 0, 0⟩)) ∧
    (c.length / 2 < c.length ∧
      ((LEDClusterController.pixelSourceEffect env c).cell (c.length / 2)).hue =
        env.getSourceHue ((List.range' 1 (c.length / 2 - 1)).foldl
          (fun acc i => LEDClusterController.rippleCell (255 / (c.length / 2)) acc i (i - 1)) c)
          % 65536 ∧
      ((LEDClusterController.pixelSourceEffect env c).cell (c.length / 2)).saturation = 255) ∧
    (∀ i : Nat, c.length / 2 + 1 ≤ i → i ≤ c.length - 2 →
      i + 1 < c.length ∧
      (255 / (c.length / 2) ≤ (c.cell i).saturation →
        ((LEDClusterController.pixelSourceEffect env c).cell (i + 1)).hue = (c.cell i).hue ∧
        ((LEDClusterController.pixelSourceEffect env c).cell (i + 1)).saturation =
          (c.cell i).saturation - 255 / (c.length / 2)) ∧
      ((c.cell i).saturation < 255 / (c.length / 2) →
        (LEDClusterController.pixelSourceEffect env c).cell (i + 1) = ⟨0, 0, 0⟩)) ∧
    (LEDClusterController.pixelSourceEffect env c).length = c.length ∧
    (LEDClusterController.pixelSourceEffect env c).pixels.length = c.pixels.length := by
  obtain ⟨p1, p2, p3, p4, p5⟩ := LEDClusterController.pixelSourceEffect_cells env c h2 h16 hbuf
  refine ⟨LEDClusterController.effectStep_source env w c, ?_, ?_, ?_, p1, p2⟩
  · intro i hi1 hi2
    obtain ⟨t1, t2⟩ := htyped i (by omega)
    rw [p3 i hi1 hi2]
    exact ⟨by omega, LEDClusterController.rippled_typed _ _ t1 t2⟩
  · rw [p4]
    exact ⟨by omega, LEDCluster.hsvCell_hue _ _ (Nat.mod_lt _ (by decide)),
      LEDCluster.hsvCell_saturation _ _ (by decide)⟩
  · intro i hi1 hi2
    obtain ⟨t1, t2⟩ := htyped i (by omega)
    rw [p5 i hi1 (by omega)]
    exact ⟨by omega, LEDClusterController.rippled_typed _ _ t1 t2⟩

/-- C23 (witness): the six-cell pixel source: cell 1 has the pre-step hue 300
of the inbound cell 2 with saturation 100 - 85, and cell 5 has the pre-step
hue 500 of the outbound cell 4 with saturation 200 - 85. -/
theorem C23_ripple_step_witness :
    2 ≤ Sample.source.length ∧ Sample.source.length < 65536 ∧
    Sample.source.pixels.length = Sample.source.length ∧
    (∀ i : Nat, i < Sample.source.length →
      (Sample.source.cell i).hue < 65536 ∧ (Sample.source.cell i).saturation < 256) ∧
    (((LEDClusterController.pixelSourceEffect Sample.sourceEnv Sample.source).cell (2 - 1)).hue =
        (Sample.source.cell 2).hue ∧
      ((LEDClusterController.pixelSourceEffect Sample.sourceEnv Sample.source).cell
          (2 - 1)).saturation =
        (Sample.source.cell 2).saturation - 255 / (Sample.source.length / 2)) ∧
    (((LEDClusterController.pixelSourceEffect Sample.sourceEnv Sample.source).cell (4 + 1)).hue =
        (Sample.source.cell 4).hue ∧
      ((LEDClusterController.pixelSourceEffect Sample.sourceEnv Sample.source).cell
          (4 + 1)).saturation =
        (Sample.source.cell 4).saturation - 255 / (Sample.source.length / 2)) ∧
    (Sample.source.cell 2).hue = 300 ∧ (Sample.source.cell 2).saturation = 100 ∧
    (Sample.source.cell 4).hue = 500 ∧ (Sample.source.cell 4).saturation = 200 :=
  ⟨by decide, by decide, by decide, by decide,
    ((C23_ripple_step Sample.sourceEnv Sample.world Sample.source (by decide) (by decide)
      (by decide) (by decide)).2.1 2 (by decide) (by decide)).2.1 (by decide),
    ((C23_ripple_step Sample.sourceEnv Sample.world Sample.source (by decide) (by decide)
      (by decide) (by decide)).2.2.2.1 4 (by decide) (by decide)).2.1 (by decide),
    by decide, by decide, by decide, by decide⟩

/-! ### The position stays on the strip -/

namespace LEDClusterController

open LEDCluster

/-- The position advance keeps a cluster on the strip. -/
theorem advance_onStrip (env : Env) (n : Nat) (w : World) (c : LEDCluster)
    (hn1 : 1 ≤ n) (hn16 : n < 65536) (h : c.OnStrip n) :
    (advance env n w c).1.OnStrip n := by
  obtain ⟨l1, l16, p1, p2, s1, s2⟩ := h
  obtain ⟨f1, _, _, _, f5, _⟩ := advance_frame env n w c
  have hstep : -1 ≤ c.direction.step ∧ c.direction.step ≤ 1 := by
    cases c.direction <;> exact ⟨by decide, by decide⟩
  have hadv : advancedPosition c = c.position + c.direction.step :=
    advancedPosition_eq c ⟨by omega, by omega⟩
  have key : -(c.length : Int) < (advance env n w c).1.position ∧
      (advance env n w c).1.position < (n : Int) := by
    by_cases hlow : advancedPosition c ≤ -(c.length : Int)
    · cases hw : c.wrapAround with
      | true =>
        rw [advance_wrap_low env n w c hw hlow]
        exact ⟨by show -(c.length : Int) < (n : Int) - 1; omega,
          by show (n : Int) - 1 < (n : Int); omega⟩
      | false =>
        cases hb : c.backAndForth with
        | true =>
          rw [advance_flip_low env n w c hw hb hlow]
          exact ⟨p1, p2⟩
        | false =>
          by_cases hsi : 0 < c.startInterval
          · rw [advance_restart env n w c hw hb hsi (Or.inl hlow)]
            exact ⟨s1, s2⟩
          · rw [advance_markDone env n w c hw hb (by omega) (Or.inl hlow)]
            exact ⟨p1, p2⟩
    · by_cases hhigh : (n : Int) ≤ advancedPosition c
      · cases hw : c.wrapAround with
        | true =>
          rw [advance_wrap_high env n w c hw (by omega) hhigh]
          exact ⟨by show -(c.length : Int) < 1 - (c.length : Int); omega,
            by show 1 - (c.length : Int) < (n : Int); omega⟩
        | false =>
          cases hb : c.backAndForth with
          | true =>
            rw [advance_flip_high env n w c hw hb (by omega) hhigh]
            exact ⟨p1, p2⟩
          | false =>
            by_cases hsi : 0 < c.startInterval
            · rw [advance_restart env n w c hw hb hsi (Or.inr hhigh)]
              exact ⟨s1, s2⟩
            · rw [advance_markDone env n w c hw hb (by omega) (Or.inr hhigh)]
              exact ⟨p1, p2⟩
      · rw [advance_inside env n w c (by omega) (by omega)]
        exact ⟨by show -(c.length : Int) < advancedPosition c; omega,
          by show advancedPosition c < (n : Int); omega⟩
  unfold OnStrip
  rw [f1, f5]
  exact ⟨l1, l16, key.1, key.2, s1, s2⟩

/-- The processing of a cluster by one frame keeps it on the strip. -/
theorem processCluster_onStrip (env : Env) (n : Nat) (w : World) (c : LEDCluster)
    (strip : List Nat) (hn1 : 1 ≤ n) (hn16 : n < 65536) (h : c.OnStrip n) :
    (processCluster env n w c strip).1.OnStrip n := by
  obtain ⟨c1, hp, hr⟩ := processCluster_shape env n w c strip
  obtain ⟨p1, _, _, _, _, _, _, p8, _, _, p11, _⟩ := painted_fields hp
  have h1 : c1.OnStrip n := by
    unfold OnStrip
    rw [p1, p8, p11]
    exact h
  rcases hr with hr | ⟨w1, hr⟩
  · rw [hr]
    exact h1
  · rw [hr]
    exact advance_onStrip env n w1 c1 hn1 hn16 h1

theorem clusterLoop_onStrip (env : Env) (w : World) (ctl : LEDClusterController) (n : Nat)
    (hn1 : 1 ≤ n) (hn16 : n < 65536) (h : ctl.AllOnStrip n) :
    (clusterLoop env w ctl).1.AllOnStrip n := by
  obtain ⟨h1, _, h3, _, h5, h6⟩ := clusterLoop_spec env ctl w
  obtain ⟨a1, a2, a3⟩ := h
  refine ⟨h3.trans a1, by rw [h1, h5]; exact a2, ?_⟩
  intro c hc
  rw [mem_active_iff] at hc
  obtain ⟨i, hi, hs⟩ := hc
  rw [h1] at hi
  rcases h6 i with hu | ⟨c0, w1, strip, hc0, hu⟩
  · rw [hu] at hs
    exact a3 c ((mem_active_iff ctl _).2 ⟨i, hi, hs⟩)
  · rw [hu] at hs
    have hcc : (processCluster env ctl.numLEDs w1 c0 strip).1 = c := by
      simpa using hs
    rw [← hcc, a1]
    exact processCluster_onStrip env n w1 c0 strip hn1 hn16
      (a3 c0 ((mem_active_iff ctl _).2 ⟨i, hi, hc0⟩))

theorem preReap_onStrip (env : Env) (w : World) (ctl : LEDClusterController) (n : Nat)
    (hn1 : 1 ≤ n) (hn16 : n < 65536) (h : ctl.AllOnStrip n) :
    (ctl.preReap env w).AllOnStrip n :=
  clusterLoop_onStrip env w ctl.clear n hn1 hn16 h

theorem show_onStrip (env : Env) (w : World) (ctl : LEDClusterController) (n : Nat)
    (hn1 : 1 ≤ n) (hn16 : n < 65536) (h : ctl.AllOnStrip n) :
    (ctl.show_ env w).1.AllOnStrip n := by
  by_cases hrun : ctl.running = true
  · rw [show_running env w ctl hrun]
    obtain ⟨b1, b2, b3⟩ := preReap_onStrip env w ctl n hn1 hn16 h
    obtain ⟨r1, r2, r3, _, _, _⟩ :=
      reapLoop_spec (ctl.preReap env w).numClusters 0 (ctl.preReap env w) b2
    have g1 : (reap (ctl.preReap env w)).numClusters ≤ (ctl.preReap env w).numClusters := r1
    have g2 : (reap (ctl.preReap env w)).clusters.length = (ctl.preReap env w).clusters.length := r2
    have g3 : (reap (ctl.preReap env w)).numLEDs = (ctl.preReap env w).numLEDs :=
      (reapLoop_frame _ 0 _).2.1
    refine ⟨g3.trans b1, by omega, ?_⟩
    intro c hc
    exact b3 c (r3.subset hc)
  · have hs : ctl.show_ env w = (ctl, w) := by
      unfold show_
      simp [hrun]
    rw [hs]
    exact h

theorem showFrames_onStrip (env : Env) (frames : Nat) (s : LEDClusterController × World)
    (n : Nat) (hn1 : 1 ≤ n) (hn16 : n < 65536) (h : s.1.AllOnStrip n) :
    (showFrames env frames s).1.AllOnStrip n := by
  induction frames generalizing s with
  | zero => exact h
  | succ k ih => exact ih (s.1.show_ env s.2) (show_onStrip env s.2 s.1 n hn1 hn16 h)

/-- A cluster on the strip claims an index of the strip. -/
theorem onStrip_claims (c : LEDCluster) (n : Nat) (hn1 : 1 ≤ n) (hn16 : n < 65536)
    (h : c.OnStrip n) :
    c.position.toNat < n ∧ c.hasPixel c.position.toNat = true := by
  obtain ⟨l1, l16, p1, p2, _, _⟩ := h
  refine ⟨by omega, ?_⟩
  rw [hasPixel_range c _ l16 ⟨by omega, by omega⟩ (by omega)]
  omega

end LEDClusterController

/-- C24: on a controller with a strip of `1 ≤ N < 65536` pixels whose active
clusters all have `1 ≤ L < 65536` cells, a position `p` with `-L < p < N` and
a start position `s` with `-L < s < N`: after any number of `show()` frames
(any direction, boundary policy, start interval and clock) every active
cluster has a position with `-L < position < N` and claims an index of
`[0, N)`; the same holds for every cluster in the next frame when its reap
pass begins, so also for the clusters that the frame flags done.  For one
cluster, the processing by a frame stores a position in that range and leaves
length and start position as they were. -/
theorem C24_position_on_strip (env : Env) (w : World) (ctl : LEDClusterController)
    (frames : Nat) (hn1 : 1 ≤ ctl.numLEDs) (hn16 : ctl.numLEDs < 65536)
    (hslots : ctl.numClusters ≤ ctl.clusters.length)
    (hin : ∀ c : LEDCluster, some c ∈ ctl.active →
      1 ≤ c.length ∧ c.length < 65536 ∧
      -(c.length : Int) < c.position ∧ c.position < (ctl.numLEDs : Int) ∧
      -(c.length : Int) < c.startPosition ∧ c.startPosition < (ctl.numLEDs : Int)) :
    (∀ c : LEDCluster,
      some c ∈ (LEDClusterController.showFrames env frames (ctl, w)).1.active →
      -(c.length : Int) < c.position ∧ c.position < (ctl.numLEDs : Int) ∧
      ∃ i : Nat, i < ctl.numLEDs ∧ c.hasPixel i = true) ∧
    (∀ c : LEDCluster,
      some c ∈ ((LEDClusterController.showFrames env frames (ctl, w)).1.preReap env
        (LEDClusterController.showFrames env frames (ctl, w)).2).active →
      -(c.length : Int) < c.position ∧ c.position < (ctl.numLEDs : Int) ∧
      ∃ i : Nat, i < ctl.numLEDs ∧ c.hasPixel i = true) ∧
    (∀ (c : LEDCluster) (w1 : World) (strip : List Nat), c.OnStrip ctl.numLEDs →
      -(c.length : Int) <
        (LEDClusterController.processCluster env ctl.numLEDs w1 c strip).1.position ∧
      (LEDClusterController.processCluster env ctl.numLEDs w1 c strip).1.position <
        (ctl.numLEDs : Int) ∧
      (LEDClusterController.processCluster env ctl.numLEDs w1 c strip).1.length = c.length ∧
      (LEDClusterController.processCluster env ctl.numLEDs w1 c strip).1.startPosition =
        c.startPosition) := by
  have h0 : ctl.AllOnStrip ctl.numLEDs := ⟨rfl, hslots, hin⟩
  have h1 := LEDClusterController.showFrames_onStrip env frames (ctl, w) ctl.numLEDs hn1 hn16 h0
  have h2 := LEDClusterController.preReap_onStrip env
    (LEDClusterController.showFrames env frames (ctl, w)).2
    (LEDClusterController.showFrames env frames (ctl, w)).1 ctl.numLEDs hn1 hn16 h1
  refine ⟨?_, ?_, ?_⟩
  · intro c hc
    have hon := h1.2.2 c hc
    have hcl := LEDClusterController.onStrip_claims c ctl.numLEDs hn1 hn16 hon
    exact ⟨hon.2.2.1, hon.2.2.2.1, _, hcl.1, hcl.2⟩
  · intro c hc
    have hon := h2.2.2 c hc
    have hcl := LEDClusterController.onStrip_claims c ctl.numLEDs hn1 hn16 hon
    exact ⟨hon.2.2.1, hon.2.2.2.1, _, hcl.1, hcl.2⟩
  · intro c w1 strip hon
    have hp := LEDClusterController.processCluster_onStrip env ctl.numLEDs w1 c strip hn1 hn16 hon
    obtain ⟨f1, _, _, _, f5, _⟩ :=
      LEDClusterController.processCluster_frame env ctl.numLEDs w1 c strip
    refine ⟨?_, hp.2.2.2.1, f1, f5⟩
    have := hp.2.2.1
    rw [f1] at this
    exact this

/-- C24 (witness): the restarting runner and the bouncer of three cells, both
registered on the last pixel of the strip of ten: after three frames both are
still at position 9. -/
theorem C24_position_on_strip_witness :
    1 ≤ Sample.travellers.numLEDs ∧ Sample.travellers.numLEDs < 65536 ∧
    Sample.travellers.numClusters ≤ Sample.travellers.clusters.length ∧
    (∀ c : LEDCluster,
      some c ∈ (LEDClusterController.showFrames Sample.env 3
        (Sample.travellers, Sample.world)).1.active →
      -(c.length : Int) < c.position ∧ c.position < (Sample.travellers.numLEDs : Int) ∧
      ∃ i : Nat, i < Sample.travellers.numLEDs ∧ c.hasPixel i = true) ∧
    (LEDClusterController.showFrames Sample.env 3
      (Sample.travellers, Sample.world)).1.active.map
        (Option.map (fun c => (c.position, c.direction))) =
      [some (9, Direction.LtR), some (9, Direction.RtL)] :=
  ⟨by decide, by decide, by decide,
    (C24_position_on_strip Sample.env Sample.world Sample.travellers 3 (by decide) (by decide)
      (by decide)
      (by
        intro c h
        have ha : Sample.travellers.active =
            [some ((Sample.restarter.setStartPosition 9).setPosition 9),
              some ((Sample.bouncer3.setStartPosition 9).setPosition 9)] := by
          decide
        rw [ha] at h
        simp only [List.mem_cons, List.mem_singleton, Option.some.injEq, List.not_mem_nil,
          or_false] at h
        rcases h with rfl | rfl <;> decide)).1,
    by decide⟩
